import Mathlib

/-!
# TerraMidi: MIDIConnectionNotifier

A shallow embedding of `src/js/midi/midiConnectionNotifier.js`.

* The registry `activeNotifications` is a JavaScript `Map`; it is embedded as an
  association list in insertion order (`set` on a key that is present keeps
  the key's position, `delete` drops the key).
* DOM elements are objects shared by reference between the registry and the
  container, so they live in a heap (`elements`) and are named by their index.
* `setTimeout` callbacks are kept in a list of pending timers; each has the
  integer handle `setTimeout` returns, its delay and a description of the
  closure.  Firing a timer is a separate step of the model, so any interleaving
  of calls and deferred callbacks is a list of events.
* `Date.now()` and `Math.random()` only feed the generated id, which is an
  input of the operations that generate one (`gen`).
-/

namespace TerraMidi

/-! ## JavaScript `Map` in insertion order -/

namespace JSMap

variable {β : Type}

/-- Embeds `map.has(k)`. -/
def has (m : List (String × β)) (k : String) : Bool :=
  m.any (fun e => e.1 == k)

/-- Embeds `map.get(k)`; `none` stands for `undefined`. -/
def get (m : List (String × β)) (k : String) : Option β :=
  match m with
  | [] => none
  | e :: rest => if e.1 = k then some e.2 else get rest k

/-- Embeds `map.set(k, v)`: a key that is present keeps its position and takes the
new value, a new key is appended. -/
def set (m : List (String × β)) (k : String) (v : β) : List (String × β) :=
  match m with
  | [] => [(k, v)]
  | e :: rest => if e.1 = k then (k, v) :: rest else e :: set rest k v

/-- Embeds `map.delete(k)`. -/
def delete (m : List (String × β)) (k : String) : List (String × β) :=
  m.filter (fun e => e.1 != k)

/-- Embeds `map.size`. -/
def size (m : List (String × β)) : Nat := m.length

/-- Embeds `Array.from(map.keys())`. -/
def keys (m : List (String × β)) : List String := m.map Prod.fst

end JSMap

/-! ## Data model -/

/-- The property names every object literal inherits from `Object.prototype`
in a browser; each holds a function, `__proto__` holds the prototype object. -/
def objectPrototypeMembers : List String :=
  ["constructor", "hasOwnProperty", "isPrototypeOf", "propertyIsEnumerable",
   "toLocaleString", "toString", "valueOf", "__proto__",
   "__defineGetter__", "__defineSetter__", "__lookupGetter__", "__lookupSetter__"]

/-- What `formatAutoReconnectReason` can return. -/
inductive JSValue where
  | str (s : String)
  /-- The member `name` of `Object.prototype`: a function or an object, not a string. -/
  | inherited (name : String)
  deriving DecidableEq, Repr

/-- The text of a value inside a template literal or a string concatenation.  A
function inherited from `Object.prototype` prints its source text, the
prototype object itself prints as `[object Object]`. -/
def JSValue.toText : JSValue → String
  | .str s => s
  | .inherited name =>
    if name = "__proto__" then "[object Object]"
    else "function " ++ (if name = "constructor" then "Object" else name) ++
      "() \x7b [native code] \x7d"

/-- The object literal `typeStyles` of lines 585-590. -/
def typeStyles : List (String × String) :=
  [("success", "background: linear-gradient(135deg, #00ff88 0%, #00cc6a 100%);"),
   ("warning", "background: linear-gradient(135deg, #ffd700 0%, #ffb700 100%); color: #333;"),
   ("error", "background: linear-gradient(135deg, #ff4444 0%, #cc0000 100%);"),
   ("info", "background: linear-gradient(135deg, #667eea 0%, #764ba2 100%);")]

/-- Reads `typeStyles[type]`: an own property of the literal, else a member
inherited from `Object.prototype`, else `undefined` (`none`). -/
def typeStylesAt (type : String) : Option JSValue :=
  match JSMap.get typeStyles type with
  | some css => some (.str css)
  | none => if type ∈ objectPrototypeMembers then some (.inherited type) else none

/-- Line 592: `typeStyles[type] || typeStyles.info`, the value `applyNotificationStyles`
appends to `baseStyles`.  Every value `typeStyles[type]` finds is truthy. -/
def styleBucket (type : String) : JSValue :=
  match typeStylesAt type with
  | some v => v
  | none => .str "background: linear-gradient(135deg, #667eea 0%, #764ba2 100%);"

/-- The node `.permission-countdown` inside a notification: its text and the two
style properties `updatePermissionCountdown` writes. -/
structure Countdown where
  text : String
  color : String
  animation : String
  deriving DecidableEq, Repr

/-- The part of an `HTMLElement` the notifier reads or writes. -/
structure Element where
  id : String
  className : String
  icon : String
  message : String
  transform : String
  opacity : String
  animation : String
  /-- The bucket `applyNotificationStyles` appended to `baseStyles` in `style.cssText`. -/
  typeStyle : JSValue := .str ""
  /-- The property `style.border`. -/
  border : String := ""
  /-- The descendant of class `permission-countdown`, which only the markup of
  `showWaitingPermission` contains. -/
  countdown : Option Countdown := none
  deriving DecidableEq, Repr

/-- The closures handed to `setTimeout`. -/
inductive Callback where
  /-- Lines 529-532: the enter transition of element `el`. -/
  | enter (el : Nat)
  /-- Lines 536-538: `this.remove(id)` after `duration`. -/
  | autoRemove (id : String)
  /-- Lines 641-644: `notification.remove(); this.activeNotifications.delete(id)`. -/
  | exitCleanup (el : Nat) (id : String)
  /-- Lines 383-385: `this.remove(notificationId)` after the fade. -/
  | hideRemove (id : String)
  deriving DecidableEq, Repr

/-- A pending `setTimeout`. -/
structure Timer where
  handle : Nat
  delay : Nat
  callback : Callback
  deriving DecidableEq, Repr

/-- The object `this.config`. -/
structure Config where
  duration : Nat := 5000
  position : String := "top-right"
  maxNotifications : Nat := 3
  deriving DecidableEq, Repr

/-- A value stored under a property name of the instance. -/
inductive JSProp where
  | undefined
  /-- Any value that is not a function. -/
  | data (repr : String)
  /-- A method of the class body, found on the prototype. -/
  | classMethod (name : String)
  /-- An arrow function installed by `ensureLegacyAPICompatibility`. -/
  | legacyShim (name : String)
  /-- A function put on the instance by other code. -/
  | external (tag : Nat)
  deriving DecidableEq, Repr

/-- The test `typeof v === 'function'`. -/
def JSProp.isFunction : JSProp → Bool
  | .classMethod _ => true
  | .legacyShim _ => true
  | .external _ => true
  | _ => false

/-- The state of a `MIDIConnectionNotifier` instance together with the part of
the page it touches. -/
structure Notifier where
  /-- The map `this.activeNotifications`: id to element, in insertion order. -/
  activeNotifications : List (String × Nat) := []
  /-- The children of `this.container`, in document order. -/
  container : List Nat := []
  /-- The elements created so far; an element is named by its index. -/
  elements : List Element := []
  /-- The pending `setTimeout` callbacks, in the order scheduled. -/
  timers : List Timer := []
  /-- The handle the next `setTimeout` returns. -/
  nextHandle : Nat := 1
  config : Config := {}
  /-- The flag `this._legacyApiReady`. -/
  legacyApiReady : Bool := false
  /-- The own properties of the instance that hold methods. -/
  own : List (String × JSProp) := []
  /-- The style element `#midi-pulse-animation` is in `document.head`. -/
  pulseStyle : Bool := false
  /-- The style element `#midi-blink-animation` is in `document.head`. -/
  blinkStyle : Bool := false
  deriving DecidableEq, Repr

/-- The ids of the elements the notifier adds to the page besides the notifications:
the container (line 124) and the two style elements (lines 326 and 364). -/
def pageIds : List String :=
  ["midi-notifications-container", "midi-pulse-animation", "midi-blink-animation"]

/-- Embeds `Number.isSafeInteger(n)`: the magnitude is below 2^53.  A template literal
prints such a number as its decimal digits; a number of larger magnitude is
rounded to at most 17 significant digits and, from 10^21 on, printed in
exponent notation (`1e+21`). -/
def isSafeInteger (n : Int) : Bool := n.natAbs < 2 ^ 53

namespace Notifier

/-- Embeds `setTimeout(cb, delay)`. -/
def setTimeout (s : Notifier) (cb : Callback) (delay : Nat) : Notifier :=
  { s with timers := s.timers ++ [⟨s.nextHandle, delay, cb⟩], nextHandle := s.nextHandle + 1 }

/-- Writes `style.transform` and `style.opacity` of element `el`. -/
def setTransition (s : Notifier) (el : Nat) (transform opacity : String) : Notifier :=
  { s with elements := s.elements.modify (fun e => { e with transform := transform, opacity := opacity }) el }

/-- Writes `style.animation` of element `el`. -/
def setAnimation (s : Notifier) (el : Nat) (animation : String) : Notifier :=
  { s with elements := s.elements.modify (fun e => { e with animation := animation }) el }

/-- Embeds `remove(id)`, lines 633-645. -/
def remove (s : Notifier) (id : String) : Notifier :=
  match JSMap.get s.activeNotifications id with
  | none => s
  | some el =>
    (s.setTransition el "translateX(400px)" "0").setTimeout (.exitCleanup el id) 300

/-- The truthiness test `customId || ...` / `customId && ...` on an optional string. -/
def truthy : Option String → Bool
  | none => false
  | some c => c != ""

/-- Line 504: `customId || generated`, the id under which `createNotification`
registers. -/
def registeredId (customId : Option String) (gen : String) : String :=
  if truthy customId then customId.getD gen else gen

/-- Embeds `createNotification(message, type, icon, duration, customId)`, lines 502-542.
`gen` is the id the template of line 504 generates from `Date.now()` and
`Math.random()`.  The result is the new state and the created element. -/
def createNotification (s : Notifier) (message type icon : String) (duration : Nat)
    (customId : Option String) (gen : String) : Notifier × Nat :=
  let id := registeredId customId gen
  let s1 := if truthy customId && JSMap.has s.activeNotifications id then s.remove id else s
  let el := s1.elements.length
  let node : Element :=
    { id := id, className := "midi-notification midi-notification-" ++ type,
      icon := icon, message := message,
      transform := "translateX(400px)", opacity := "0", animation := "",
      typeStyle := styleBucket type }
  let s2 : Notifier :=
    { s1 with elements := s1.elements ++ [node],
              container := s1.container ++ [el],
              activeNotifications := JSMap.set s1.activeNotifications id el }
  let s3 := s2.setTimeout (.enter el) 10
  let s4 := if duration > 0 then s3.setTimeout (.autoRemove id) duration else s3
  (s4, el)

/-- Embeds `show(message, type, icon, duration)`, lines 551-560. -/
def «show» (s : Notifier) (message type icon : String) (duration : Nat) (gen : String) :
    Notifier × Nat :=
  let s1 :=
    if JSMap.size s.activeNotifications ≥ s.config.maxNotifications then
      match (JSMap.keys s.activeNotifications).head? with
      | some oldestId => s.remove oldestId
      | none => s
    else s
  s1.createNotification message type icon duration none gen

/-- Embeds `clear()`, lines 650-654: `forEach` visits the entries in insertion order;
`remove` does not change the map while it is being visited. -/
def clear (s : Notifier) : Notifier :=
  (JSMap.keys s.activeNotifications).foldl remove s

/-- Embeds `document.getElementById(id)` over the notification elements attached to
the container, in document order.  The container and the style elements, whose
ids are `pageIds`, are not searched: the result is the one of the code for an
id outside `pageIds`. -/
def getElementById (s : Notifier) (id : String) : Option Nat :=
  s.container.find? (fun el => (s.elements.get? el).any (fun e => e.id == id))

/-- Embeds `hidePermissionNotification(notificationId)`, lines 379-387. -/
def hidePermissionNotification (s : Notifier) (id : String) : Notifier :=
  match s.getElementById id with
  | none => s
  | some el => (s.setAnimation el "fadeOut 0.3s ease-out").setTimeout (.hideRemove id) 300

/-- The body of a deferred callback. -/
def runCallback (s : Notifier) : Callback → Notifier
  | .enter el => s.setTransition el "translateX(0)" "1"
  | .autoRemove id => s.remove id
  | .hideRemove id => s.remove id
  | .exitCleanup el id =>
    { s with container := s.container.filter (fun c => c != el),
             activeNotifications := JSMap.delete s.activeNotifications id }

/-- The pending timer with handle `h` fires: it leaves the pending list and
its callback runs.  A handle that is not pending does nothing. -/
def fire (s : Notifier) (h : Nat) : Notifier :=
  match s.timers.find? (fun t => t.handle == h) with
  | none => s
  | some t => runCallback { s with timers := s.timers.eraseP (fun t => t.handle == h) } t.callback

/-- Embeds `getStats().activeCount`. -/
def activeCount (s : Notifier) : Nat := JSMap.size s.activeNotifications

end Notifier

/-! ## The legacy adapter, lines 33-109 -/

/-- The methods of the class body; an instance finds them on its prototype. -/
def classMethods : List String :=
  ["ensureLegacyAPICompatibility", "createContainer", "showConnected", "showDisconnected",
   "showError", "showUnsupported", "showNoDevices", "showInsecureContext",
   "showPermissionInstructions", "showExclusiveUseWarning", "showChromeUpdateWarning",
   "showDebugChecklist", "showWaitingPermission", "updatePermissionCountdown",
   "hidePermissionNotification", "showPermissionGranted", "showPermissionTimeout",
   "showRejected", "showAutoReconnectAttempt", "showAutoReconnected", "showAutoReconnectFailed",
   "formatAutoReconnectReason", "createNotification", "show", "applyNotificationStyles",
   "remove", "clear", "getStats"]

/-- The six names `ensureLegacyAPICompatibility` looks at, in the order of the source. -/
def legacyNames : List String :=
  ["showDeviceConnected", "showDeviceDisconnected", "showDeviceRejected", "showDeviceError",
   "showAutoReconnected", "showAutoReconnectAttempt"]

namespace Notifier

/-- Reads `this[name]`: an own property first, then the methods of the class. -/
def getProp (s : Notifier) (name : String) : JSProp :=
  match JSMap.get s.own name with
  | some v => v
  | none => if name ∈ classMethods then .classMethod name else .undefined

/-- Writes `this[name] = v`. -/
def setProp (s : Notifier) (name : String) (v : JSProp) : Notifier :=
  { s with own := JSMap.set s.own name v }

/-- One block `if (typeof this.name !== 'function') { this.name = (...) => {...}; }`. -/
def installShim (s : Notifier) (name : String) : Notifier :=
  if (s.getProp name).isFunction then s else s.setProp name (.legacyShim name)

/-- Embeds `ensureLegacyAPICompatibility()`, lines 33-109. -/
def ensureLegacyAPICompatibility (s : Notifier) : Notifier :=
  if s.legacyApiReady then s
  else
    let s0 := { s with legacyApiReady := true }
    let s1 := s0.installShim "showDeviceConnected"
    let s2 := s1.installShim "showDeviceDisconnected"
    let s3 := s2.installShim "showDeviceRejected"
    let s4 := s3.installShim "showDeviceError"
    let s5 := s4.installShim "showAutoReconnected"
    s5.installShim "showAutoReconnectAttempt"

/-- The constructor, lines 10-22, on a page that has no notification container yet. -/
def new : Notifier := ensureLegacyAPICompatibility {}

end Notifier

/-! ## Reason taxonomy, lines 466-491 -/

/-- The object literal `reasons` of lines 467-478. -/
def reasons : List (String × String) :=
  [("window-load", "Reconexão após atualizar a página"),
   ("stored-devices", "Reconhecido a partir da última sessão"),
   ("usb-connect", "Dispositivo USB reconectado"),
   ("window-focus", "Reconexão ao voltar para a aba ativa"),
   ("visibilitychange", "Reconexão retomada ao reabrir a aba"),
   ("midi-initialized", "Sistema MIDI reinicializado automaticamente"),
   ("retry-after-failure", "Nova tentativa automática em andamento"),
   ("auto-reconnect", "Reconexão automática em andamento"),
   ("manager-registered", "Reconexão após recarregar o gerenciador MIDI"),
   ("page-reload", "Reconexão após recarregar a página")]

/-- The ten taxonomy codes. -/
def taxonomyCodes : List String := JSMap.keys reasons

/-- Reads `reasons[key]`: an own property of the literal, else a member inherited
from `Object.prototype`, else `undefined` (`none`).  Every value found is
truthy: the ten texts are non-empty and the inherited members are objects. -/
def reasonsAt (key : String) : Option JSValue :=
  match JSMap.get reasons key with
  | some text => some (.str text)
  | none => if key ∈ objectPrototypeMembers then some (.inherited key) else none

/-- Embeds `reason.includes(':')`. -/
def includesColon (reason : String) : Bool := reason.data.contains ':'

/-- Embeds `reason.split(':')[0]`: the characters before the first `':'`. -/
def splitBase (reason : String) : String := ⟨reason.data.takeWhile (fun c => c != ':')⟩

/-- Embeds `formatAutoReconnectReason(reason)`, lines 466-491.  `none` is an argument
that is not a string. -/
def formatAutoReconnectReason : Option String → JSValue
  | none => .str "Reconexão automática em andamento"
  | some reason =>
    let viaBase :=
      if includesColon reason then reasonsAt (splitBase reason) else none
    match viaBase with
    | some v => v
    | none =>
      match reasonsAt reason with
      | some v => v
      | none => .str ("Reconexão automática (" ++ reason ++ ")")

/-! ## Arguments of the event operations -/

/-- An argument, or the value of a property, as a caller can supply it. -/
inductive JSArg where
  | undefined
  | null
  | str (s : String)
  /-- Any other value (a number, a boolean, an object): whether it is truthy, and
  its text in a template literal or in `join`. -/
  | other (truthy : Bool) (text : String)
  deriving DecidableEq, Repr

namespace JSArg

/-- The truthiness of the value, as `||`, `?:` and `filter(Boolean)` test it. -/
def truthy : JSArg → Bool
  | .undefined => false
  | .null => false
  | .str s => s != ""
  | .other t _ => t

/-- The text of the value inside a template literal. -/
def toText : JSArg → String
  | .undefined => "undefined"
  | .null => "null"
  | .str s => s
  | .other _ t => t

/-- The text of the value as an element of `Array.prototype.join`. -/
def joinText : JSArg → String
  | .undefined => ""
  | .null => ""
  | .str s => s
  | .other _ t => t

/-- The test `typeof v === 'string'`. -/
def isString : JSArg → Bool
  | .str _ => true
  | _ => false

/-- The string handed to `formatAutoReconnectReason`, `none` for a value that is
not a string. -/
def asString : JSArg → Option String
  | .str s => some s
  | _ => none

/-- The expression `v || d`. -/
def orElse (v d : JSArg) : JSArg := if v.truthy then v else d

/-- A parameter default `(v = d)`: it applies to `undefined` only. -/
def withDefault : JSArg → JSArg → JSArg
  | .undefined, d => d
  | v, _ => v

end JSArg

/-- The truthiness of what `formatAutoReconnectReason` returned. -/
def JSValue.truthy : JSValue → Bool
  | .str s => s != ""
  | .inherited _ => true

/-- A device object: the three properties the notifier reads; a property that
is absent reads as `undefined`. -/
structure Device where
  name : JSArg := .undefined
  id : JSArg := .undefined
  manufacturer : JSArg := .undefined
  deriving DecidableEq, Repr

/-- A detail object of the auto-reconnect operations. -/
structure Detail where
  name : JSArg := .undefined
  id : JSArg := .undefined
  manufacturer : JSArg := .undefined
  reason : JSArg := .undefined
  deriving DecidableEq, Repr

/-- The argument of the auto-reconnect operations: absent, a string, or an object. -/
inductive DetailArg where
  | undefined
  | text (s : String)
  | object (d : Detail)
  deriving DecidableEq, Repr

/-- The property reads `detail.name`, `detail.reason`, ... of a class method with the
parameter default `detail = {}`: a string has none of these properties. -/
def DetailArg.fields : DetailArg → Detail
  | .undefined => {}
  | .text _ => {}
  | .object d => d

/-- An item of an array handed to `showDeviceConnected`. -/
inductive LegacyItem where
  /-- An item that is not an object: a string, `undefined`, `null`, a number. -/
  | value (v : JSArg)
  | object (d : Device)
  deriving DecidableEq, Repr

/-- The argument of `showDeviceConnected`. -/
inductive LegacyPayload where
  /-- An argument that is neither an object nor an array. -/
  | value (v : JSArg)
  | object (d : Device)
  | array (items : List LegacyItem)
  deriving DecidableEq, Repr

/-- How a call ended. -/
inductive Outcome where
  | returned
  /-- A `TypeError` or `ReferenceError` raised at the given line of the source. -/
  | threw (line : Nat)
  deriving DecidableEq, Repr

/-- The state a call leaves and how it ended. -/
structure Result where
  state : Notifier
  outcome : Outcome
  deriving DecidableEq, Repr

/-! ## Event operations, lines 146-464 -/

/-- Embeds `browser.toLowerCase().includes('chrome')`.  Only characters that lower
to one of the six ASCII letters of `chrome` matter, and those are the ASCII
capitals. -/
def includesChrome (browser : String) : Bool :=
  (browser.data.map Char.toLower).tails.any (fun t => "chrome".data.isPrefixOf t)

namespace Notifier

/-- Embeds `showConnected(device)`, lines 146-167.  The `console.log` lines 158-160
call `padEnd` on `device.name`, `device.id` and `device.manufacturer || 'N/A'`,
which raises a `TypeError` on a value that is not a string. -/
def showConnected (s : Notifier) (device : Device) (gen : String) : Result :=
  let message := "🎹 Dispositivo conectado: <strong>" ++ device.name.toText ++ "</strong>"
  let s1 := (s.show message "success" "✅" s.config.duration gen).1
  if !device.name.isString then ⟨s1, .threw 158⟩
  else if !device.id.isString then ⟨s1, .threw 159⟩
  else if !(device.manufacturer.orElse (.str "N/A")).isString then ⟨s1, .threw 160⟩
  else ⟨s1, .returned⟩

/-- Embeds `showDisconnected(deviceId, deviceName = 'Dispositivo desconhecido')`,
lines 174-192; lines 185-186 call `padEnd` on both arguments. -/
def showDisconnected (s : Notifier) (deviceId deviceName : JSArg) (gen : String) : Result :=
  let deviceName := deviceName.withDefault (.str "Dispositivo desconhecido")
  let message := "🔌 Dispositivo desconectado: <strong>" ++ deviceName.toText ++ "</strong>"
  let s1 := (s.show message "warning" "⚠️" s.config.duration gen).1
  if !deviceName.isString then ⟨s1, .threw 185⟩
  else if !deviceId.isString then ⟨s1, .threw 186⟩
  else ⟨s1, .returned⟩

/-- Embeds `showError(errorMessage)`, lines 198-204. -/
def showError (s : Notifier) (errorMessage : JSArg) (gen : String) : Notifier :=
  (s.show ("❌ Erro MIDI: <strong>" ++ errorMessage.toText ++ "</strong>") "error" "❌" 8000 gen).1

/-- Embeds `showUnsupported()`, lines 209-216. -/
def showUnsupported (s : Notifier) (gen : String) : Notifier :=
  (s.show
    ("⚠️ <strong>Web MIDI API não suportada</strong><br>\n                        <small>Use Chrome, Edge ou Opera</small>")
    "error" "⚠️" 10000 gen).1

/-- Embeds `showNoDevices()`, lines 221-228. -/
def showNoDevices (s : Notifier) (gen : String) : Notifier :=
  (s.show
    ("🔍 <strong>Nenhum dispositivo Terra detectado</strong><br>\n                        <small>Conecte seu Midi-Terra via USB</small>")
    "info" "💡" 7000 gen).1

/-- Embeds `showInsecureContext(details)`, lines 230-238; `details` only reaches the
console. -/
def showInsecureContext (s : Notifier) (gen : String) : Notifier :=
  (s.show
    ("🔒 <strong>Contexto inseguro detectado</strong><br>\n                        <small>O Chrome exige HTTPS ou <code>https://127.0.0.1</code> para liberar o acesso MIDI.</small><br>\n                        <small>Execute um servidor HTTPS local ou adapte a URL do projeto.</small>")
    "error" "🔒" 12000 gen).1

/-- Embeds `showPermissionInstructions(state = 'prompt')`, lines 240-249. -/
def showPermissionInstructions (s : Notifier) (state : JSArg) (gen : String) : Notifier :=
  let state := state.withDefault (.str "prompt")
  let denied : Bool := state == .str "denied"
  let title := if denied then "Permissão MIDI negada" else "Conceda permissão MIDI no Chrome"
  (s.show
    ("🔐 <strong>" ++
      title ++
      "</strong><br>\n                        <small>Abra <code>chrome://settings/content/midiDevices</code>, remova bloqueios e recarregue a página.</small><br>\n                        <small>Depois, clique em \"Permitir\" quando o Chrome solicitar acesso MIDI.</small>")
    (if denied then "error" else "warning") (if denied then "⛔" else "🔐") 10000 gen).1

/-- Embeds `showExclusiveUseWarning()`, lines 251-257. -/
def showExclusiveUseWarning (s : Notifier) (gen : String) : Notifier :=
  (s.show
    ("🔁 <strong>Dispositivo ocupado</strong><br>\n                        <small>Feche outros apps que usam o Midi-Terra (Edge, DAWs, sintetizadores) e reconecte o cabo USB.</small>")
    "warning" "🛑" 9000 gen).1

/-- Embeds `showChromeUpdateWarning(currentVersion, minimumVersion)`, lines 259-266. -/
def showChromeUpdateWarning (s : Notifier) (currentVersion minimumVersion : JSArg)
    (gen : String) : Notifier :=
  (s.show
    ("⬆️ <strong>Atualize o Chrome</strong><br>\n                        <small>Versão detectada: " ++
      (if currentVersion.truthy then currentVersion.toText else "desconhecida") ++
      ".</small><br>\n                        <small>Atualize para " ++
      minimumVersion.toText ++
      "+ em <code>chrome://settings/help</code> e reinicie o navegador.</small>")
    "warning" "⬆️" 10000 gen).1

/-- Embeds `showDebugChecklist()`, lines 268-274. -/
def showDebugChecklist (s : Notifier) (gen : String) : Notifier :=
  (s.show
    ("🧪 <strong>Checklist de Depuração</strong><br>\n                        <small>1) Abra o Console (F12) e filtre por \"MIDI\".</small><br>\n                        <small>2) Execute <code>window.midiManager?.debugMidi?.()</code> ou pressione uma tecla no Midi-Terra.</small><br>\n                        <small>3) Verifique se eventos \"noteon\" aparecem e se o áudio foi habilitado.</small>")
    "info" "🧰" 11000 gen).1

/-- Embeds `showPermissionGranted()`, lines 392-396. -/
def showPermissionGranted (s : Notifier) (gen : String) : Notifier :=
  (s.show
    ("✅ <strong>Permissão MIDI Concedida!</strong><br>\n                        <small>Escaneando dispositivos...</small>")
    "success" "✅" 3000 gen).1

/-- Embeds `showPermissionTimeout(browser = 'navegador')`, lines 402-410. -/
def showPermissionTimeout (s : Notifier) (browser : Option String) (gen : String) : Notifier :=
  let isChrome := includesChrome (browser.getD "navegador")
  (s.show
    ("⏱️ <strong>Tempo Esgotado</strong><br>\n                        <small>" ++
      (if isChrome then "Chrome: Clique novamente e autorize RAPIDAMENTE"
        else "Tente novamente e clique em \"Permitir\"") ++
      "</small>")
    "error" "⏱️" 8000 gen).1

/-- Embeds `showRejected(deviceName)`, lines 416-423. -/
def showRejected (s : Notifier) (deviceName : JSArg) (gen : String) : Notifier :=
  (s.show
    ("⛔ Dispositivo rejeitado: <strong>" ++
      deviceName.toText ++
      "</strong><br>\n                        <small>Apenas dispositivos Terra são aceitos</small>")
    "warning" "⛔" s.config.duration gen).1

/-- Embeds the class method `showAutoReconnectAttempt(detail = {})`, lines 425-441;
line 436 calls `padEnd` on `detail.reason || 'desconhecido'`. -/
def showAutoReconnectAttempt (s : Notifier) (detail : DetailArg) (gen : String) : Result :=
  let d := detail.fields
  let reason : JSValue :=
    if d.reason.truthy then formatAutoReconnectReason d.reason.asString
    else .str "Rearmando comunicação com o dispositivo."
  let extra := if reason.truthy then "<br><small>" ++ reason.toText ++ "</small>" else ""
  let message := "🔄 <strong>Reconexão automática iniciada</strong>" ++ extra
  let s1 := (s.show message "info" "🔄" 5000 gen).1
  if !(d.reason.orElse (.str "desconhecido")).isString then ⟨s1, .threw 436⟩
  else ⟨s1, .returned⟩

/-- Embeds the class method `showAutoReconnected(detail = {})`, lines 447-454. -/
def showAutoReconnected (s : Notifier) (detail : DetailArg) (gen : String) : Notifier :=
  let d := detail.fields
  let deviceName := d.name.orElse (.str "Midi-Terra")
  let reason : JSValue :=
    if d.reason.truthy then formatAutoReconnectReason d.reason.asString else .str ""
  let extra := if reason.truthy then "<br><small>" ++ reason.toText ++ "</small>" else ""
  let message := "🔄 <strong>" ++ deviceName.toText ++ "</strong> reconectado com sucesso!" ++ extra
  (s.show message "success" "🔄" 6000 gen).1

/-- Embeds `showAutoReconnectFailed(detail = {})`, lines 460-464. -/
def showAutoReconnectFailed (s : Notifier) (detail : DetailArg) (gen : String) : Notifier :=
  let d := detail.fields
  let reason : JSValue :=
    if d.reason.truthy then formatAutoReconnectReason d.reason.asString
    else .str "Verifique se o dispositivo está conectado e autorizado."
  let message := "⚠️ <strong>Reconexão MIDI pendente</strong><br><small>" ++ reason.toText ++
    "</small>"
  (s.show message "warning" "⚠️" 7000 gen).1

/-! ### The waiting-permission notification, lines 283-387 -/

/-- The markup of lines 287-308, for the text `seconds` of `timeoutSeconds`. -/
def waitingPermissionMessage (isChrome : Bool) (seconds : String) : String :=
  let urgency := if isChrome then "⚡ AÇÃO RÁPIDA NECESSÁRIA!" else "Aguarde..."
  let chromeBlock :=
    if isChrome then
      "<strong>⚠️ Chrome timeout: " ++
      seconds ++
      "s</strong><br>\n                         <small>Clique em \"Permitir\" RAPIDAMENTE</small>"
    else "<small>Clique em \"Permitir\" no popup do navegador</small>"
  let color := if isChrome then "#dc3545" else "#28a745"
  "\n            <div style=\"text-align: center;\">\n                <div style=\"font-size: 1.2em; margin-bottom: 8px;\">\n                    ⏱️ <strong>Aguardando Permissão MIDI</strong>\n                </div>\n                <div style=\"font-size: 0.9em; color: #333; margin-bottom: 10px;\">\n                    " ++
      urgency ++
      "\n                </div>\n                <div style=\"background: #fff3cd; padding: 8px; border-radius: 4px; margin-bottom: 10px;\">\n                    " ++
      chromeBlock ++
      "\n                </div>\n                <div style=\"font-size: 0.85em; color: #666;\">\n                    <div class=\"permission-countdown\" style=\"font-weight: bold; font-size: 1.5em; color: " ++
      color ++
      ";\">\n                        " ++
      seconds ++
      "s\n                    </div>\n                </div>\n            </div>\n        "

/-- The node of class `permission-countdown` in that markup, lines 303-305. -/
def waitingPermissionCountdown (isChrome : Bool) (seconds : String) : Countdown :=
  { text :=
        "\n                        " ++
      seconds ++
      "s\n                    ",
    color := if isChrome then "#dc3545" else "#28a745",
    animation := "" }

/-- What lines 315-321 write on the element just created, together with the
countdown node its markup holds. -/
def decorateWaitingPermission (isChrome : Bool) (seconds : String) (e : Element) : Element :=
  { e with
    countdown := some (waitingPermissionCountdown isChrome seconds),
    className := e.className ++ " midi-permission-notification",
    animation := "pulse 2s ease-in-out infinite",
    border := "3px solid " ++ (if isChrome then "#dc3545" else "#ffc107") }

/-- Embeds `showWaitingPermission(browser = 'navegador', timeoutSeconds = 30)`, lines
283-337.  The custom id is truthy, so the template of line 504 is not evaluated
and no id is generated.  The result is the new state and the returned id.
The text of `timeoutSeconds` in the message is the one of a safe integer. -/
def showWaitingPermission (s : Notifier) (browser : Option String)
    (timeoutSeconds : Option Int) : Notifier × String :=
  let isChrome := includesChrome (browser.getD "navegador")
  let seconds := toString (timeoutSeconds.getD 30)
  let notificationId := "midi-permission-waiting"
  let created :=
    s.createNotification (waitingPermissionMessage isChrome seconds) "warning" "⏱️" 0
      (some notificationId) ""
  let s2 : Notifier :=
    { created.1 with
      elements := created.1.elements.modify (decorateWaitingPermission isChrome seconds)
        created.2 }
  let s3 : Notifier :=
    if s2.pulseStyle || (s2.getElementById "midi-pulse-animation").isSome then s2
    else { s2 with pulseStyle := true }
  (s3, notificationId)

/-- Lines 348-359: the counter text and the urgency styling of the countdown node
of element `el`, when the element has one.  The text of `secondsRemaining` is
the one of a safe integer (`isSafeInteger`), its decimal digits. -/
def setCountdown (s : Notifier) (el : Nat) (secondsRemaining : Int) : Notifier :=
  { s with
    elements := s.elements.modify
      (fun e => { e with
        countdown := e.countdown.map (fun c =>
          { text := toString secondsRemaining ++ "s",
            color :=
              if secondsRemaining ≤ 10 then "#dc3545"
              else if secondsRemaining ≤ 20 then "#ffc107"
              else c.color,
            animation :=
              if secondsRemaining ≤ 10 then "blink 0.5s ease-in-out infinite"
              else c.animation }) })
      el }

/-- Lines 362-372: the blink keyframes are added to the page once. -/
def installBlinkStyle (s : Notifier) (secondsRemaining : Int) : Notifier :=
  if secondsRemaining ≤ 10 ∧
      ¬ (s.blinkStyle || (s.getElementById "midi-blink-animation").isSome) then
    { s with blinkStyle := true }
  else s

/-- Embeds `updatePermissionCountdown(notificationId, secondsRemaining)`, lines 344-373,
for a safe integer `secondsRemaining` and an id outside `pageIds`. -/
def updatePermissionCountdown (s : Notifier) (notificationId : String)
    (secondsRemaining : Int) : Notifier :=
  match s.getElementById notificationId with
  | none => s
  | some el => (s.setCountdown el secondsRemaining).installBlinkStyle secondsRemaining

/-! ### The legacy shims, lines 40-108 -/

end Notifier

/-- An item passes the first `filter(Boolean)` of line 45. -/
def LegacyItem.truthy : LegacyItem → Bool
  | .value v => v.truthy
  | .object _ => true

/-- Line 46: `typeof item === 'string' ? item : item?.name`; besides strings only
objects have a `name`. -/
def LegacyItem.nameOf : LegacyItem → JSArg
  | .value (.str s) => .str s
  | .value _ => .undefined
  | .object d => d.name

/-- The array `namesArray` of lines 43-50. -/
def namesArray : LegacyPayload → List JSArg
  | .array items =>
    ((items.filter LegacyItem.truthy).map LegacyItem.nameOf).filter JSArg.truthy
  | .object d => [d.name.orElse (.str "Dispositivo Terra")]
  | .value v => if v.truthy then [v] else []

/-- Embeds `names.join(', ')`. -/
def joinNames (names : List JSArg) : String :=
  ", ".intercalate (names.map JSArg.joinText)

/-- The `label` of lines 51-53. -/
def legacyLabel (payload : LegacyPayload) : String :=
  if (namesArray payload).length > 0 then joinNames (namesArray payload)
  else "Dispositivo Terra"

/-- The descriptor `showDeviceConnected` hands to `showConnected`, lines 42-65.
`now` is the value of `Date.now()`. -/
def legacyDescriptor (payload : LegacyPayload) (now : Nat) : Device :=
  let label := legacyLabel payload
  let generated := "terra-device-" ++ toString now
  let base : Device :=
    match payload with
    | .object d => d
    | _ => { name := .str label, id := .str generated, manufacturer := .str "Terra Eletrônica" }
  { name := base.name.orElse (.str label),
    id := base.id.orElse (.str generated),
    manufacturer := base.manufacturer.orElse (.str "Terra Eletrônica") }

namespace Notifier

/-- The shim `showDeviceConnected(deviceNames)`, lines 41-68. -/
def showDeviceConnected (s : Notifier) (deviceNames : LegacyPayload) (now : Nat)
    (gen : String) : Result :=
  s.showConnected (legacyDescriptor deviceNames now) gen

/-- The shim `showDeviceDisconnected(deviceId, deviceName)`, lines 72-77. -/
def showDeviceDisconnected (s : Notifier) (deviceId deviceName : JSArg) (gen : String) :
    Result :=
  s.showDisconnected (deviceId.orElse (.str "terra-device"))
    (deviceName.orElse (.str "Dispositivo Terra")) gen

/-- The shim `showDeviceRejected(deviceName)`, lines 81-83. -/
def showDeviceRejected (s : Notifier) (deviceName : JSArg) (gen : String) : Notifier :=
  s.showRejected (deviceName.orElse (.str "Dispositivo não identificado")) gen

/-- The shim `showDeviceError(message)`, lines 87-89. -/
def showDeviceError (s : Notifier) (message : JSArg) (gen : String) : Notifier :=
  s.showError (message.orElse (.str "Erro desconhecido no dispositivo MIDI")) gen

/-- The shim body of lines 93-100, installed under `showAutoReconnected` only when
the instance has no function of that name. -/
def showAutoReconnectedShim (s : Notifier) (detail : DetailArg) (now : Nat) (gen : String) :
    Result :=
  let payload : Detail :=
    match detail with
    | .text t => { name := .str t }
    | .undefined => {}
    | .object d => d
  s.showConnected
    { name := payload.name.orElse (.str "Midi-Terra"),
      id := payload.id.orElse (.str ("terra-device-" ++ toString now)),
      manufacturer := payload.manufacturer.orElse (.str "Terra Eletrônica") } gen

/-- The call `notifier.showAutoReconnected(detail)`: the function the property
holds runs.  The result is `none` when the property holds no function of the
notifier (a function of other code, or no function at all). -/
def callShowAutoReconnected (s : Notifier) (detail : DetailArg) (now : Nat) (gen : String) :
    Option Result :=
  match s.getProp "showAutoReconnected" with
  | .classMethod _ => some ⟨s.showAutoReconnected detail gen, .returned⟩
  | .legacyShim _ => some (s.showAutoReconnectedShim detail now gen)
  | _ => none

end Notifier

/-- The class attribute `createNotification` gives a notification of severity `type`. -/
def severityClass (type : String) : String := "midi-notification midi-notification-" ++ type

/-- What a call rendered, read off the states before and after it: the class
attribute of the element created and the delay of the auto-dismiss timer
scheduled for its id; `none` when no element was created or no such timer was
scheduled. -/
def rendered (before after : Notifier) : Option (String × Nat) :=
  match after.elements.get? before.elements.length with
  | none => none
  | some e =>
    match (after.timers.drop before.timers.length).find?
        (fun t => t.callback == .autoRemove e.id) with
    | none => none
    | some t => some (e.className, t.delay)

/-- What a caller or the browser can do next. -/
inductive Event where
  | «show» (message type icon : String) (duration : Nat) (gen : String)
  | createNotification (message type icon : String) (duration : Nat)
      (customId : Option String) (gen : String)
  | remove (id : String)
  | clear
  | hidePermissionNotification (id : String)
  | fire (handle : Nat)
  deriving DecidableEq, Repr

/-- One event applied to the state. -/
def step (s : Notifier) : Event → Notifier
  | .show m t i d g => (s.show m t i d g).1
  | .createNotification m t i d c g => (s.createNotification m t i d c g).1
  | .remove id => s.remove id
  | .clear => s.clear
  | .hidePermissionNotification id => s.hidePermissionNotification id
  | .fire h => s.fire h

/-- A sequence of events applied in order. -/
def run (s : Notifier) (es : List Event) : Notifier := es.foldl step s


/-! ## The legacy shim of `showAutoReconnectAttempt`, lines 103-108 -/

namespace Notifier

/-- The shim body of lines 104-107.  Line 105 reads `reason`, which the arrow
function does not declare (its parameter is `detail`): a `ReferenceError`,
unless the page defines a global of that name (`globalReason`). -/
def showAutoReconnectAttemptShim (s : Notifier) (globalReason : Option JSArg) (gen : String) :
    Result :=
  match globalReason with
  | none => ⟨s, .threw 105⟩
  | some reason =>
    let message := reason.orElse
      (.str "Reconecte o dispositivo Midi-Terra e autorize novamente, se necessário.")
    ⟨(s.show message.toText "warning" "⚠️" 7000 gen).1, .returned⟩

/-- The call `notifier.showAutoReconnectAttempt(detail)`: the function the property
holds runs.  The result is `none` when the property holds no function of the
notifier. -/
def callShowAutoReconnectAttempt (s : Notifier) (detail : DetailArg)
    (globalReason : Option JSArg) (gen : String) : Option Result :=
  match s.getProp "showAutoReconnectAttempt" with
  | .classMethod _ => some (s.showAutoReconnectAttempt detail gen)
  | .legacyShim _ => some (s.showAutoReconnectAttemptShim globalReason gen)
  | _ => none

end Notifier

/-! ## Instrument categories, `src/js/utils/instrumentCategories.js` -/

/-- The data stored for a category. -/
structure CategoryInfo where
  icon : String
  description : String
  therapeutic : String
  deriving DecidableEq, Repr

/-- The object literal `this.categories`, lines 5-61, in the order of its keys. -/
def categories : List (String × CategoryInfo) :=
  [("Pianos", ⟨"🎹", "Pianos acústicos e elétricos", "Reduz ansiedade, promove concentração"⟩),
   ("Percussão Melódica", ⟨"🔔", "Xilofones, marimbas, sinos", "Estimula alegria e positividade"⟩),
   ("Órgãos", ⟨"⛪", "Órgãos de igreja e palheta", "Induz estado contemplativo"⟩),
   ("Cordas Dedilhadas", ⟨"🎸", "Violões, harpas, bandolins", "Evoca nostalgia e conforto"⟩),
   ("Cordas Orquestrais", ⟨"🎻", "Violinos, violas, cellos e ensembles", "Expressão emocional profunda"⟩),
   ("Vozes", ⟨"👥", "Corais e vozes sintetizadas", "Promove conexão e empatia"⟩),
   ("Metais", ⟨"🎺", "Trompas, trompetes e metais suaves", "Energia e motivação"⟩),
   ("Palhetas", ⟨"�", "Oboés, clarinetes e palhetas duplas", "Clareza mental e respiração"⟩),
   ("Flautas", ⟨"🪈", "Flautas doces, de pã e afins", "Respiração profunda e relaxamento"⟩),
   ("Pads Sintéticos", ⟨"🌌", "Pads e texturas ambiente", "Ambientação e imersão"⟩),
   ("Efeitos Ambientais", ⟨"�️", "Sons da natureza e efeitos relaxantes", "Relaxamento profundo"⟩)]

/-- The object literal `this.aliases`, lines 63-70. -/
def aliases : List (String × String) :=
  [("Cordas Friccionadas", "Cordas Orquestrais"),
   ("Sopros de Madeira", "Palhetas"),
   ("Sopros de Metal", "Metais"),
   ("Sintetizadores", "Pads Sintéticos"),
   ("Natureza", "Efeitos Ambientais"),
   ("Étnicos", "Efeitos Ambientais")]

/-- The array literal `this.displayOrder`, lines 72-84. -/
def displayOrder : List String :=
  ["Pianos", "Percussão Melódica", "Órgãos", "Cordas Dedilhadas", "Cordas Orquestrais", "Vozes", "Metais", "Palhetas", "Flautas", "Pads Sintéticos", "Efeitos Ambientais"]

/-- Embeds `getAllCategories()`, lines 91-93: `Object.keys(this.categories)`. -/
def getAllCategories : List String := JSMap.keys categories

/-- The keys of `this.aliases`. -/
def aliasKeys : List String := JSMap.keys aliases

/-- Reads `this.aliases[key]`: an own property of the literal, else a member
inherited from `Object.prototype`, else `undefined` (`none`).  Every value
found is truthy. -/
def aliasesAt (key : String) : Option JSValue :=
  match JSMap.get aliases key with
  | some target => some (.str target)
  | none => if key ∈ objectPrototypeMembers then some (.inherited key) else none

/-- Embeds `normalizeCategory(categoryName)`, lines 142-147.  The argument is `none`
when it is absent; a value used as a property key is converted to its text. -/
def normalizeCategory (categoryName : Option JSValue) : JSValue :=
  match categoryName with
  | none => .str "Pianos"
  | some v =>
    if !v.truthy then .str "Pianos"
    else
      match aliasesAt v.toText with
      | some target => target
      | none => v

/-- Embeds `key in this.categories`: own keys and the members inherited from
`Object.prototype`, after the key is converted to its text. -/
def inCategories (key : JSValue) : Bool :=
  decide (key.toText ∈ getAllCategories) || decide (key.toText ∈ objectPrototypeMembers)

/-- Embeds `hasCategory(categoryName)`, lines 132-135. -/
def hasCategory (categoryName : Option JSValue) : Bool :=
  inCategories (normalizeCategory categoryName)

/-- The arrays the instance and its callers hold, named by their index, and the
array `this.displayOrder` refers to. -/
structure CategoriesHeap where
  arrays : List (List String) := [displayOrder]
  displayOrderRef : Nat := 0
  deriving DecidableEq, Repr

/-- The contents of the array `ref`. -/
def CategoriesHeap.read (h : CategoriesHeap) (ref : Nat) : List String :=
  (h.arrays.get? ref).getD []

/-- Embeds `getDisplayOrder()`, lines 153-155: `slice()` allocates a new array with
the contents of `this.displayOrder` and returns it. -/
def CategoriesHeap.getDisplayOrder (h : CategoriesHeap) : CategoriesHeap × Nat :=
  ({ h with arrays := h.arrays ++ [h.read h.displayOrderRef] }, h.arrays.length)

/-- A caller overwrites the contents of the array `ref` it holds. -/
def CategoriesHeap.write (h : CategoriesHeap) (ref : Nat) (contents : List String) :
    CategoriesHeap :=
  { h with arrays := h.arrays.modify (fun _ => contents) ref }

/-! ## The installer's messages, `src/js/pwaInstaller.js` lines 502-561 -/

/-- The truthiness of a property value.  A stored value that is not a function
stands for a truthy one: a falsy value behaves as `undefined` in every test of
the sources (`typeof v === 'function'`, `v && ...`). -/
def JSProp.truthy : JSProp → Bool
  | .undefined => false
  | _ => true

/-- The global `window.midiNotifier`. -/
inductive NotifierGlobal where
  | undefined
  | null
  /-- An instance of `MIDIConnectionNotifier` in the given state. -/
  | notifier (s : Notifier)
  deriving DecidableEq, Repr

/-- How the installer delivered a message. -/
inductive Delivery where
  /-- The call `alert(message)`. -/
  | alert (message : String)
  /-- The call `window.midiNotifier.showInfo(message)`. -/
  | showInfo (message : String)
  /-- A `TypeError`: a property read on `null`, or a call of a value that is
  not a function. -/
  | threw
  deriving DecidableEq, Repr

/-- Lines 541-545 and 556-560: `showInfo` of the notifier when the global is
defined and has a truthy `showInfo`, else `alert`. -/
def deliver (notifier : NotifierGlobal) (message : String) : Delivery :=
  match notifier with
  | .undefined => .alert message
  | .null => .threw
  | .notifier s =>
    if (s.getProp "showInfo").truthy then
      if (s.getProp "showInfo").isFunction then .showInfo message else .threw
    else .alert message

/-- Embeds `regex.test(text)` for a regex that is a plain word: `text` contains it. -/
def containsText (text word : String) : Bool :=
  text.data.tails.any (fun t => word.data.isPrefixOf t)

/-- The message `showInstallInstructions` builds from `navigator.userAgent`, lines
503-538. -/
def installInstructions (userAgent : String) : String :=
  let isIOS := containsText userAgent "iPad" || containsText userAgent "iPhone" ||
    containsText userAgent "iPod"
  let isAndroid := containsText userAgent "Android"
  let isEdge := containsText userAgent "Edg"
  let isChrome := containsText userAgent "Chrome" && !isEdge
  "📲 Como instalar o Terra MIDI:\n\n" ++
    (if isIOS then
      "📱 Safari iOS:\n" ++
      "1. Toque no botão Compartilhar (⬆️)\n" ++
      "2. Role para baixo e toque em \"Adicionar à Tela de Início\"\n" ++
      "3. Toque em \"Adicionar\""
    else if isAndroid then
      "📱 Chrome Android:\n" ++
      "1. Toque no menu (⋮) no canto superior direito\n" ++
      "2. Selecione \"Instalar aplicativo\" ou \"Adicionar à tela inicial\"\n" ++
      "3. Confirme a instalação"
    else if isEdge then
      "💻 Microsoft Edge:\n\n" ++
      "1. Clique no menu (⋯) no canto superior direito\n" ++
      "2. Selecione \"Aplicativos\" ou \"Apps\"\n" ++
      "3. Clique em \"Instalar este site como um aplicativo\"\n" ++
      "4. Confirme clicando em \"Instalar\"\n\n" ++
      "OU procure o ícone de instalação (⊕) na barra de endereço"
    else if isChrome then
      "💻 Google Chrome:\n\n" ++
      "1. Clique no menu (⋮) no canto superior direito\n" ++
      "2. Selecione \"Instalar Terra MIDI...\"\n" ++
      "3. Confirme clicando em \"Instalar\"\n\n" ++
      "OU procure o ícone de instalação (⊕) na barra de endereço"
    else
      "💻 Desktop:\n" ++
      "Chrome: Menu (⋮) → Instalar Terra MIDI\n" ++
      "Edge: Menu (⋯) → Aplicativos → Instalar este site como um aplicativo\n" ++
      "Opera: Ícone de instalação na barra de endereço")

/-- Embeds `showInstallInstructions()`, lines 502-548. -/
def showInstallInstructions (userAgent : String) (notifier : NotifierGlobal) : Delivery :=
  deliver notifier (installInstructions userAgent)

/-- Embeds `showInstallSuccessMessage()`, lines 553-561. -/
def showInstallSuccessMessage (notifier : NotifierGlobal) : Delivery :=
  deliver notifier
    "🎉 Terra MIDI instalado com sucesso!\n\nVocê pode abrir o app a partir da tela inicial."

/-! ## Observations used in the statements -/

/-- The callback is the cleanup step of `remove`. -/
def Callback.isExit : Callback → Bool
  | .exitCleanup _ _ => true
  | _ => false

/-- The callback is the cleanup step of `remove(id)`. -/
def Callback.isExitFor (id : String) : Callback → Bool
  | .exitCleanup _ k => k == id
  | _ => false

/-- The callback names `id`: it calls `remove(id)` or deletes `id` from the registry. -/
def Callback.names (id : String) : Callback → Bool
  | .enter _ => false
  | .autoRemove k => k == id
  | .hideRemove k => k == id
  | .exitCleanup _ k => k == id

namespace Notifier

/-- Some cleanup step of `remove` is still pending. -/
def exitPending (s : Notifier) : Bool := s.timers.any (fun t => t.callback.isExit)

/-- The registry entry whose element was created first.  Elements are numbered
in the order `createNotification` creates and registers them, so this is the
entry with the earliest insertion time. -/
def earliestInserted (s : Notifier) : Option (String × Nat) :=
  s.activeNotifications.foldl
    (fun best e => match best with
      | none => some e
      | some b => if e.2 < b.2 then some e else some b) none

/-- Every registry entry has a pending cleanup step whose handle lies in `[lo, hi)`. -/
def Covered (lo hi : Nat) (s : Notifier) : Prop :=
  ∀ e ∈ s.activeNotifications, ∃ t ∈ s.timers,
    t.callback.isExitFor e.1 = true ∧ lo ≤ t.handle ∧ t.handle < hi

/-- The number of registry entries for which no cleanup step of `remove` is pending. -/
def liveCount (s : Notifier) : Nat :=
  s.activeNotifications.countP
    (fun e => !(s.timers.any (fun t => t.callback.isExitFor e.1)))

/-- The entry under `id` holds element `el` and no pending callback names `id`. -/
def Settled (id : String) (el : Nat) (s : Notifier) : Prop :=
  JSMap.get s.activeNotifications id = some el ∧ ∀ x ∈ s.timers, x.callback.names id = false

/-- The timers scheduled since the state `before`, in the order scheduled. -/
def scheduledSince (s before : Notifier) : List Timer :=
  s.timers.filter (fun t => t.handle ≥ before.nextHandle)

end Notifier

/-- A trace of `show` calls and timer firings in which every `show` call is made
when no cleanup step of `remove` is pending, that is, after the exit window of
every earlier removal. -/
def spaced : Notifier → List Event → Bool
  | _, [] => true
  | s, .show m t i d g :: es => !s.exitPending && spaced (step s (.show m t i d g)) es
  | s, .fire h :: es => spaced (step s (.fire h)) es
  | _, _ :: _ => false

/-- The event registers a notification. -/
def Event.registers : Event → Bool
  | .show _ _ _ _ _ => true
  | .createNotification _ _ _ _ _ _ => true
  | _ => false

/-- The event, applied in state `s`, is a call that dismisses or replaces the
notification registered under `id`: `remove(id)`, `hidePermissionNotification(id)`,
`clear()`, a `show` call that finds the registry at capacity with `id` as its
first key (eviction), or a registration under `id` itself. -/
def dismisses (s : Notifier) (id : String) : Event → Bool
  | .remove k => k == id
  | .hidePermissionNotification k => k == id
  | .clear => true
  | .show _ _ _ _ g =>
    (decide (JSMap.size s.activeNotifications ≥ s.config.maxNotifications) &&
      (JSMap.keys s.activeNotifications).head? == some id) || g == id
  | .createNotification _ _ _ _ c g => Notifier.registeredId c g == id
  | .fire _ => false

/-- No event of the trace dismisses or replaces `id`. -/
def undisturbed (id : String) : Notifier → List Event → Bool
  | _, [] => true
  | s, e :: es => !dismisses s id e && undisturbed id (step s e) es

/-- The names the array items yield, in array order: a non-empty string item is
its own name, an object item with a non-empty `name` yields that name, every
other item yields none. -/
def identifiableNames : List LegacyItem → List String
  | [] => []
  | .value (.str s) :: rest =>
    if s = "" then identifiableNames rest else s :: identifiableNames rest
  | .value _ :: rest => identifiableNames rest
  | .object d :: rest =>
    if d.name.truthy then d.name.joinText :: identifiableNames rest
    else identifiableNames rest

/-- An argument that is a string or is missing (`undefined`, `null`). -/
def JSArg.isStringOrMissing : JSArg → Bool
  | .other _ _ => false
  | _ => true

/-- The argument a pass-through shim is to hand on: the argument itself when it
is a non-empty string, the fixed default when it is missing or empty. -/
def passOrDefault (v : JSArg) (default : String) : JSArg :=
  match v with
  | .str t => if t = "" then .str default else .str t
  | .undefined => .str default
  | .null => .str default
  | .other t x => .other t x

/-- A trace of timer firings in which the only cleanup steps that run are those
of `id`: no other notification leaves the registry meanwhile. -/
def firesOnlyCleanupOf (id : String) : Notifier → List Event → Bool
  | _, [] => true
  | s, .fire h :: es =>
    (match s.timers.find? (fun t => t.handle == h) with
      | some t => !t.callback.isExit || t.callback.isExitFor id
      | none => true) &&
    firesOnlyCleanupOf id (step s (.fire h)) es
  | _, _ :: _ => false

namespace Notifier

/-- The registry is `R` or `R` without `id`, and while `id` is registered some
pending callback names it. -/
def Leaving (R : List (String × Nat)) (id : String) (s : Notifier) : Prop :=
  (s.activeNotifications = R ∨ s.activeNotifications = JSMap.delete R id) ∧
  (JSMap.has s.activeNotifications id = true →
    ∃ t ∈ s.timers, t.callback.names id = true)

end Notifier

/-- A truthy value prints a non-empty text in `join`: every string does, and so
does every truthy number or boolean; an empty array is a truthy value that
does not. -/
def JSArg.printable (v : JSArg) : Bool := !v.truthy || v.joinText != ""

/-- The name an array item contributes, if any, prints a non-empty text. -/
def LegacyItem.printable (item : LegacyItem) : Bool := item.nameOf.printable

/-- The names `showDeviceConnected` joins into the label print a non-empty text:
so it is for an absent payload, a string, an object, and an array of strings
and of objects whose `name` is absent or a string. -/
def LegacyPayload.printable : LegacyPayload → Bool
  | .value v => v.printable
  | .object _ => true
  | .array items => items.all LegacyItem.printable

/-! ## Lemmas on the map operations -/

namespace JSMap

variable {β : Type}

theorem get_eq_none_of_has_false (m : List (String × β)) (k : String)
    (h : has m k = false) : get m k = none := by
  induction m with
  | nil => rfl
  | cons e rest ih =>
    simp only [has, List.any_cons, Bool.or_eq_false_iff, beq_eq_false_iff_ne, ne_eq] at h
    simp only [get, if_neg h.1]
    exact ih h.2

theorem has_eq_true_of_get (m : List (String × β)) (k : String) (v : β)
    (h : get m k = some v) : has m k = true := by
  induction m with
  | nil => simp [get] at h
  | cons e rest ih =>
    simp only [has, List.any_cons, Bool.or_eq_true, beq_iff_eq]
    by_cases hk : e.1 = k
    · exact Or.inl hk
    · simp only [get, if_neg hk] at h
      exact Or.inr (ih h)

theorem get_set_ne (m : List (String × β)) (k n : String) (v : β) (h : k ≠ n) :
    get (set m k v) n = get m n := by
  induction m with
  | nil => simp [set, get, h]
  | cons e rest ih =>
    by_cases hk : e.1 = k
    · have hn : e.1 ≠ n := fun h2 => h (hk.symm.trans h2)
      simp [set, hk, get, h, hn]
    · by_cases hn : e.1 = n
      · simp only [set, if_neg hk, get, if_pos hn]
      · simp only [set, if_neg hk, get, if_neg hn, ih]

theorem get_set_self (m : List (String × β)) (k : String) (v : β) :
    get (set m k v) k = some v := by
  induction m with
  | nil => simp [set, get]
  | cons e rest ih =>
    by_cases hk : e.1 = k
    · simp [set, hk, get]
    · simp [set, hk, get, ih]

theorem length_set_le (m : List (String × β)) (k : String) (v : β) :
    (set m k v).length ≤ m.length + 1 := by
  induction m with
  | nil => simp [set]
  | cons e rest ih =>
    by_cases hk : e.1 = k
    · simp [set, hk]
    · simp [set, hk]
      exact ih

theorem has_delete_self (m : List (String × β)) (k : String) :
    has (delete m k) k = false := by
  simp [has, delete, List.any_eq_false]

end JSMap

/-! ## Reason taxonomy -/

theorem splitBase_append_colon (c s : String) (hc : ':' ∉ c.data) :
    splitBase (c ++ ":" ++ s) = c := by
  have h1 : (c ++ ":" ++ s).data = c.data ++ (':' :: s.data) := by
    simp [String.data_append]
  have h2 : ∀ l : List Char, ':' ∉ l → ∀ r : List Char,
      (l ++ (':' :: r)).takeWhile (fun x => x != ':') = l := by
    intro l
    induction l with
    | nil => intro _ r; simp [List.takeWhile]
    | cons a l ih =>
      intro hl r
      have ha : a ≠ ':' := fun h => hl (by simp [h])
      have hl2 : ':' ∉ l := fun h => hl (List.mem_cons_of_mem _ h)
      have hb : (a != ':') = true := by simp [ha]
      simp only [List.cons_append, List.takeWhile_cons, hb, if_true, ih hl2 r]
  unfold splitBase
  rw [h1, h2 c.data hc s.data]

theorem includesColon_append_colon (c s : String) :
    includesColon (c ++ ":" ++ s) = true := by
  simp [includesColon, String.data_append]

theorem taxonomyCodes_no_colon (c : String) (hc : c ∈ taxonomyCodes) :
    includesColon c = false := by
  simp only [taxonomyCodes, JSMap.keys, reasons, List.map, List.mem_cons, List.mem_singleton,
    List.mem_nil_iff, or_false] at hc
  rcases hc with h | h | h | h | h | h | h | h | h | h <;> subst h <;> decide

theorem reasonsAt_taxonomy (c : String) (hc : c ∈ taxonomyCodes) :
    ∃ text, reasonsAt c = some (.str text) := by
  simp only [taxonomyCodes, JSMap.keys, reasons, List.map, List.mem_cons, List.mem_singleton,
    List.mem_nil_iff, or_false] at hc
  rcases hc with h | h | h | h | h | h | h | h | h | h <;> subst h <;> exact ⟨_, rfl⟩

/-- C7: `formatAutoReconnectReason` returns the fixed canonical text for each of
the ten taxonomy codes; `"usb-connect"` gives `"Dispositivo USB reconectado"`. -/
theorem formatAutoReconnectReason_taxonomy :
    taxonomyCodes = ["window-load", "stored-devices", "usb-connect", "window-focus",
      "visibilitychange", "midi-initialized", "retry-after-failure", "auto-reconnect",
      "manager-registered", "page-reload"] ∧
    formatAutoReconnectReason (some "window-load") = .str "Reconexão após atualizar a página" ∧
    formatAutoReconnectReason (some "stored-devices") = .str "Reconhecido a partir da última sessão" ∧
    formatAutoReconnectReason (some "usb-connect") = .str "Dispositivo USB reconectado" ∧
    formatAutoReconnectReason (some "window-focus") = .str "Reconexão ao voltar para a aba ativa" ∧
    formatAutoReconnectReason (some "visibilitychange") = .str "Reconexão retomada ao reabrir a aba" ∧
    formatAutoReconnectReason (some "midi-initialized") =
      .str "Sistema MIDI reinicializado automaticamente" ∧
    formatAutoReconnectReason (some "retry-after-failure") =
      .str "Nova tentativa automática em andamento" ∧
    formatAutoReconnectReason (some "auto-reconnect") = .str "Reconexão automática em andamento" ∧
    formatAutoReconnectReason (some "manager-registered") =
      .str "Reconexão após recarregar o gerenciador MIDI" ∧
    formatAutoReconnectReason (some "page-reload") = .str "Reconexão após recarregar a página" := by
  refine ⟨by decide, by decide, by decide, by decide, by decide, by decide, by decide,
    by decide, by decide, by decide, by decide⟩

/-- C8: for every taxonomy code `c` and every suffix `s`,
`formatAutoReconnectReason(c + ":" + s)` equals `formatAutoReconnectReason(c)`:
only the prefix before the first `':'` takes part in the lookup. -/
theorem formatAutoReconnectReason_suffix (c s : String) (hc : c ∈ taxonomyCodes) :
    formatAutoReconnectReason (some (c ++ ":" ++ s)) = formatAutoReconnectReason (some c) := by
  have hno := taxonomyCodes_no_colon c hc
  have hdata : ':' ∉ c.data := by
    intro h
    simp [includesColon, h] at hno
  obtain ⟨text, ht⟩ := reasonsAt_taxonomy c hc
  simp only [formatAutoReconnectReason, includesColon_append_colon, if_true,
    splitBase_append_colon c s hdata, ht, hno]
  simp

theorem formatAutoReconnectReason_suffix_witness :
    "retry-after-failure" ∈ taxonomyCodes ∧
    formatAutoReconnectReason (some ("retry-after-failure" ++ ":" ++ "3")) =
      formatAutoReconnectReason (some "retry-after-failure") :=
  ⟨by decide, formatAutoReconnectReason_suffix "retry-after-failure" "3" (by decide)⟩

/-- C9 (failing input): `"constructor"` is not one of the ten taxonomy codes and
has no `':'`, yet `formatAutoReconnectReason("constructor")` is not the text
`"Reconexão automática (constructor)"`: `reasons["constructor"]` finds the
function inherited from `Object.prototype`, which is truthy, and that function
is returned. -/
theorem formatAutoReconnectReason_inherited_key :
    splitBase "constructor" ∉ taxonomyCodes ∧
    formatAutoReconnectReason (some "constructor") = .inherited "constructor" ∧
    formatAutoReconnectReason (some "constructor") ≠
      .str ("Reconexão automática (" ++ "constructor" ++ ")") := by
  refine ⟨by decide, by decide, by decide⟩

theorem JSMap.get_eq_none_of_not_mem_keys {β : Type} (m : List (String × β)) (k : String)
    (h : k ∉ JSMap.keys m) : JSMap.get m k = none := by
  apply JSMap.get_eq_none_of_has_false
  simp only [JSMap.has, List.any_eq_false, beq_iff_eq]
  intro e he hk
  exact h (by rw [← hk]; exact List.mem_map_of_mem _ he)

theorem splitBase_of_no_colon (code : String) (h : includesColon code = false) :
    splitBase code = code := by
  have h2 : ∀ l : List Char, l.contains ':' = false →
      l.takeWhile (fun x => x != ':') = l := by
    intro l
    induction l with
    | nil => intro _; rfl
    | cons a l ih =>
      intro hl
      simp only [List.contains_cons, Bool.or_eq_false_iff] at hl
      have ha : (a != ':') = true := by
        have h1 := hl.1
        simp only [beq_eq_false_iff_ne, ne_eq] at h1
        simp only [bne_iff_ne, ne_eq]
        exact fun h => h1 h.symm
      simp only [List.takeWhile_cons, ha, if_true, ih hl.2]
  unfold splitBase
  rw [h2 code.data h]

theorem objectPrototypeMembers_no_colon (c : String) (hc : c ∈ objectPrototypeMembers) :
    includesColon c = false := by
  simp only [objectPrototypeMembers, List.mem_cons, List.mem_singleton,
    List.mem_nil_iff, or_false] at hc
  rcases hc with h | h | h | h | h | h | h | h | h | h | h | h <;> subst h <;> decide

/-- Outside the ten taxonomy codes and the member names of `Object.prototype`,
`formatAutoReconnectReason` returns the templated text of line 487. -/
theorem formatAutoReconnectReason_fallback (code : String)
    (h1 : splitBase code ∉ taxonomyCodes) (h2 : splitBase code ∉ objectPrototypeMembers) :
    formatAutoReconnectReason (some code) = .str ("Reconexão automática (" ++ code ++ ")") := by
  have hbase : reasonsAt (splitBase code) = none := by
    simp only [reasonsAt, JSMap.get_eq_none_of_not_mem_keys reasons _ h1, if_neg h2]
  have hcode : reasonsAt code = none := by
    cases hc : includesColon code with
    | false => rw [← splitBase_of_no_colon code hc]; exact hbase
    | true =>
      have n1 : code ∉ taxonomyCodes := fun hm => by
        rw [taxonomyCodes_no_colon code hm] at hc; exact absurd hc (by decide)
      have n2 : code ∉ objectPrototypeMembers := fun hm => by
        rw [objectPrototypeMembers_no_colon code hm] at hc; exact absurd hc (by decide)
      simp only [reasonsAt, JSMap.get_eq_none_of_not_mem_keys reasons _ n1, if_neg n2]
  unfold formatAutoReconnectReason
  cases hc : includesColon code <;> simp [hbase, hcode]

namespace Notifier

/-! ## Effect of the operations on the registry and the pending timers -/

@[simp] theorem remove_activeNotifications (s : Notifier) (k : String) :
    (s.remove k).activeNotifications = s.activeNotifications := by
  unfold remove; split <;> rfl

@[simp] theorem remove_config (s : Notifier) (k : String) :
    (s.remove k).config = s.config := by
  unfold remove; split <;> rfl

theorem remove_timers (s : Notifier) (k : String) :
    (s.remove k).timers = s.timers ∨
      ∃ el, JSMap.get s.activeNotifications k = some el ∧
        (s.remove k).timers = s.timers ++ [⟨s.nextHandle, 300, .exitCleanup el k⟩] := by
  unfold remove
  cases h : JSMap.get s.activeNotifications k with
  | none => exact Or.inl rfl
  | some el => exact Or.inr ⟨el, rfl, rfl⟩

theorem remove_timers_of_get (s : Notifier) (k : String) (el : Nat)
    (h : JSMap.get s.activeNotifications k = some el) :
    (s.remove k).timers = s.timers ++ [⟨s.nextHandle, 300, .exitCleanup el k⟩] ∧
    (s.remove k).nextHandle = s.nextHandle + 1 := by
  unfold remove
  rw [h]
  exact ⟨rfl, rfl⟩

theorem mem_timers_remove (s : Notifier) (k : String) (t : Timer) (h : t ∈ s.timers) :
    t ∈ (s.remove k).timers := by
  rcases remove_timers s k with h1 | ⟨el, _, h1⟩
  · rw [h1]; exact h
  · rw [h1]; exact List.mem_append_left _ h

theorem of_mem_timers_remove (s : Notifier) (k : String) (t : Timer)
    (h : t ∈ (s.remove k).timers) :
    t ∈ s.timers ∨ ∃ el, t.callback = .exitCleanup el k := by
  rcases remove_timers s k with h1 | ⟨el, _, h1⟩
  · rw [h1] at h; exact Or.inl h
  · rw [h1] at h
    rcases List.mem_append.mp h with h2 | h2
    · exact Or.inl h2
    · simp only [List.mem_singleton] at h2
      exact Or.inr ⟨el, by rw [h2]⟩

theorem nextHandle_le_remove (s : Notifier) (k : String) :
    s.nextHandle ≤ (s.remove k).nextHandle := by
  unfold remove; split
  · exact Nat.le_refl _
  · exact Nat.le_succ _

end Notifier

namespace Notifier

theorem createNotification_spec (s : Notifier) (m t i : String) (d : Nat)
    (c : Option String) (g : String) :
    ∃ s1 : Notifier,
      (s1 = s ∨ (truthy c = true ∧ JSMap.has s.activeNotifications (registeredId c g) = true ∧
          s1 = s.remove (registeredId c g))) ∧
      (s.createNotification m t i d c g).2 = s1.elements.length ∧
      (s.createNotification m t i d c g).1.activeNotifications =
        JSMap.set s1.activeNotifications (registeredId c g) s1.elements.length ∧
      (s.createNotification m t i d c g).1.config = s1.config ∧
      (s.createNotification m t i d c g).1.timers =
        s1.timers ++ [⟨s1.nextHandle, 10, .enter s1.elements.length⟩] ++
          (if d > 0 then [⟨s1.nextHandle + 1, d, .autoRemove (registeredId c g)⟩] else []) := by
  by_cases hc : (truthy c && JSMap.has s.activeNotifications (registeredId c g)) = true
  · refine ⟨s.remove (registeredId c g), Or.inr ?_, ?_⟩
    · simp only [Bool.and_eq_true] at hc
      exact ⟨hc.1, hc.2, rfl⟩
    · by_cases hd : d > 0
      · simp [createNotification, hc, hd, setTimeout]
      · simp [createNotification, hc, hd, setTimeout]
  · refine ⟨s, Or.inl rfl, ?_⟩
    by_cases hd : d > 0
    · simp [createNotification, hc, hd, setTimeout]
    · simp [createNotification, hc, hd, setTimeout]

theorem createNotification_fresh (s : Notifier) (m t i : String) (d : Nat)
    (c : Option String) (g : String)
    (h : JSMap.has s.activeNotifications (registeredId c g) = false) :
      (s.createNotification m t i d c g).2 = s.elements.length ∧
      (s.createNotification m t i d c g).1.activeNotifications =
        JSMap.set s.activeNotifications (registeredId c g) s.elements.length ∧
      (s.createNotification m t i d c g).1.timers =
        s.timers ++ [⟨s.nextHandle, 10, .enter s.elements.length⟩] ++
          (if d > 0 then [⟨s.nextHandle + 1, d, .autoRemove (registeredId c g)⟩] else []) := by
  obtain ⟨s1, h1, h2, h3, _, h5⟩ := createNotification_spec s m t i d c g
  rcases h1 with h1 | ⟨_, h1, _⟩
  · subst h1; exact ⟨h2, h3, h5⟩
  · rw [h] at h1; exact absurd h1 (by decide)

end Notifier

theorem JSMap.get_of_mem {β : Type} (m : List (String × β)) (e : String × β) (h : e ∈ m) :
    ∃ v, JSMap.get m e.1 = some v := by
  induction m with
  | nil => simp at h
  | cons x rest ih =>
    by_cases hx : x.1 = e.1
    · exact ⟨x.2, by simp only [JSMap.get, if_pos hx]⟩
    · have he : e ∈ rest := by
        rcases List.mem_cons.mp h with h1 | h1
        · exact absurd (by rw [h1]) hx
        · exact h1
      obtain ⟨v, hv⟩ := ih he
      exact ⟨v, by simp only [JSMap.get, if_neg hx, hv]⟩

theorem JSMap.get_of_has {β : Type} (m : List (String × β)) (k : String)
    (h : JSMap.has m k = true) : ∃ v, JSMap.get m k = some v := by
  induction m with
  | nil => simp [JSMap.has] at h
  | cons x rest ih =>
    by_cases hx : x.1 = k
    · exact ⟨x.2, by simp only [JSMap.get, if_pos hx]⟩
    · simp only [JSMap.has, List.any_cons, Bool.or_eq_true, beq_iff_eq] at h
      rcases h with h | h
      · exact absurd h hx
      · obtain ⟨v, hv⟩ := ih h
        exact ⟨v, by simp only [JSMap.get, if_neg hx, hv]⟩

theorem JSMap.has_of_mem {β : Type} (m : List (String × β)) (e : String × β) (h : e ∈ m) :
    JSMap.has m e.1 = true := by
  simp only [JSMap.has, List.any_eq_true, beq_iff_eq]
  exact ⟨e, h, rfl⟩

theorem mem_eraseP_of_ne_find {α : Type} (p : α → Bool) (l : List α) (t a : α)
    (hf : l.find? p = some t) (ha : a ∈ l) (hne : a ≠ t) : a ∈ l.eraseP p := by
  induction l with
  | nil => simp at ha
  | cons x xs ih =>
    by_cases hx : p x = true
    · simp only [List.find?_cons, hx] at hf
      have hxt : x = t := Option.some.inj hf
      simp only [List.eraseP_cons, hx, cond_true]
      rcases List.mem_cons.mp ha with h1 | h1
      · exact absurd (h1.trans hxt) hne
      · exact h1
    · have hx2 : p x = false := by simpa using hx
      simp only [List.find?_cons, hx2] at hf
      simp only [List.eraseP_cons, hx2, cond_false]
      rcases List.mem_cons.mp ha with h1 | h1
      · rw [h1]; exact List.mem_cons_self _ _
      · exact List.mem_cons_of_mem _ (ih hf h1)

namespace Notifier

theorem foldl_remove_spec (ks : List String) (s : Notifier) :
    (ks.foldl remove s).activeNotifications = s.activeNotifications ∧
    (ks.foldl remove s).config = s.config ∧
    s.nextHandle ≤ (ks.foldl remove s).nextHandle ∧
    (∀ t ∈ s.timers, t ∈ (ks.foldl remove s).timers) ∧
    (∀ k ∈ ks, JSMap.has s.activeNotifications k = true →
      ∃ t ∈ (ks.foldl remove s).timers, t.callback.isExitFor k = true ∧
        s.nextHandle ≤ t.handle ∧ t.handle < (ks.foldl remove s).nextHandle) := by
  induction ks generalizing s with
  | nil => exact ⟨rfl, rfl, Nat.le_refl _, fun t h => h, fun k hk => by simp at hk⟩
  | cons k ks ih =>
    obtain ⟨h1, h2, h3, h4, h5⟩ := ih (s.remove k)
    simp only [List.foldl_cons]
    refine ⟨by rw [h1, remove_activeNotifications], by rw [h2, remove_config],
      Nat.le_trans (nextHandle_le_remove s k) h3,
      fun t ht => h4 t (mem_timers_remove s k t ht), ?_⟩
    intro k' hk' hreg
    rcases List.mem_cons.mp hk' with hk1 | hk1
    · subst hk1
      obtain ⟨el, hg⟩ := JSMap.get_of_has s.activeNotifications k' hreg
      obtain ⟨ht, hn⟩ := remove_timers_of_get s k' el hg
      refine ⟨⟨s.nextHandle, 300, .exitCleanup el k'⟩, h4 _ (by rw [ht]; simp), ?_, ?_, ?_⟩
      · simp [Callback.isExitFor]
      · exact Nat.le_refl _
      · show s.nextHandle < _
        omega
    · have hreg2 : JSMap.has (s.remove k).activeNotifications k' = true := by
        rw [remove_activeNotifications]; exact hreg
      obtain ⟨t, ht, hx, hlo, hhi⟩ := h5 k' hk1 hreg2
      exact ⟨t, ht, hx, Nat.le_trans (nextHandle_le_remove s k) hlo, hhi⟩

end Notifier

/-! ## Removal and replacement -/

/-- C4: for every state and every id that is not in the registry, `remove(id)`
returns normally, schedules no deferred callback and leaves the registry, and
the whole state, unchanged. -/
theorem remove_absent_is_noop (s : Notifier) (id : String)
    (h : JSMap.has s.activeNotifications id = false) :
    s.remove id = s ∧ (s.remove id).timers = s.timers ∧
      (s.remove id).activeNotifications = s.activeNotifications := by
  have hs : s.remove id = s := by
    unfold Notifier.remove
    rw [JSMap.get_eq_none_of_has_false _ _ h]
  rw [hs]
  exact ⟨rfl, rfl, rfl⟩

theorem remove_absent_is_noop_witness :
    JSMap.has (run Notifier.new [.show "a" "info" "i" 5000 "n1"]).activeNotifications "n2" = false ∧
    ((run Notifier.new [.show "a" "info" "i" 5000 "n1"]).remove "n2" =
        run Notifier.new [.show "a" "info" "i" 5000 "n1"] ∧
      ((run Notifier.new [.show "a" "info" "i" 5000 "n1"]).remove "n2").timers =
        (run Notifier.new [.show "a" "info" "i" 5000 "n1"]).timers ∧
      ((run Notifier.new [.show "a" "info" "i" 5000 "n1"]).remove "n2").activeNotifications =
        (run Notifier.new [.show "a" "info" "i" 5000 "n1"]).activeNotifications) :=
  ⟨by decide, remove_absent_is_noop _ "n2" (by decide)⟩

/-- C3 (failing input): `createNotification` with the custom id
`"midi-permission-waiting"`, duration 0, called twice (as `showWaitingPermission`
does).  After the second call the registry holds the new element 1 under the id,
and the cleanup step of the removal of the old element 0 is pending (handle 2).
Once the three pending callbacks have run in the order of their delays, the id
is absent from the registry although the new element is still attached to the
container: the deferred `delete(id)` removed the new entry. -/
theorem createNotification_replacement_drops_new_entry :
    let wp : Event :=
      .createNotification "wait" "warning" "⏱️" 0 (some "midi-permission-waiting") "g"
    (run Notifier.new [wp, wp]).activeNotifications = [("midi-permission-waiting", 1)] ∧
    (run Notifier.new [wp, wp]).timers =
      [⟨1, 10, .enter 0⟩, ⟨2, 300, .exitCleanup 0 "midi-permission-waiting"⟩, ⟨3, 10, .enter 1⟩] ∧
    (run Notifier.new [wp, wp, .fire 1, .fire 3, .fire 2]).activeNotifications = [] ∧
    (run Notifier.new [wp, wp, .fire 1, .fire 3, .fire 2]).container = [1] ∧
    (run Notifier.new [wp, wp, .fire 1, .fire 3, .fire 2]).timers = [] := by
  decide

/-- C2 (failing input): `showWaitingPermission`'s `createNotification` call, two
`show` calls, and the same `createNotification` call again leave the registry
full, with the newest element 3 in the first position (the position of the key
it replaced).  The next `show` finds the registry at capacity and evicts that
first key: the cleanup it schedules is for element 3, the entry inserted last,
while the entry inserted earliest is `"n1"` with element 1. -/
theorem show_evicts_replaced_entry_not_earliest :
    let wp : Event :=
      .createNotification "wait" "warning" "⏱️" 0 (some "midi-permission-waiting") "g"
    let s := run Notifier.new
      [wp, .show "a" "info" "i" 5000 "n1", .show "b" "info" "i" 5000 "n2", wp]
    s.activeNotifications = [("midi-permission-waiting", 3), ("n1", 1), ("n2", 2)] ∧
    s.activeCount ≥ s.config.maxNotifications ∧
    s.earliestInserted = some ("n1", 1) ∧
    ((s.show "c" "info" "i" 5000 "n3").1.scheduledSince s).map Timer.callback =
      [.exitCleanup 3 "midi-permission-waiting", .enter 4, .autoRemove "n3"] := by
  decide

/-! ## `clear` -/

namespace Notifier

theorem hidePermissionNotification_spec (s : Notifier) (k : String) :
    (s.hidePermissionNotification k).activeNotifications = s.activeNotifications ∧
    (s.hidePermissionNotification k).config = s.config ∧
    ((s.hidePermissionNotification k).timers = s.timers ∨
      (s.hidePermissionNotification k).timers = s.timers ++ [⟨s.nextHandle, 300, .hideRemove k⟩]) := by
  unfold hidePermissionNotification
  cases s.getElementById k with
  | none => exact ⟨rfl, rfl, Or.inl rfl⟩
  | some el => exact ⟨rfl, rfl, Or.inr rfl⟩

theorem covered_mono (lo hi : Nat) (s s2 : Notifier)
    (hreg : ∀ e ∈ s2.activeNotifications, e ∈ s.activeNotifications)
    (ht : ∀ t ∈ s.timers, t ∈ s2.timers) (h : Covered lo hi s) : Covered lo hi s2 := by
  intro e he
  obtain ⟨t, htm, h1, h2, h3⟩ := h e (hreg e he)
  exact ⟨t, ht t htm, h1, h2, h3⟩

theorem covered_remove (lo hi : Nat) (s : Notifier) (k : String) (h : Covered lo hi s) :
    Covered lo hi (s.remove k) :=
  covered_mono lo hi s _ (fun e he => by rw [remove_activeNotifications] at he; exact he)
    (fun t ht => mem_timers_remove s k t ht) h

theorem covered_fire (lo hi : Nat) (s : Notifier) (h : Nat) (hc : Covered lo hi s) :
    Covered lo hi (s.fire h) := by
  unfold fire
  cases hf : s.timers.find? (fun t => t.handle == h) with
  | none => exact hc
  | some t =>
    simp only []
    -- entries whose cleanup is not the fired timer stay covered once it is erased
    have hrest : ∀ e ∈ s.activeNotifications, t.callback.isExitFor e.1 = false →
        ∃ t2 ∈ s.timers.eraseP (fun t => t.handle == h),
          t2.callback.isExitFor e.1 = true ∧ lo ≤ t2.handle ∧ t2.handle < hi := by
      intro e he hne
      obtain ⟨t2, ht2, h1, h2, h3⟩ := hc e he
      refine ⟨t2, mem_eraseP_of_ne_find _ _ t t2 hf ht2 ?_, h1, h2, h3⟩
      intro heq
      rw [heq, hne] at h1
      exact absurd h1 (by decide)
    cases hcb : t.callback with
    | enter el =>
      intro e he
      exact hrest e he (by rw [hcb]; rfl)
    | autoRemove k =>
      apply covered_remove
      intro e he
      exact hrest e he (by rw [hcb]; rfl)
    | hideRemove k =>
      apply covered_remove
      intro e he
      exact hrest e he (by rw [hcb]; rfl)
    | exitCleanup el k =>
      intro e he
      simp only [runCallback, JSMap.delete, List.mem_filter, bne_iff_ne, ne_eq] at he
      apply hrest e he.1
      rw [hcb]
      simp only [Callback.isExitFor, beq_eq_false_iff_ne, ne_eq]
      exact fun h => he.2 h.symm

end Notifier

theorem covered_step (lo hi : Nat) (s : Notifier) (e : Event) (he : e.registers = false)
    (hc : Notifier.Covered lo hi s) : Notifier.Covered lo hi (step s e) := by
  cases e with
  | «show» m t i d g => simp [Event.registers] at he
  | createNotification m t i d c g => simp [Event.registers] at he
  | remove k => exact Notifier.covered_remove lo hi s k hc
  | clear =>
    obtain ⟨h1, _, _, h4, _⟩ := Notifier.foldl_remove_spec (JSMap.keys s.activeNotifications) s
    exact Notifier.covered_mono lo hi s _ (fun e he => by
      simp only [step, Notifier.clear] at he; rw [h1] at he; exact he) h4 hc
  | hidePermissionNotification k =>
    obtain ⟨h1, _, h3⟩ := Notifier.hidePermissionNotification_spec s k
    refine Notifier.covered_mono lo hi s _ (fun e he => by
      simp only [step] at he; rw [h1] at he; exact he) ?_ hc
    intro t ht
    simp only [step]
    rcases h3 with h3 | h3 <;> rw [h3]
    · exact ht
    · exact List.mem_append_left _ ht
  | fire h => exact Notifier.covered_fire lo hi s h hc

theorem covered_run (lo hi : Nat) (es : List Event) (s : Notifier)
    (he : ∀ e ∈ es, e.registers = false) (hc : Notifier.Covered lo hi s) :
    Notifier.Covered lo hi (run s es) := by
  induction es generalizing s with
  | nil => exact hc
  | cons e es ih =>
    simp only [run, List.foldl_cons]
    exact ih (step s e) (fun x hx => he x (List.mem_cons_of_mem _ hx))
      (covered_step lo hi s e (he e (List.mem_cons_self _ _)) hc)

/-- C6: for every registry state, after `clear()` and any sequence of further calls
and timer firings that registers nothing, once none of the cleanup callbacks
that `clear` scheduled is pending any more, the registry is empty. -/
theorem clear_then_exit_callbacks_empty_registry (s : Notifier) (es : List Event)
    (hreg : ∀ e ∈ es, e.registers = false)
    (hran : ∀ t ∈ (run s.clear es).timers,
      ¬ (s.nextHandle ≤ t.handle ∧ t.handle < s.clear.nextHandle)) :
    (run s.clear es).activeNotifications = [] := by
  have h0 : Notifier.Covered s.nextHandle s.clear.nextHandle s.clear := by
    obtain ⟨h1, _, _, _, h5⟩ := Notifier.foldl_remove_spec (JSMap.keys s.activeNotifications) s
    intro e he
    simp only [Notifier.clear] at he ⊢
    rw [h1] at he
    exact h5 e.1 (List.mem_map_of_mem _ he) (JSMap.has_of_mem _ e he)
  have h1 := covered_run _ _ es s.clear hreg h0
  cases hr : (run s.clear es).activeNotifications with
  | nil => rfl
  | cons e rest =>
    obtain ⟨t, ht, _, hlo, hhi⟩ := h1 e (by rw [hr]; exact List.mem_cons_self _ _)
    exact absurd ⟨hlo, hhi⟩ (hran t ht)

theorem clear_then_exit_callbacks_empty_registry_witness :
    (∀ e ∈ ([.fire 1, .fire 3, .fire 4, .fire 5] : List Event), e.registers = false) ∧
    JSMap.keys (run Notifier.new
      [.show "a" "info" "i" 5000 "n1", .show "b" "info" "i" 0 "n2"]).activeNotifications =
      ["n1", "n2"] ∧
    (run (run Notifier.new
      [.show "a" "info" "i" 5000 "n1", .show "b" "info" "i" 0 "n2"]).clear
      [.fire 1, .fire 3, .fire 4, .fire 5]).activeNotifications = [] :=
  ⟨by decide, by decide,
    clear_then_exit_callbacks_empty_registry
      (run Notifier.new [.show "a" "info" "i" 5000 "n1", .show "b" "info" "i" 0 "n2"])
      [.fire 1, .fire 3, .fire 4, .fire 5] (by decide) (by decide)⟩

/-! ## Firing a timer -/

theorem JSMap.get_delete_ne {β : Type} (m : List (String × β)) (k n : String) (h : k ≠ n) :
    JSMap.get (JSMap.delete m k) n = JSMap.get m n := by
  induction m with
  | nil => rfl
  | cons e rest ih =>
    by_cases hk : e.1 = k
    · have hn : e.1 ≠ n := fun h2 => h (hk.symm.trans h2)
      have : JSMap.delete (e :: rest) k = JSMap.delete rest k := by
        simp [JSMap.delete, List.filter_cons, hk]
      rw [this, ih]
      simp only [JSMap.get, if_neg hn]
    · have : JSMap.delete (e :: rest) k = e :: JSMap.delete rest k := by
        simp [JSMap.delete, List.filter_cons, hk]
      rw [this]
      by_cases hn : e.1 = n
      · simp only [JSMap.get, if_pos hn]
      · simp only [JSMap.get, if_neg hn, ih]

namespace Notifier

theorem fire_spec (s : Notifier) (h : Nat) :
    s.fire h = s ∨ ∃ t ∈ s.timers, ∃ q : String × Nat → Bool,
      (s.fire h).activeNotifications = s.activeNotifications.filter q ∧
      (∀ e ∈ s.activeNotifications, q e = true → t.callback.isExitFor e.1 = false) ∧
      (∀ t2 ∈ s.timers, t2 ≠ t → t2 ∈ (s.fire h).timers) ∧
      (s.fire h).config = s.config ∧
      (∀ t2 ∈ (s.fire h).timers, t2 ∈ s.timers ∨
        ∃ el k, t2.callback = .exitCleanup el k ∧ t.callback.names k = true) ∧
      (∀ id, t.callback.names id = false →
        JSMap.get (s.fire h).activeNotifications id = JSMap.get s.activeNotifications id) := by
  unfold fire
  cases hf : s.timers.find? (fun t => t.handle == h) with
  | none => exact Or.inl rfl
  | some t =>
    right
    simp only []
    have hmem : t ∈ s.timers := List.mem_of_find?_eq_some hf
    have herase : ∀ t2 ∈ s.timers, t2 ≠ t → t2 ∈ s.timers.eraseP (fun t => t.handle == h) :=
      fun t2 h2 hne => mem_eraseP_of_ne_find _ _ t t2 hf h2 hne
    have hsub : ∀ t2 ∈ s.timers.eraseP (fun t => t.handle == h), t2 ∈ s.timers :=
      fun t2 h2 => List.mem_of_mem_eraseP h2
    refine ⟨t, hmem, ?_⟩
    cases hcb : t.callback with
    | enter el =>
      refine ⟨fun _ => true, by simp [runCallback, setTransition], fun _ _ _ => rfl,
        herase, rfl, fun t2 h2 => Or.inl (hsub t2 h2), fun _ _ => rfl⟩
    | autoRemove k =>
      refine ⟨fun _ => true, by simp [runCallback], fun _ _ _ => rfl,
        fun t2 h2 hne => mem_timers_remove _ k t2 (herase t2 h2 hne), by simp [runCallback], ?_,
        fun _ _ => by simp [runCallback]⟩
      intro t2 h2
      rcases of_mem_timers_remove _ k t2 h2 with h3 | ⟨el, h3⟩
      · exact Or.inl (hsub t2 h3)
      · exact Or.inr ⟨el, k, h3, by simp [Callback.names]⟩
    | hideRemove k =>
      refine ⟨fun _ => true, by simp [runCallback], fun _ _ _ => rfl,
        fun t2 h2 hne => mem_timers_remove _ k t2 (herase t2 h2 hne), by simp [runCallback], ?_,
        fun _ _ => by simp [runCallback]⟩
      intro t2 h2
      rcases of_mem_timers_remove _ k t2 h2 with h3 | ⟨el, h3⟩
      · exact Or.inl (hsub t2 h3)
      · exact Or.inr ⟨el, k, h3, by simp [Callback.names]⟩
    | exitCleanup el k =>
      refine ⟨fun e => e.1 != k, rfl, ?_, herase, rfl, fun t2 h2 => Or.inl (hsub t2 h2), ?_⟩
      · intro e _ he
        simp only [bne_iff_ne, ne_eq] at he
        simp only [Callback.isExitFor, beq_eq_false_iff_ne, ne_eq]
        exact fun h => he h.symm
      · intro id hid
        simp only [Callback.names, beq_eq_false_iff_ne, ne_eq] at hid
        simp only [runCallback]
        exact JSMap.get_delete_ne _ _ _ hid

end Notifier

/-! ## Capacity -/

theorem JSMap.countP_set_le {β : Type} (p : String × β → Bool) (m : List (String × β))
    (k : String) (v : β) : (JSMap.set m k v).countP p ≤ m.countP p + 1 := by
  induction m with
  | nil => simp only [JSMap.set]; exact List.countP_le_length p
  | cons e rest ih =>
    by_cases hk : e.1 = k
    · simp only [JSMap.set, if_pos hk, List.countP_cons]
      have : (if p (k, v) = true then 1 else 0) ≤ 1 := by split <;> omega
      omega
    · simp only [JSMap.set, if_neg hk, List.countP_cons]
      omega

namespace Notifier

@[simp] theorem isExitFor_enter (k : String) (el : Nat) :
    (Callback.enter el).isExitFor k = false := rfl

@[simp] theorem isExitFor_autoRemove (k j : String) :
    (Callback.autoRemove j).isExitFor k = false := rfl

@[simp] theorem isExitFor_hideRemove (k j : String) :
    (Callback.hideRemove j).isExitFor k = false := rfl

@[simp] theorem isExitFor_exitCleanup (k j : String) (el : Nat) :
    (Callback.exitCleanup el j).isExitFor k = (j == k) := rfl

theorem isExit_of_isExitFor (k : String) (c : Callback) (h : c.isExitFor k = true) :
    c.isExit = true := by
  cases c <;> simp_all [Callback.isExitFor, Callback.isExit]

theorem liveCount_eq_size_of_not_exitPending (s : Notifier) (h : s.exitPending = false) :
    s.liveCount = JSMap.size s.activeNotifications := by
  unfold liveCount JSMap.size
  rw [List.countP_eq_length]
  intro e _
  simp only [Bool.not_eq_true', List.any_eq_false]
  intro t ht hx
  simp only [exitPending, List.any_eq_false] at h
  exact h t ht (isExit_of_isExitFor _ _ hx)

theorem createNotification_none_bounds (s : Notifier) (m t i : String) (d : Nat) (g : String) :
    (s.createNotification m t i d none g).1.liveCount ≤ s.liveCount + 1 ∧
    JSMap.size (s.createNotification m t i d none g).1.activeNotifications ≤
      JSMap.size s.activeNotifications + 1 ∧
    (s.createNotification m t i d none g).1.config = s.config := by
  obtain ⟨s1, h1, _, h3, h4, h5⟩ := createNotification_spec s m t i d none g
  have hs1 : s1 = s := by
    rcases h1 with h1 | ⟨h1, _⟩
    · exact h1
    · simp [truthy] at h1
  subst hs1
  refine ⟨?_, ?_, h4⟩
  · unfold liveCount
    rw [h3, h5]
    have hp : (fun e : String × Nat =>
        !((s1.timers ++ [Timer.mk s1.nextHandle 10 (.enter s1.elements.length)] ++
          (if d > 0 then [Timer.mk (s1.nextHandle + 1) d (.autoRemove (registeredId none g))]
            else [])).any
            (fun t => t.callback.isExitFor e.1))) =
        (fun e : String × Nat => !(s1.timers.any (fun t => t.callback.isExitFor e.1))) := by
      funext e
      by_cases hd : d > 0 <;> simp [hd, List.any_append]
    rw [hp]
    exact JSMap.countP_set_le _ _ _ _
  · rw [h3]
    exact JSMap.length_set_le _ _ _

theorem show_bounds (s : Notifier) (m t i : String) (d : Nat) (g : String)
    (hmax : 0 < s.config.maxNotifications) (hq : s.exitPending = false)
    (hlive : s.liveCount ≤ s.config.maxNotifications) :
    (s.show m t i d g).1.liveCount ≤ s.config.maxNotifications ∧
    JSMap.size (s.show m t i d g).1.activeNotifications ≤ s.config.maxNotifications + 1 ∧
    (s.show m t i d g).1.config = s.config := by
  have hsize := liveCount_eq_size_of_not_exitPending s hq
  rw [hsize] at hlive
  unfold «show»
  by_cases hcap : JSMap.size s.activeNotifications ≥ s.config.maxNotifications
  · simp only [hcap, if_true]
    cases hreg : s.activeNotifications with
    | nil =>
      rw [hreg] at hcap
      simp only [JSMap.size, List.length_nil] at hcap
      omega
    | cons e0 rest =>
      have hget : JSMap.get s.activeNotifications e0.1 = some e0.2 := by
        rw [hreg]; simp [JSMap.get]
      obtain ⟨ht, _⟩ := remove_timers_of_get s e0.1 e0.2 hget
      simp only [JSMap.keys, List.map_cons, List.head?_cons]
      obtain ⟨b1, b2, b3⟩ := createNotification_none_bounds (s.remove e0.1) m t i d g
      rw [remove_activeNotifications] at b2
      rw [remove_config] at b3
      have hl : (s.remove e0.1).liveCount ≤ rest.length := by
        unfold liveCount
        rw [remove_activeNotifications, ht, hreg, List.countP_cons]
        have h0 : (!((s.timers ++ [Timer.mk s.nextHandle 300 (.exitCleanup e0.2 e0.1)]).any
            (fun t => t.callback.isExitFor e0.1))) = false := by
          simp [List.any_append]
        rw [h0]
        have := @List.countP_le_length _
          (fun e : String × Nat =>
            !((s.timers ++ [Timer.mk s.nextHandle 300 (.exitCleanup e0.2 e0.1)]).any
              (fun t => t.callback.isExitFor e.1))) rest
        simpa using this
      have hb : JSMap.size s.activeNotifications = rest.length + 1 := by
        rw [hreg]; rfl
      refine ⟨by omega, by omega, b3⟩
  · simp only [hcap, if_false]
    obtain ⟨b1, b2, b3⟩ := createNotification_none_bounds s m t i d g
    rw [hsize] at b1
    refine ⟨by omega, by omega, b3⟩

theorem fire_bounds (s : Notifier) (h : Nat) :
    (s.fire h).liveCount ≤ s.liveCount ∧
    JSMap.size (s.fire h).activeNotifications ≤ JSMap.size s.activeNotifications ∧
    (s.fire h).config = s.config := by
  rcases fire_spec s h with h0 | ⟨t, _, q, hA, hB, hC, hD, _, _⟩
  · rw [h0]; exact ⟨Nat.le_refl _, Nat.le_refl _, rfl⟩
  · refine ⟨?_, ?_, hD⟩
    · unfold liveCount
      rw [hA, List.countP_filter]
      apply List.countP_mono_left
      intro e he hpq
      simp only [Bool.and_eq_true, Bool.not_eq_true', List.any_eq_false] at hpq ⊢
      intro t2 ht2 hx
      have hne : t2 ≠ t := by
        intro heq
        rw [heq, hB e he hpq.2] at hx
        exact absurd hx (by decide)
      exact hpq.1 t2 (hC t2 ht2 hne) hx
    · rw [hA]
      exact List.length_filter_le _ _

end Notifier

theorem spaced_bounds (es : List Event) (s : Notifier)
    (hmax : 0 < s.config.maxNotifications)
    (hlive : s.liveCount ≤ s.config.maxNotifications)
    (hsize : JSMap.size s.activeNotifications ≤ s.config.maxNotifications + 1)
    (hsp : spaced s es = true) :
    (run s es).liveCount ≤ s.config.maxNotifications ∧
    JSMap.size (run s es).activeNotifications ≤ s.config.maxNotifications + 1 ∧
    (run s es).config = s.config := by
  induction es generalizing s with
  | nil => exact ⟨hlive, hsize, rfl⟩
  | cons e es ih =>
    simp only [run, List.foldl_cons]
    cases e with
    | «show» m t i d g =>
      simp only [spaced, Bool.and_eq_true, Bool.not_eq_true'] at hsp
      obtain ⟨b1, b2, b3⟩ := Notifier.show_bounds s m t i d g hmax hsp.1 hlive
      have := ih (step s (.show m t i d g)) (by simp only [step]; rw [b3]; exact hmax)
        (by simp only [step]; rw [b3]; exact b1) (by simp only [step]; rw [b3]; exact b2) hsp.2
      simp only [step] at this
      rw [b3] at this
      exact this
    | fire h =>
      simp only [spaced] at hsp
      obtain ⟨b1, b2, b3⟩ := Notifier.fire_bounds s h
      have := ih (step s (.fire h)) (by simp only [step]; rw [b3]; exact hmax)
        (by simp only [step]; rw [b3]; omega) (by simp only [step]; rw [b3]; omega) hsp
      simp only [step] at this
      rw [b3] at this
      exact this
    | createNotification m t i d c g => simp [spaced] at hsp
    | remove k => simp [spaced] at hsp
    | clear => simp [spaced] at hsp
    | hidePermissionNotification k => simp [spaced] at hsp

/-- C1 (counterexample): four consecutive `show` calls from the empty registry of a
new notifier, default capacity 3, leave four entries in the registry: the
eviction of `"n1"` is only scheduled (handle 7). -/
theorem four_shows_exceed_capacity :
    (run Notifier.new
      [.show "a" "info" "i" 5000 "n1", .show "b" "info" "i" 5000 "n2",
       .show "c" "info" "i" 5000 "n3", .show "d" "info" "i" 5000 "n4"]).config.maxNotifications = 3 ∧
    JSMap.keys (run Notifier.new
      [.show "a" "info" "i" 5000 "n1", .show "b" "info" "i" 5000 "n2",
       .show "c" "info" "i" 5000 "n3", .show "d" "info" "i" 5000 "n4"]).activeNotifications =
      ["n1", "n2", "n3", "n4"] ∧
    (run Notifier.new
      [.show "a" "info" "i" 5000 "n1", .show "b" "info" "i" 5000 "n2",
       .show "c" "info" "i" 5000 "n3", .show "d" "info" "i" 5000 "n4"]).activeCount = 4 ∧
    ¬ ((run Notifier.new
      [.show "a" "info" "i" 5000 "n1", .show "b" "info" "i" 5000 "n2",
       .show "c" "info" "i" 5000 "n3", .show "d" "info" "i" 5000 "n4"]).activeCount ≤
      (run Notifier.new
      [.show "a" "info" "i" 5000 "n1", .show "b" "info" "i" 5000 "n2",
       .show "c" "info" "i" 5000 "n3", .show "d" "info" "i" 5000 "n4"]).config.maxNotifications) := by
  decide

/-- C1 (amended): on a new notifier (capacity 3), for every sequence of `show` calls
interleaved in any way with the firing of deferred callbacks, in which each
`show` call is made when no cleanup step of an earlier removal is pending: at
every instant the registry holds at most `maxNotifications + 1` entries, at
most `maxNotifications` of them outside their exit window, and at most
`maxNotifications` entries whenever no cleanup step is pending. -/
theorem spaced_shows_respect_capacity (es : List Event)
    (h : spaced Notifier.new es = true) :
    (run Notifier.new es).config.maxNotifications = 3 ∧
    (run Notifier.new es).activeCount ≤ (run Notifier.new es).config.maxNotifications + 1 ∧
    (run Notifier.new es).liveCount ≤ (run Notifier.new es).config.maxNotifications ∧
    ((run Notifier.new es).exitPending = false →
      (run Notifier.new es).activeCount ≤ (run Notifier.new es).config.maxNotifications) := by
  obtain ⟨h1, h2, h3⟩ := spaced_bounds es Notifier.new (by decide) (by decide) (by decide) h
  have hc : (run Notifier.new es).config.maxNotifications = 3 := by rw [h3]; rfl
  have hn : Notifier.new.config.maxNotifications = 3 := rfl
  rw [hn] at h1 h2
  refine ⟨hc, by rw [hc]; exact h2, by rw [hc]; exact h1, ?_⟩
  intro hq
  have := Notifier.liveCount_eq_size_of_not_exitPending _ hq
  rw [hc]
  unfold Notifier.activeCount
  omega

theorem spaced_shows_respect_capacity_witness :
    spaced Notifier.new
      [.show "a" "info" "i" 5000 "n1", .show "b" "info" "i" 5000 "n2",
       .show "c" "info" "i" 5000 "n3", .show "d" "info" "i" 5000 "n4",
       .fire 1, .fire 3, .fire 5, .fire 8, .fire 7] = true ∧
    JSMap.keys (run Notifier.new
      [.show "a" "info" "i" 5000 "n1", .show "b" "info" "i" 5000 "n2",
       .show "c" "info" "i" 5000 "n3", .show "d" "info" "i" 5000 "n4",
       .fire 1, .fire 3, .fire 5, .fire 8, .fire 7]).activeNotifications = ["n2", "n3", "n4"] ∧
    (run Notifier.new
      [.show "a" "info" "i" 5000 "n1", .show "b" "info" "i" 5000 "n2",
       .show "c" "info" "i" 5000 "n3", .show "d" "info" "i" 5000 "n4",
       .fire 1, .fire 3, .fire 5, .fire 8, .fire 7]).exitPending = false ∧
    (run Notifier.new
      [.show "a" "info" "i" 5000 "n1", .show "b" "info" "i" 5000 "n2",
       .show "c" "info" "i" 5000 "n3", .show "d" "info" "i" 5000 "n4",
       .fire 1, .fire 3, .fire 5, .fire 8, .fire 7]).activeCount ≤ 3 :=
  ⟨by decide, by decide, by decide,
    (by
      have h := spaced_shows_respect_capacity
        [.show "a" "info" "i" 5000 "n1", .show "b" "info" "i" 5000 "n2",
         .show "c" "info" "i" 5000 "n3", .show "d" "info" "i" 5000 "n4",
         .fire 1, .fire 3, .fire 5, .fire 8, .fire 7] (by decide)
      have h4 := h.2.2.2 (by decide)
      rw [h.1] at h4
      exact h4)⟩

/-! ## Persistent notifications -/

namespace Notifier

@[simp] theorem names_enter (k : String) (el : Nat) : (Callback.enter el).names k = false := rfl
@[simp] theorem names_autoRemove (k j : String) : (Callback.autoRemove j).names k = (j == k) := rfl
@[simp] theorem names_hideRemove (k j : String) : (Callback.hideRemove j).names k = (j == k) := rfl
@[simp] theorem names_exitCleanup (k j : String) (el : Nat) :
    (Callback.exitCleanup el j).names k = (j == k) := rfl

theorem settled_remove (id : String) (el : Nat) (s : Notifier) (k : String) (hk : k ≠ id)
    (h : Settled id el s) : Settled id el (s.remove k) := by
  refine ⟨by rw [remove_activeNotifications]; exact h.1, ?_⟩
  intro x hx
  rcases of_mem_timers_remove s k x hx with h1 | ⟨e, h1⟩
  · exact h.2 x h1
  · rw [h1]; simp [hk]

theorem settled_createNotification (id : String) (el : Nat) (s : Notifier) (m t i : String)
    (d : Nat) (c : Option String) (g : String) (hk : registeredId c g ≠ id)
    (h : Settled id el s) : Settled id el (s.createNotification m t i d c g).1 := by
  obtain ⟨s1, h1, _, h3, _, h5⟩ := createNotification_spec s m t i d c g
  have hs1 : Settled id el s1 := by
    rcases h1 with h1 | ⟨_, _, h1⟩
    · rw [h1]; exact h
    · rw [h1]; exact settled_remove id el s _ hk h
  refine ⟨by rw [h3, JSMap.get_set_ne _ _ _ _ hk]; exact hs1.1, ?_⟩
  intro x hx
  rw [h5] at hx
  rcases List.mem_append.mp hx with hx | hx
  · rcases List.mem_append.mp hx with hx | hx
    · exact hs1.2 x hx
    · simp only [List.mem_singleton] at hx
      rw [hx]; rfl
  · by_cases hd : d > 0
    · simp only [hd, if_true, List.mem_singleton] at hx
      rw [hx]; simp [hk]
    · simp [hd] at hx

theorem settled_fire (id : String) (el : Nat) (s : Notifier) (h : Nat)
    (hs : Settled id el s) : Settled id el (s.fire h) := by
  rcases fire_spec s h with h0 | ⟨t, ht, q, _, _, _, _, hE, hF⟩
  · rw [h0]; exact hs
  · have hn := hs.2 t ht
    refine ⟨by rw [hF id hn]; exact hs.1, ?_⟩
    intro x hx
    rcases hE x hx with h1 | ⟨e, k, h1, h2⟩
    · exact hs.2 x h1
    · rw [h1]
      simp only [names_exitCleanup, beq_eq_false_iff_ne, ne_eq]
      intro hk
      rw [hk, hn] at h2
      exact absurd h2 (by decide)

end Notifier

theorem settled_step (id : String) (el : Nat) (s : Notifier) (e : Event)
    (hd : dismisses s id e = false) (hs : Notifier.Settled id el s) :
    Notifier.Settled id el (step s e) := by
  cases e with
  | «show» m t i d g =>
    simp only [dismisses, Bool.or_eq_false_iff, Bool.and_eq_false_iff, decide_eq_false_iff_not,
      beq_eq_false_iff_ne, ne_eq] at hd
    simp only [step, Notifier.show]
    apply Notifier.settled_createNotification
    · simp only [Notifier.registeredId, Notifier.truthy]
      exact hd.2
    · by_cases hcap : JSMap.size s.activeNotifications ≥ s.config.maxNotifications
      · simp only [hcap, if_true]
        cases hh : (JSMap.keys s.activeNotifications).head? with
        | none => exact hs
        | some k =>
          simp only []
          apply Notifier.settled_remove _ _ _ _ _ hs
          intro hk
          rcases hd.1 with h1 | h1
          · exact h1 hcap
          · rw [hh, hk] at h1
            simp at h1
      · simp only [hcap, if_false]
        exact hs
  | createNotification m t i d c g =>
    simp only [dismisses, beq_eq_false_iff_ne, ne_eq] at hd
    exact Notifier.settled_createNotification id el s m t i d c g hd hs
  | remove k =>
    simp only [dismisses, beq_eq_false_iff_ne, ne_eq] at hd
    exact Notifier.settled_remove id el s k hd hs
  | clear => simp [dismisses] at hd
  | hidePermissionNotification k =>
    simp only [dismisses, beq_eq_false_iff_ne, ne_eq] at hd
    obtain ⟨h1, _, h3⟩ := Notifier.hidePermissionNotification_spec s k
    refine ⟨by simp only [step]; rw [h1]; exact hs.1, ?_⟩
    intro x hx
    simp only [step] at hx
    rcases h3 with h3 | h3 <;> rw [h3] at hx
    · exact hs.2 x hx
    · rcases List.mem_append.mp hx with hx | hx
      · exact hs.2 x hx
      · simp only [List.mem_singleton] at hx
        rw [hx]; simp [hd]
  | fire h => exact Notifier.settled_fire id el s h hs

theorem settled_run (id : String) (el : Nat) (es : List Event) (s : Notifier)
    (hu : undisturbed id s es = true) (hs : Notifier.Settled id el s) :
    Notifier.Settled id el (run s es) := by
  induction es generalizing s with
  | nil => exact hs
  | cons e es ih =>
    simp only [undisturbed, Bool.and_eq_true, Bool.not_eq_true'] at hu
    simp only [run, List.foldl_cons]
    exact ih (step s e) hu.2 (settled_step id el s e hu.1 hs)

/-- C5 (amended): a notification created with duration 0 under an id that is neither
registered nor named by a pending callback schedules only its enter transition,
no auto-dismiss timer; and it stays in the registry, under its id, through every
sequence of calls and timer firings in which no call dismisses or replaces it:
no `remove` or `hidePermissionNotification` naming its id, no `clear`, no `show`
that evicts it as the oldest entry of a full registry, and no registration
under its id. -/
theorem persistent_notification_stays (s : Notifier) (m t i : String) (c : Option String)
    (g : String) (es : List Event)
    (hreg : JSMap.has s.activeNotifications (Notifier.registeredId c g) = false)
    (hnone : ∀ x ∈ s.timers, x.callback.names (Notifier.registeredId c g) = false)
    (hund : undisturbed (Notifier.registeredId c g) (s.createNotification m t i 0 c g).1 es = true) :
    (s.createNotification m t i 0 c g).1.timers =
      s.timers ++ [Timer.mk s.nextHandle 10 (.enter (s.createNotification m t i 0 c g).2)] ∧
    JSMap.get (run (s.createNotification m t i 0 c g).1 es).activeNotifications
      (Notifier.registeredId c g) = some (s.createNotification m t i 0 c g).2 := by
  obtain ⟨h1, h2, h3⟩ := Notifier.createNotification_fresh s m t i 0 c g hreg
  have ht : (s.createNotification m t i 0 c g).1.timers =
      s.timers ++ [Timer.mk s.nextHandle 10 (.enter (s.createNotification m t i 0 c g).2)] := by
    rw [h3, h1]; simp
  refine ⟨ht, ?_⟩
  have h0 : Notifier.Settled (Notifier.registeredId c g) (s.createNotification m t i 0 c g).2
      (s.createNotification m t i 0 c g).1 := by
    refine ⟨by rw [h2, h1]; exact JSMap.get_set_self _ _ _, ?_⟩
    intro x hx
    rw [ht] at hx
    rcases List.mem_append.mp hx with hx | hx
    · exact hnone x hx
    · simp only [List.mem_singleton] at hx
      rw [hx]; rfl
  exact (settled_run _ _ es _ hund h0).1

/-- C5 (counterexample): a notification created with duration 0 under the id
`"midi-permission-waiting"` leaves the registry although no call names its id:
three `show` calls follow, the third finds the registry full and evicts the
oldest entry, which is the persistent one; its cleanup (handle 6) then runs. -/
theorem persistent_notification_evicted :
    (∀ e ∈ ([.show "a" "info" "i" 5000 "n1", .show "b" "info" "i" 5000 "n2",
        .show "c" "info" "i" 5000 "n3", .fire 1, .fire 2, .fire 4, .fire 7, .fire 6] : List Event),
      e ≠ .remove "midi-permission-waiting" ∧
      e ≠ .hidePermissionNotification "midi-permission-waiting") ∧
    JSMap.has (Notifier.new.createNotification "wait" "warning" "⏱️" 0
      (some "midi-permission-waiting") "g").1.activeNotifications "midi-permission-waiting" = true ∧
    JSMap.has (run (Notifier.new.createNotification "wait" "warning" "⏱️" 0
      (some "midi-permission-waiting") "g").1
      [.show "a" "info" "i" 5000 "n1", .show "b" "info" "i" 5000 "n2",
        .show "c" "info" "i" 5000 "n3", .fire 1, .fire 2, .fire 4, .fire 7, .fire 6]).activeNotifications
      "midi-permission-waiting" = false := by
  decide

theorem persistent_notification_stays_witness :
    JSMap.has Notifier.new.activeNotifications
      (Notifier.registeredId (some "midi-permission-waiting") "g") = false ∧
    undisturbed (Notifier.registeredId (some "midi-permission-waiting") "g")
      (Notifier.new.createNotification "wait" "warning" "⏱️" 0
        (some "midi-permission-waiting") "g").1
      [.show "a" "info" "i" 5000 "n1", .show "b" "info" "i" 5000 "n2", .fire 1, .fire 2, .fire 4,
       .fire 3, .fire 5, .fire 6, .fire 7, .show "c" "info" "i" 5000 "n3"] = true ∧
    JSMap.get (run (Notifier.new.createNotification "wait" "warning" "⏱️" 0
        (some "midi-permission-waiting") "g").1
      [.show "a" "info" "i" 5000 "n1", .show "b" "info" "i" 5000 "n2", .fire 1, .fire 2, .fire 4,
       .fire 3, .fire 5, .fire 6, .fire 7, .show "c" "info" "i" 5000 "n3"]).activeNotifications
      (Notifier.registeredId (some "midi-permission-waiting") "g") = some 0 :=
  ⟨by decide, by decide,
    (persistent_notification_stays Notifier.new "wait" "warning" "⏱️"
      (some "midi-permission-waiting") "g"
      [.show "a" "info" "i" 5000 "n1", .show "b" "info" "i" 5000 "n2", .fire 1, .fire 2, .fire 4,
       .fire 3, .fire 5, .fire 6, .fire 7, .show "c" "info" "i" 5000 "n3"]
      (by decide) (by decide) (by decide)).2⟩

/-! ## Legacy adapter -/

theorem getProp_installShim (s : Notifier) (k n : String)
    (h : (s.getProp n).isFunction = true) :
    (s.installShim k).getProp n = s.getProp n := by
  unfold Notifier.installShim
  by_cases hk : (s.getProp k).isFunction = true
  · rw [if_pos hk]
  · rw [if_neg hk]
    have hne : k ≠ n := by
      intro hkn
      rw [hkn] at hk
      exact hk h
    simp only [Notifier.getProp, Notifier.setProp, JSMap.get_set_ne _ _ _ _ hne]

/-- C10: for each of the six legacy names (and for every other property name), if
the instance already has a function under that name when
`ensureLegacyAPICompatibility` runs, the name still refers to that same function
afterwards. -/
theorem ensureLegacyAPICompatibility_keeps_functions (s : Notifier) (name : String)
    (h : (s.getProp name).isFunction = true) :
    s.ensureLegacyAPICompatibility.getProp name = s.getProp name := by
  unfold Notifier.ensureLegacyAPICompatibility
  by_cases hr : s.legacyApiReady = true
  · rw [if_pos hr]
  · rw [if_neg hr]
    have f0 : (({ s with legacyApiReady := true } : Notifier).getProp name).isFunction = true := h
    have e1 := getProp_installShim _ "showDeviceConnected" name f0
    have f1 := e1 ▸ f0
    have e2 := getProp_installShim _ "showDeviceDisconnected" name f1
    have f2 := e2 ▸ f1
    have e3 := getProp_installShim _ "showDeviceRejected" name f2
    have f3 := e3 ▸ f2
    have e4 := getProp_installShim _ "showDeviceError" name f3
    have f4 := e4 ▸ f3
    have e5 := getProp_installShim _ "showAutoReconnected" name f4
    have f5 := e5 ▸ f4
    have e6 := getProp_installShim _ "showAutoReconnectAttempt" name f5
    simp only []
    rw [e6, e5, e4, e3, e2, e1]
    rfl

theorem ensureLegacyAPICompatibility_keeps_functions_witness :
    "showDeviceConnected" ∈ legacyNames ∧
    (({ own := [("showDeviceConnected", .external 7)] } : Notifier).getProp
      "showDeviceConnected").isFunction = true ∧
    ({ own := [("showDeviceConnected", .external 7)] } : Notifier).ensureLegacyAPICompatibility.getProp
      "showDeviceConnected" = .external 7 :=
  ⟨by decide, by decide,
    ensureLegacyAPICompatibility_keeps_functions
      ({ own := [("showDeviceConnected", .external 7)] } : Notifier) "showDeviceConnected"
      (by decide)⟩

/-! ## Legacy shims -/

theorem terraDevice_truthy (x : String) : (JSArg.str ("terra-device-" ++ x)).truthy = true := by
  simp only [JSArg.truthy, bne_iff_ne, ne_eq]
  intro h
  have := congrArg String.length h
  simp [String.length_append] at this
  have h2 : "terra-device-".length = 13 := by decide
  omega

theorem str_truthy (k : String) (hk : k ≠ "") : (JSArg.str k).truthy = true := by
  simp [JSArg.truthy, hk]

theorem legacyDescriptor_string (k : String) (now : Nat) (hk : k ≠ "") :
    legacyDescriptor (.value (.str k)) now =
      { name := .str k, id := .str ("terra-device-" ++ toString now),
        manufacturer := .str "Terra Eletrônica" } := by
  have h1 : namesArray (.value (.str k)) = [.str k] := by
    simp [namesArray, str_truthy k hk]
  have h2 : legacyLabel (.value (.str k)) = k := by
    simp [legacyLabel, h1, joinNames, JSArg.joinText, String.intercalate, String.intercalate.go]
  simp only [legacyDescriptor, h2, JSArg.orElse, str_truthy k hk, terraDevice_truthy, if_true]
  rfl

/-- C11: for every non-empty string `s`, the legacy call `showDeviceConnected(s)`
hands `showConnected` the descriptor `{name: s, id: "terra-device-" + Date.now(),
manufacturer: "Terra Eletrônica"}` and so does exactly what `showConnected` does
when called with that descriptor. -/
theorem showDeviceConnected_string (s : Notifier) (k : String) (now : Nat) (gen : String)
    (hk : k ≠ "") :
    legacyDescriptor (.value (.str k)) now =
      { name := .str k, id := .str ("terra-device-" ++ toString now),
        manufacturer := .str "Terra Eletrônica" } ∧
    s.showDeviceConnected (.value (.str k)) now gen =
      s.showConnected
        { name := .str k, id := .str ("terra-device-" ++ toString now),
          manufacturer := .str "Terra Eletrônica" } gen := by
  refine ⟨legacyDescriptor_string k now hk, ?_⟩
  unfold Notifier.showDeviceConnected
  rw [legacyDescriptor_string k now hk]

theorem showDeviceConnected_string_witness :
    "Korg" ≠ "" ∧
    legacyDescriptor (.value (.str "Korg")) 1700000000000 =
      { name := .str "Korg", id := .str "terra-device-1700000000000",
        manufacturer := .str "Terra Eletrônica" } ∧
    (Notifier.new.showDeviceConnected (.value (.str "Korg")) 1700000000000 "n1").outcome =
      .returned :=
  ⟨by decide,
    (showDeviceConnected_string Notifier.new "Korg" 1700000000000 "n1" (by decide)).1,
    by decide⟩

theorem namesArray_array (items : List LegacyItem) :
    (namesArray (.array items)).map JSArg.joinText = identifiableNames items := by
  induction items with
  | nil => rfl
  | cons it rest ih =>
    simp only [namesArray] at ih ⊢
    cases it with
    | value v =>
      cases v with
      | undefined => simpa [LegacyItem.truthy, JSArg.truthy, identifiableNames] using ih
      | null => simpa [LegacyItem.truthy, JSArg.truthy, identifiableNames] using ih
      | str t =>
        by_cases ht : t = ""
        · simpa [LegacyItem.truthy, JSArg.truthy, identifiableNames, ht] using ih
        · simp [LegacyItem.truthy, JSArg.truthy, identifiableNames, ht, LegacyItem.nameOf,
            JSArg.joinText, List.filter_cons]
          exact ih
      | other b x =>
        cases b with
        | false => simpa [LegacyItem.truthy, JSArg.truthy, identifiableNames] using ih
        | true =>
          simp [LegacyItem.truthy, JSArg.truthy, identifiableNames, LegacyItem.nameOf,
            List.filter_cons]
          exact ih
    | object d =>
      by_cases hd : d.name.truthy = true
      · simp [LegacyItem.truthy, identifiableNames, hd, LegacyItem.nameOf, List.filter_cons]
        exact ih
      · simp [LegacyItem.truthy, identifiableNames, hd, LegacyItem.nameOf, List.filter_cons]
        exact ih

/-- C12: for every array payload, `showDeviceConnected` hands `showConnected` one
descriptor whose name is the `", "`-join, in array order, of the non-empty
string items and the non-empty `name` fields of the object items, items without
such a name being skipped; when no item yields a name, the name is
`"Dispositivo Terra"`.  The id is generated and the manufacturer is the default. -/
theorem showDeviceConnected_array (s : Notifier) (items : List LegacyItem) (now : Nat)
    (gen : String) :
    legacyDescriptor (.array items) now =
      { name := .str (if identifiableNames items = [] then "Dispositivo Terra"
          else ", ".intercalate (identifiableNames items)),
        id := .str ("terra-device-" ++ toString now),
        manufacturer := .str "Terra Eletrônica" } ∧
    s.showDeviceConnected (.array items) now gen =
      s.showConnected
        { name := .str (if identifiableNames items = [] then "Dispositivo Terra"
            else ", ".intercalate (identifiableNames items)),
          id := .str ("terra-device-" ++ toString now),
          manufacturer := .str "Terra Eletrônica" } gen := by
  have hlabel : legacyLabel (.array items) =
      (if identifiableNames items = [] then "Dispositivo Terra"
        else ", ".intercalate (identifiableNames items)) := by
    have h := namesArray_array items
    unfold legacyLabel joinNames
    rw [h]
    cases hn : namesArray (.array items) with
    | nil =>
      rw [hn] at h
      simp only [List.map_nil] at h
      simp [← h]
    | cons a l =>
      rw [hn] at h
      simp only [List.map_cons] at h
      simp [← h]
  have hdesc : legacyDescriptor (.array items) now =
      { name := .str (legacyLabel (.array items)),
        id := .str ("terra-device-" ++ toString now),
        manufacturer := .str "Terra Eletrônica" } := by
    simp only [legacyDescriptor, JSArg.orElse, terraDevice_truthy, if_true]
    have hm : (JSArg.str "Terra Eletrônica").truthy = true := by decide
    simp only [hm, if_true]
    split <;> rfl
  rw [← hlabel]
  refine ⟨hdesc, ?_⟩
  unfold Notifier.showDeviceConnected
  rw [hdesc]

/-- C13 (failing input): on a constructed notifier the property `showAutoReconnected`
is the class method of lines 447-454, not the shim of lines 93-100, so a string
argument is not normalized: `showAutoReconnected("Korg")` reads `"Korg".name`,
which is `undefined`, and announces the default device `Midi-Terra`, exactly as
a call without argument does, while `showAutoReconnected({name: "Korg"})`
announces `Korg`. -/
theorem showAutoReconnected_string_not_normalized :
    Notifier.new.getProp "showAutoReconnected" = .classMethod "showAutoReconnected" ∧
    (∀ (k : String) (now : Nat) (gen : String),
      Notifier.new.callShowAutoReconnected (.text k) now gen =
        Notifier.new.callShowAutoReconnected .undefined now gen) ∧
    (Notifier.new.callShowAutoReconnected (.text "Korg") 17 "n1").map
        (fun r => r.state.elements.map Element.message) =
      some ["🔄 <strong>Midi-Terra</strong> reconectado com sucesso!"] ∧
    (Notifier.new.callShowAutoReconnected (.object { name := .str "Korg" }) 17 "n1").map
        (fun r => r.state.elements.map Element.message) =
      some ["🔄 <strong>Korg</strong> reconectado com sucesso!"] ∧
    Notifier.new.callShowAutoReconnected (.text "Korg") 17 "n1" ≠
      Notifier.new.callShowAutoReconnected (.object { name := .str "Korg" }) 17 "n1" := by
  refine ⟨by decide, ?_, by decide, by decide, by decide⟩
  intro k now gen
  rfl

theorem orElse_passOrDefault (v : JSArg) (d : String) (hv : v.isStringOrMissing = true) :
    v.orElse (.str d) = passOrDefault v d := by
  cases v with
  | undefined => rfl
  | null => rfl
  | str t =>
    by_cases ht : t = ""
    · simp [JSArg.orElse, JSArg.truthy, passOrDefault, ht]
    · simp [JSArg.orElse, JSArg.truthy, passOrDefault, ht]
  | other b x => simp [JSArg.isStringOrMissing] at hv

/-- C14: the legacy calls `showDeviceDisconnected(id, name)`, `showDeviceRejected(name)`
and `showDeviceError(message)` are pass-throughs: for arguments that are strings
or missing they call `showDisconnected`, `showRejected` and `showError` with the
same argument when it is a non-empty string and with the fixed default
(`"terra-device"`, `"Dispositivo Terra"`, `"Dispositivo não identificado"`,
`"Erro desconhecido no dispositivo MIDI"`) when it is missing or empty. -/
theorem legacy_passthrough (s : Notifier) (deviceId deviceName message : JSArg) (gen : String)
    (h1 : deviceId.isStringOrMissing = true) (h2 : deviceName.isStringOrMissing = true)
    (h3 : message.isStringOrMissing = true) :
    s.showDeviceDisconnected deviceId deviceName gen =
      s.showDisconnected (passOrDefault deviceId "terra-device")
        (passOrDefault deviceName "Dispositivo Terra") gen ∧
    s.showDeviceRejected deviceName gen =
      s.showRejected (passOrDefault deviceName "Dispositivo não identificado") gen ∧
    s.showDeviceError message gen =
      s.showError (passOrDefault message "Erro desconhecido no dispositivo MIDI") gen := by
  unfold Notifier.showDeviceDisconnected Notifier.showDeviceRejected Notifier.showDeviceError
  rw [orElse_passOrDefault deviceId _ h1,
    orElse_passOrDefault deviceName "Dispositivo Terra" h2,
    orElse_passOrDefault deviceName "Dispositivo não identificado" h2,
    orElse_passOrDefault message _ h3]
  exact ⟨rfl, rfl, rfl⟩

theorem legacy_passthrough_witness :
    (JSArg.str "dev-1").isStringOrMissing = true ∧ JSArg.undefined.isStringOrMissing = true ∧
    (JSArg.str "").isStringOrMissing = true ∧
    (Notifier.new.showDeviceDisconnected (.str "dev-1") .undefined "n1" =
      Notifier.new.showDisconnected (.str "dev-1") (.str "Dispositivo Terra") "n1" ∧
    Notifier.new.showDeviceRejected .undefined "n1" =
      Notifier.new.showRejected (.str "Dispositivo não identificado") "n1" ∧
    Notifier.new.showDeviceError (.str "") "n1" =
      Notifier.new.showError (.str "Erro desconhecido no dispositivo MIDI") "n1") :=
  ⟨by decide, by decide, by decide,
    legacy_passthrough Notifier.new (.str "dev-1") .undefined (.str "") "n1"
      (by decide) (by decide) (by decide)⟩

/-! ## Event operations -/

/-- C15 (failing input): `showConnected` called with a device object that has a name
but no id displays the notification and then raises a `TypeError` at line 159
(`device.id.padEnd`); `showDisconnected` called without a device id raises one
at line 186 (`deviceId.padEnd`). -/
theorem showConnected_throws_on_partial_device :
    (Notifier.new.showConnected { name := .str "Korg" } "n1").outcome = .threw 159 ∧
    JSMap.keys (Notifier.new.showConnected { name := .str "Korg" } "n1").state.activeNotifications =
      ["n1"] ∧
    (Notifier.new.showConnected { id := .str "dev-1" } "n1").outcome = .threw 158 ∧
    (Notifier.new.showDisconnected .undefined (.str "Korg") "n1").outcome = .threw 186 ∧
    (Notifier.new.showConnected
      { name := .str "Korg", id := .str "dev-1", manufacturer := .undefined } "n1").outcome =
      .returned := by
  decide

namespace Notifier

theorem remove_elements_length (s : Notifier) (k : String) :
    (s.remove k).elements.length = s.elements.length := by
  unfold remove
  split
  · rfl
  · simp [setTimeout, setTransition]

theorem rendered_createNotification (s s1 : Notifier) (X : List Timer) (m t i : String)
    (d : Nat) (g : String) (hlen : s1.elements.length = s.elements.length)
    (ht : s1.timers = s.timers ++ X) (hX : ∀ x ∈ X, x.callback.isExit = true) (hd : 0 < d) :
    rendered s (s1.createNotification m t i d none g).1 = some (severityClass t, d) := by
  have he : (s1.createNotification m t i d none g).1.elements.get? s.elements.length =
      some { id := g, className := severityClass t, icon := i, message := m,
             transform := "translateX(400px)", opacity := "0", animation := "",
             typeStyle := styleBucket t } := by
    simp [createNotification, registeredId, truthy, setTimeout, hd, ← hlen, severityClass]
  have htm : (s1.createNotification m t i d none g).1.timers.drop s.timers.length =
      X ++ [Timer.mk s1.nextHandle 10 (.enter s1.elements.length),
        Timer.mk (s1.nextHandle + 1) d (.autoRemove g)] := by
    simp [createNotification, registeredId, truthy, setTimeout, hd, ht]
  unfold rendered
  rw [he]
  simp only [htm]
  have hfind : (X ++ [Timer.mk s1.nextHandle 10 (.enter s1.elements.length),
        Timer.mk (s1.nextHandle + 1) d (.autoRemove g)]).find?
        (fun x => x.callback == .autoRemove g) = some (Timer.mk (s1.nextHandle + 1) d (.autoRemove g)) := by
    rw [List.find?_append]
    have hnone : X.find? (fun x => x.callback == .autoRemove g) = none := by
      rw [List.find?_eq_none]
      intro x hx
      have := hX x hx
      cases hc : x.callback <;> simp_all [Callback.isExit]
    rw [hnone]
    simp [List.find?_cons]
  rw [hfind]

theorem rendered_show (s : Notifier) (m t i : String) (d : Nat) (g : String) (hd : 0 < d) :
    rendered s (s.show m t i d g).1 = some (severityClass t, d) := by
  unfold «show»
  by_cases hcap : JSMap.size s.activeNotifications ≥ s.config.maxNotifications
  · simp only [hcap, if_true]
    cases hh : (JSMap.keys s.activeNotifications).head? with
    | none =>
      exact rendered_createNotification s s [] m t i d g rfl (by simp) (by simp) hd
    | some k =>
      simp only []
      rcases remove_timers s k with h1 | ⟨el, _, h1⟩
      · exact rendered_createNotification s (s.remove k) [] m t i d g
          (remove_elements_length s k) (by simp [h1]) (by simp) hd
      · exact rendered_createNotification s (s.remove k) _ m t i d g
          (remove_elements_length s k) h1 (by simp [Callback.isExit]) hd
  · simp only [hcap, if_false]
    exact rendered_createNotification s s [] m t i d g rfl (by simp) (by simp) hd

end Notifier

namespace Notifier

theorem showConnected_state (s : Notifier) (device : Device) (gen : String) :
    (s.showConnected device gen).state =
      (s.show ("🎹 Dispositivo conectado: <strong>" ++ device.name.toText ++ "</strong>")
        "success" "✅" s.config.duration gen).1 := by
  unfold showConnected
  simp only []
  split_ifs <;> rfl

theorem showDisconnected_state (s : Notifier) (deviceId deviceName : JSArg) (gen : String) :
    (s.showDisconnected deviceId deviceName gen).state =
      (s.show ("🔌 Dispositivo desconectado: <strong>" ++
        (deviceName.withDefault (.str "Dispositivo desconhecido")).toText ++ "</strong>")
        "warning" "⚠️" s.config.duration gen).1 := by
  unfold showDisconnected
  simp only []
  split_ifs <;> rfl

theorem showAutoReconnectAttempt_state (s : Notifier) (detail : DetailArg) (gen : String) :
    ∃ message, (s.showAutoReconnectAttempt detail gen).state =
      (s.show message "info" "🔄" 5000 gen).1 := by
  unfold showAutoReconnectAttempt
  simp only []
  split_ifs <;> exact ⟨_, rfl⟩

end Notifier

/-- C16: each event operation renders with the severity and the duration of the
table, for every payload, on a notifier whose configured default duration is
5000 ms: the element it creates carries the class of that severity and the
auto-dismiss timer it schedules has that delay. -/
theorem event_table (s : Notifier) (hcfg : s.config.duration = 5000) (device : Device)
    (deviceId deviceName errorMessage currentVersion minimumVersion state : JSArg)
    (browser : Option String) (detail : DetailArg) (gen : String) :
    rendered s (s.showConnected device gen).state = some (severityClass "success", 5000) ∧
    rendered s (s.showDisconnected deviceId deviceName gen).state =
      some (severityClass "warning", 5000) ∧
    rendered s (s.showRejected deviceName gen) = some (severityClass "warning", 5000) ∧
    rendered s (s.showError errorMessage gen) = some (severityClass "error", 8000) ∧
    rendered s (s.showUnsupported gen) = some (severityClass "error", 10000) ∧
    rendered s (s.showNoDevices gen) = some (severityClass "info", 7000) ∧
    rendered s (s.showPermissionGranted gen) = some (severityClass "success", 3000) ∧
    rendered s (s.showPermissionTimeout browser gen) = some (severityClass "error", 8000) ∧
    rendered s (s.showAutoReconnectAttempt detail gen).state =
      some (severityClass "info", 5000) ∧
    rendered s (s.showAutoReconnected detail gen) = some (severityClass "success", 6000) ∧
    rendered s (s.showAutoReconnectFailed detail gen) = some (severityClass "warning", 7000) ∧
    rendered s (s.showInsecureContext gen) = some (severityClass "error", 12000) ∧
    rendered s (s.showExclusiveUseWarning gen) = some (severityClass "warning", 9000) ∧
    rendered s (s.showChromeUpdateWarning currentVersion minimumVersion gen) =
      some (severityClass "warning", 10000) ∧
    rendered s (s.showPermissionInstructions state gen) =
      some (severityClass (if state = .str "denied" then "error" else "warning"), 10000) := by
  refine ⟨?_, ?_, ?_, ?_, ?_, ?_, ?_, ?_, ?_, ?_, ?_, ?_, ?_, ?_, ?_⟩
  · rw [Notifier.showConnected_state, hcfg]
    exact Notifier.rendered_show s _ _ _ _ _ (by decide)
  · rw [Notifier.showDisconnected_state, hcfg]
    exact Notifier.rendered_show s _ _ _ _ _ (by decide)
  · unfold Notifier.showRejected
    rw [hcfg]
    exact Notifier.rendered_show s _ _ _ _ _ (by decide)
  · exact Notifier.rendered_show s _ _ _ _ _ (by decide)
  · exact Notifier.rendered_show s _ _ _ _ _ (by decide)
  · exact Notifier.rendered_show s _ _ _ _ _ (by decide)
  · exact Notifier.rendered_show s _ _ _ _ _ (by decide)
  · exact Notifier.rendered_show s _ _ _ _ _ (by decide)
  · obtain ⟨message, hm⟩ := Notifier.showAutoReconnectAttempt_state s detail gen
    rw [hm]
    exact Notifier.rendered_show s _ _ _ _ _ (by decide)
  · exact Notifier.rendered_show s _ _ _ _ _ (by decide)
  · exact Notifier.rendered_show s _ _ _ _ _ (by decide)
  · exact Notifier.rendered_show s _ _ _ _ _ (by decide)
  · exact Notifier.rendered_show s _ _ _ _ _ (by decide)
  · exact Notifier.rendered_show s _ _ _ _ _ (by decide)
  · unfold Notifier.showPermissionInstructions
    simp only []
    have hden : ((state.withDefault (.str "prompt")) == JSArg.str "denied") =
        decide (state = .str "denied") := by
      rw [beq_eq_decide]
      cases state <;> simp [JSArg.withDefault]
    rw [hden]
    by_cases hs : state = .str "denied"
    · simp only [hs, decide_True, if_true]
      exact Notifier.rendered_show s _ _ _ _ _ (by decide)
    · simp only [hs, decide_False, if_false]
      exact Notifier.rendered_show s _ _ _ _ _ (by decide)

theorem event_table_witness :
    Notifier.new.config.duration = 5000 ∧
    rendered Notifier.new (Notifier.new.showConnected { name := .str "Korg" } "n1").state =
      some (severityClass "success", 5000) ∧
    rendered Notifier.new (Notifier.new.showPermissionInstructions (.str "denied") "n1") =
      some (severityClass "error", 10000) :=
  ⟨by decide,
    (event_table Notifier.new (by decide) { name := .str "Korg" } .undefined .undefined
      .undefined .undefined .undefined (.str "denied") none .undefined "n1").1,
    (event_table Notifier.new (by decide) { name := .str "Korg" } .undefined .undefined
      .undefined .undefined .undefined (.str "denied") none .undefined "n1").2.2.2.2.2.2.2.2.2.2.2.2.2.2⟩

/-! ## Style buckets -/

/-- C20 (failing input): the severity string `"constructor"` is none of the four
buckets, yet `typeStyles["constructor"]` finds the function inherited from
`Object.prototype`, which is truthy, so the info style is not used: the text
appended to `baseStyles` is the source text of that function. -/
theorem styleBucket_inherited_key :
    styleBucket "info" = .str "background: linear-gradient(135deg, #667eea 0%, #764ba2 100%);" ∧
    styleBucket "constructor" = .inherited "constructor" ∧
    styleBucket "constructor" ≠ styleBucket "info" ∧
    (Notifier.new.show "m" "constructor" "i" 5000 "n1").1.elements.map
        (fun e => e.typeStyle.toText) =
      ["function Object() \x7b [native code] \x7d"] := by
  decide

theorem styleBucket_known :
    styleBucket "success" =
      .str "background: linear-gradient(135deg, #00ff88 0%, #00cc6a 100%);" ∧
    styleBucket "warning" =
      .str "background: linear-gradient(135deg, #ffd700 0%, #ffb700 100%); color: #333;" ∧
    styleBucket "error" =
      .str "background: linear-gradient(135deg, #ff4444 0%, #cc0000 100%);" ∧
    styleBucket "info" =
      .str "background: linear-gradient(135deg, #667eea 0%, #764ba2 100%);" := by
  decide

/-- Outside the four buckets and the member names of `Object.prototype`, the
bucket is the info style. -/
theorem styleBucket_fallback (type : String) (h1 : type ∉ JSMap.keys typeStyles)
    (h2 : type ∉ objectPrototypeMembers) : styleBucket type = styleBucket "info" := by
  have h : typeStylesAt type = none := by
    simp only [typeStylesAt, JSMap.get_eq_none_of_not_mem_keys typeStyles _ h1, if_neg h2]
  have hi : styleBucket "info" =
      .str "background: linear-gradient(135deg, #667eea 0%, #764ba2 100%);" := by decide
  rw [hi]
  simp only [styleBucket, h]

/-! ## The waiting-permission notification -/

theorem JSMap.keys_set_nodup {β : Type} (m : List (String × β)) (k : String) (v : β)
    (h : (JSMap.keys m).Nodup) : (JSMap.keys (JSMap.set m k v)).Nodup := by
  have hk : ∀ (m : List (String × β)), JSMap.has m k = true →
      JSMap.keys (JSMap.set m k v) = JSMap.keys m := by
    intro m
    induction m with
    | nil => intro h; simp [JSMap.has] at h
    | cons e rest ih =>
      intro hh
      by_cases he : e.1 = k
      · simp only [JSMap.set, if_pos he, JSMap.keys, List.map_cons, he, if_true]
      · simp only [JSMap.has, List.any_cons, Bool.or_eq_true, beq_iff_eq] at hh
        have hr : JSMap.has rest k = true := by
          rcases hh with hh | hh
          · exact absurd hh he
          · simpa [JSMap.has] using hh
        have := ih hr
        simp only [JSMap.keys] at this
        simp [JSMap.set, he, JSMap.keys, this]
  have hn : ∀ (m : List (String × β)), JSMap.has m k = false →
      JSMap.keys (JSMap.set m k v) = JSMap.keys m ++ [k] := by
    intro m
    induction m with
    | nil => intro _; rfl
    | cons e rest ih =>
      intro hh
      simp only [JSMap.has, List.any_cons, Bool.or_eq_false_iff, beq_eq_false_iff_ne, ne_eq] at hh
      have hr : JSMap.has rest k = false := by simpa [JSMap.has] using hh.2
      have := ih hr
      simp only [JSMap.keys] at this
      simp [JSMap.set, hh.1, JSMap.keys, this]
  cases hh : JSMap.has m k with
  | true => rw [hk m hh]; exact h
  | false =>
    rw [hn m hh]
    rw [List.nodup_append]
    refine ⟨h, List.nodup_singleton k, ?_⟩
    intro a ha hb
    simp only [List.mem_singleton] at hb
    subst hb
    simp only [JSMap.keys, List.mem_map] at ha
    obtain ⟨e, he, hek⟩ := ha
    have := JSMap.has_of_mem m e he
    rw [hek, hh] at this
    exact absurd this (by decide)

theorem JSMap.count_of_nodup {β : Type} (m : List (String × β)) (k : String)
    (h : (JSMap.keys m).Nodup) (hk : JSMap.has m k = true) :
    (m.filter (fun e => e.1 == k)).length = 1 := by
  induction m with
  | nil => simp [JSMap.has] at hk
  | cons e rest ih =>
    simp only [JSMap.keys, List.map_cons, List.nodup_cons] at h
    by_cases he : e.1 = k
    · have hnot : rest.filter (fun x => x.1 == k) = [] := by
        rw [List.filter_eq_nil_iff]
        intro x hx hxk
        simp only [beq_iff_eq] at hxk
        exact h.1 (by rw [he, ← hxk]; exact List.mem_map_of_mem _ hx)
      simp [List.filter_cons, he, hnot]
    · simp only [JSMap.has, List.any_cons, Bool.or_eq_true, beq_iff_eq] at hk
      have hr : JSMap.has rest k = true := by
        rcases hk with hk | hk
        · exact absurd hk he
        · simpa [JSMap.has] using hk
      simp [List.filter_cons, he]
      exact ih h.2 hr

namespace Notifier

theorem createNotification_dom (s : Notifier) (m t i : String) (d : Nat)
    (c : Option String) (g : String) :
    ∃ s1 : Notifier,
      (s1 = s ∨ (truthy c = true ∧ JSMap.has s.activeNotifications (registeredId c g) = true ∧
          s1 = s.remove (registeredId c g))) ∧
      (s.createNotification m t i d c g).2 = s1.elements.length ∧
      (s.createNotification m t i d c g).1.elements = s1.elements ++
        [{ id := registeredId c g, className := severityClass t, icon := i, message := m,
           transform := "translateX(400px)", opacity := "0", animation := "",
           typeStyle := styleBucket t }] ∧
      (s.createNotification m t i d c g).1.container = s1.container ++ [s1.elements.length] ∧
      (s.createNotification m t i d c g).1.config = s1.config ∧
      (s.createNotification m t i d c g).1.pulseStyle = s1.pulseStyle ∧
      (s.createNotification m t i d c g).1.blinkStyle = s1.blinkStyle := by
  by_cases hc : (truthy c && JSMap.has s.activeNotifications (registeredId c g)) = true
  · refine ⟨s.remove (registeredId c g), Or.inr ?_, ?_⟩
    · simp only [Bool.and_eq_true] at hc
      exact ⟨hc.1, hc.2, rfl⟩
    · by_cases hd : d > 0
      · simp [createNotification, hc, hd, setTimeout, severityClass]
      · simp [createNotification, hc, hd, setTimeout, severityClass]
  · refine ⟨s, Or.inl rfl, ?_⟩
    by_cases hd : d > 0
    · simp [createNotification, hc, hd, setTimeout, severityClass]
    · simp [createNotification, hc, hd, setTimeout, severityClass]

end Notifier

namespace Notifier

theorem showWaitingPermission_eq (s : Notifier) (browser : Option String)
    (timeoutSeconds : Option Int) :
    ∃ (message : String) (f : Element → Element),
      (∀ e, (f e).id = e.id ∧
        (f e).className = e.className ++ " midi-permission-notification" ∧
        (f e).countdown.isSome = true) ∧
      (s.showWaitingPermission browser timeoutSeconds).2 = "midi-permission-waiting" ∧
      (s.showWaitingPermission browser timeoutSeconds).1.activeNotifications =
        (s.createNotification message "warning" "⏱️" 0
          (some "midi-permission-waiting") "").1.activeNotifications ∧
      (s.showWaitingPermission browser timeoutSeconds).1.timers =
        (s.createNotification message "warning" "⏱️" 0
          (some "midi-permission-waiting") "").1.timers ∧
      (s.showWaitingPermission browser timeoutSeconds).1.container =
        (s.createNotification message "warning" "⏱️" 0
          (some "midi-permission-waiting") "").1.container ∧
      (s.showWaitingPermission browser timeoutSeconds).1.elements =
        (s.createNotification message "warning" "⏱️" 0
          (some "midi-permission-waiting") "").1.elements.modify f
          (s.createNotification message "warning" "⏱️" 0
            (some "midi-permission-waiting") "").2 := by
  refine ⟨waitingPermissionMessage (includesChrome (browser.getD "navegador"))
      (toString (timeoutSeconds.getD 30)),
    decorateWaitingPermission (includesChrome (browser.getD "navegador"))
      (toString (timeoutSeconds.getD 30)), ?_, rfl, ?_, ?_, ?_, ?_⟩
  · intro e
    exact ⟨rfl, rfl, rfl⟩
  all_goals
    unfold showWaitingPermission
    simp only []
    split <;> rfl

end Notifier

namespace Notifier

theorem waitingId_registered :
    registeredId (some "midi-permission-waiting") "" = "midi-permission-waiting" := by decide

theorem showWaitingPermission_spec (s : Notifier) (browser : Option String)
    (timeoutSeconds : Option Int) (hwf : (JSMap.keys s.activeNotifications).Nodup) :
    (s.showWaitingPermission browser timeoutSeconds).2 = "midi-permission-waiting" ∧
    JSMap.get (s.showWaitingPermission browser timeoutSeconds).1.activeNotifications
      "midi-permission-waiting" = some s.elements.length ∧
    ((s.showWaitingPermission browser timeoutSeconds).1.activeNotifications.filter
      (fun e => e.1 == "midi-permission-waiting")).length = 1 ∧
    (JSMap.keys (s.showWaitingPermission browser timeoutSeconds).1.activeNotifications).Nodup ∧
    (∃ e, (s.showWaitingPermission browser timeoutSeconds).1.elements.get? s.elements.length =
        some e ∧ e.id = "midi-permission-waiting" ∧
      e.className = severityClass "warning" ++ " midi-permission-notification" ∧
      e.countdown.isSome = true) ∧
    (∀ x ∈ (s.showWaitingPermission browser timeoutSeconds).1.timers.drop s.timers.length,
      ∀ k, x.callback ≠ .autoRemove k) ∧
    (s.showWaitingPermission browser timeoutSeconds).1.elements.length = s.elements.length + 1 ∧
    s.elements.length ∈ (s.showWaitingPermission browser timeoutSeconds).1.container := by
  obtain ⟨message, f, hf, h2, hreg, htim, hcont, hel⟩ :=
    showWaitingPermission_eq s browser timeoutSeconds
  obtain ⟨s1, hs1, _, c3, _, c5⟩ :=
    createNotification_spec s message "warning" "⏱️" 0 (some "midi-permission-waiting") ""
  obtain ⟨s2, hs2, d2, d3, d4, _, _, _⟩ :=
    createNotification_dom s message "warning" "⏱️" 0 (some "midi-permission-waiting") ""
  rw [waitingId_registered] at c3 d3 hs1 hs2
  have hreg1 : s1.activeNotifications = s.activeNotifications := by
    rcases hs1 with h | ⟨_, _, h⟩ <;> rw [h]
    exact remove_activeNotifications _ _
  have hlen1 : s1.elements.length = s.elements.length := by
    rcases hs1 with h | ⟨_, _, h⟩ <;> rw [h]
    exact remove_elements_length _ _
  have hlen2 : s2.elements.length = s.elements.length := by
    rcases hs2 with h | ⟨_, _, h⟩ <;> rw [h]
    exact remove_elements_length _ _
  rw [hreg1, hlen1] at c3
  rw [hlen2] at d2 d4
  have hset : (s.showWaitingPermission browser timeoutSeconds).1.activeNotifications =
      JSMap.set s.activeNotifications "midi-permission-waiting" s.elements.length := by
    rw [hreg, c3]
  have hnodup := JSMap.keys_set_nodup s.activeNotifications "midi-permission-waiting"
    s.elements.length hwf
  have hget := JSMap.get_set_self s.activeNotifications "midi-permission-waiting"
    s.elements.length
  refine ⟨h2, by rw [hset]; exact hget, ?_, by rw [hset]; exact hnodup, ?_, ?_, ?_, ?_⟩
  · rw [hset]
    exact JSMap.count_of_nodup _ _ hnodup (JSMap.has_eq_true_of_get _ _ _ hget)
  · have hnode : (s.showWaitingPermission browser timeoutSeconds).1.elements.get?
        s.elements.length =
        some (f (Element.mk "midi-permission-waiting" (severityClass "warning") "⏱️" message
          "translateX(400px)" "0" "" (styleBucket "warning") "" none)) := by
      rw [hel, d2, d3, List.get?_eq_getElem?, List.getElem?_modify_eq, ← hlen2]
      simp
    exact ⟨_, hnode, (hf _).1, (hf _).2.1, (hf _).2.2⟩
  · intro x hx k
    rw [htim, c5] at hx
    simp only [gt_iff_lt, Nat.lt_irrefl, if_false, List.append_nil] at hx
    rcases remove_timers s "midi-permission-waiting" with hr | ⟨el, _, hr⟩
    · have ht1 : s1.timers = s.timers := by
        rcases hs1 with h | ⟨_, _, h⟩ <;> rw [h]
        exact hr
      rw [ht1] at hx
      simp at hx
      rw [hx]; simp
    · rcases hs1 with h | ⟨_, _, h⟩
      · rw [h] at hx
        simp at hx
        rw [hx]; simp
      · rw [h, hr] at hx
        simp at hx
        rcases hx with hx | hx <;> rw [hx] <;> simp
  · rw [hel, List.length_modify, d3]
    simp [hlen2]
  · rw [hcont, d4]
    simp

end Notifier

/-- C17: for every browser name and every `timeoutSeconds`, `showWaitingPermission`
returns the fixed id `"midi-permission-waiting"` and leaves the registry holding,
under exactly that id, the warning notification it created, for which it
schedules no auto-dismiss timer; called again while one is live, it still leaves
exactly one entry under that id, holding the newly created element. -/
theorem showWaitingPermission_registers (s : Notifier) (browser again : Option String)
    (timeoutSeconds thenSeconds : Option Int)
    (hwf : (JSMap.keys s.activeNotifications).Nodup) :
    (s.showWaitingPermission browser timeoutSeconds).2 = "midi-permission-waiting" ∧
    JSMap.get (s.showWaitingPermission browser timeoutSeconds).1.activeNotifications
      "midi-permission-waiting" = some s.elements.length ∧
    ((s.showWaitingPermission browser timeoutSeconds).1.activeNotifications.filter
      (fun e => e.1 == "midi-permission-waiting")).length = 1 ∧
    (∃ e, (s.showWaitingPermission browser timeoutSeconds).1.elements.get? s.elements.length =
        some e ∧ e.id = "midi-permission-waiting" ∧
      e.className = severityClass "warning" ++ " midi-permission-notification") ∧
    (∀ x ∈ (s.showWaitingPermission browser timeoutSeconds).1.timers.drop s.timers.length,
      ∀ k, x.callback ≠ .autoRemove k) ∧
    (((s.showWaitingPermission browser timeoutSeconds).1.showWaitingPermission again
      thenSeconds).1.activeNotifications.filter
        (fun e => e.1 == "midi-permission-waiting")).length = 1 ∧
    JSMap.get ((s.showWaitingPermission browser timeoutSeconds).1.showWaitingPermission again
      thenSeconds).1.activeNotifications "midi-permission-waiting" =
        some (s.elements.length + 1) := by
  obtain ⟨a1, a2, a3, a4, ⟨e, a5, a6, a7, _⟩, a8, a9, _⟩ :=
    Notifier.showWaitingPermission_spec s browser timeoutSeconds hwf
  obtain ⟨_, b2, b3, _⟩ :=
    Notifier.showWaitingPermission_spec (s.showWaitingPermission browser timeoutSeconds).1
      again thenSeconds a4
  rw [a9] at b2
  exact ⟨a1, a2, a3, ⟨e, a5, a6, a7⟩, a8, b3, b2⟩

theorem showWaitingPermission_registers_witness :
    (JSMap.keys Notifier.new.activeNotifications).Nodup ∧
    (Notifier.new.showWaitingPermission (some "chrome") (some 30)).2 =
      "midi-permission-waiting" ∧
    ((Notifier.new.showWaitingPermission (some "chrome") (some 30)).1.showWaitingPermission
      (some "chrome") (some 30)).1.activeNotifications = [("midi-permission-waiting", 1)] ∧
    JSMap.get ((Notifier.new.showWaitingPermission (some "chrome")
      (some 30)).1.showWaitingPermission (some "chrome") (some 30)).1.activeNotifications
        "midi-permission-waiting" = some (Notifier.new.elements.length + 1) :=
  ⟨by decide, by decide, by decide,
    (showWaitingPermission_registers Notifier.new (some "chrome") (some "chrome") (some 30)
      (some 30) (by decide)).2.2.2.2.2.2⟩

/-- C18: for every id under which an element with a countdown node is displayed and
every safe integer `n` (magnitude below 2^53, printed as its decimal digits),
`updatePermissionCountdown(id, n)` sets the counter text of that element to `n`
followed by `"s"`, makes it red and blinking when `n ≤ 10`, yellow when
`10 < n ≤ 20`, and leaves its colour as it was when `n > 20`; every other
property of the element, every other element, the registry, the container and
the pending timers are unchanged.  The only other effect is that the blink
keyframes may be installed in the page when `n ≤ 10`.  The id is the one of a
notification, not the one of the container or of a style element. -/
theorem updatePermissionCountdown_frame (s : Notifier) (id : String) (n : Int) (el : Nat)
    (e : Element) (c : Countdown)
    (_hsafe : isSafeInteger n = true) (_hid : id ∉ pageIds)
    (hget : s.getElementById id = some el) (he : s.elements.get? el = some e)
    (hc : e.countdown = some c) :
    (s.updatePermissionCountdown id n).elements.get? el =
      some { e with countdown := some (Countdown.mk (toString n ++ "s")
        (if n ≤ 10 then "#dc3545" else if n ≤ 20 then "#ffc107" else c.color)
        (if n ≤ 10 then "blink 0.5s ease-in-out infinite" else c.animation)) } ∧
    (∀ j, j ≠ el → (s.updatePermissionCountdown id n).elements.get? j = s.elements.get? j) ∧
    (s.updatePermissionCountdown id n).activeNotifications = s.activeNotifications ∧
    (s.updatePermissionCountdown id n).container = s.container ∧
    (s.updatePermissionCountdown id n).timers = s.timers ∧
    (s.updatePermissionCountdown id n).nextHandle = s.nextHandle ∧
    (s.updatePermissionCountdown id n).config = s.config ∧
    (s.updatePermissionCountdown id n).own = s.own ∧
    (s.updatePermissionCountdown id n).pulseStyle = s.pulseStyle ∧
    ((s.updatePermissionCountdown id n).blinkStyle = s.blinkStyle ∨
      (n ≤ 10 ∧ (s.updatePermissionCountdown id n).blinkStyle = true)) := by
  have hblink : ∀ s1 : Notifier,
      (s1.installBlinkStyle n).elements = s1.elements ∧
      (s1.installBlinkStyle n).activeNotifications = s1.activeNotifications ∧
      (s1.installBlinkStyle n).container = s1.container ∧
      (s1.installBlinkStyle n).timers = s1.timers ∧
      (s1.installBlinkStyle n).nextHandle = s1.nextHandle ∧
      (s1.installBlinkStyle n).config = s1.config ∧
      (s1.installBlinkStyle n).own = s1.own ∧
      (s1.installBlinkStyle n).pulseStyle = s1.pulseStyle ∧
      ((s1.installBlinkStyle n).blinkStyle = s1.blinkStyle ∨
        (n ≤ 10 ∧ (s1.installBlinkStyle n).blinkStyle = true)) := by
    intro s1
    unfold Notifier.installBlinkStyle
    split
    · rename_i hcond
      exact ⟨rfl, rfl, rfl, rfl, rfl, rfl, rfl, rfl, Or.inr ⟨hcond.1, rfl⟩⟩
    · exact ⟨rfl, rfl, rfl, rfl, rfl, rfl, rfl, rfl, Or.inl rfl⟩
  unfold Notifier.updatePermissionCountdown
  rw [hget]
  simp only []
  obtain ⟨b1, b2, b3, b4, b5, b6, b7, b8, b9⟩ := hblink (s.setCountdown el n)
  rw [b1, b2, b3, b4, b5, b6, b7, b8]
  refine ⟨?_, ?_, rfl, rfl, rfl, rfl, rfl, rfl, rfl, b9⟩
  · simp only [Notifier.setCountdown]
    rw [List.get?_eq_getElem?, List.getElem?_modify_eq, ← List.get?_eq_getElem?, he]
    simp [hc]
  · intro j hj
    simp only [Notifier.setCountdown]
    rw [List.get?_eq_getElem?, List.getElem?_modify_ne _ _ (Ne.symm hj), List.get?_eq_getElem?]

theorem updatePermissionCountdown_frame_witness :
    isSafeInteger 5 = true ∧ "midi-permission-waiting" ∉ pageIds ∧
    (Notifier.new.showWaitingPermission (some "chrome") (some 30)).1.getElementById
      "midi-permission-waiting" = some 0 ∧
    ((Notifier.new.showWaitingPermission (some "chrome") (some 30)).1.updatePermissionCountdown
      "midi-permission-waiting" 5).elements.map Element.countdown =
      [some (Countdown.mk "5s" "#dc3545" "blink 0.5s ease-in-out infinite")] ∧
    ((Notifier.new.showWaitingPermission (some "chrome") (some 30)).1.updatePermissionCountdown
      "midi-permission-waiting" 5).activeNotifications =
      (Notifier.new.showWaitingPermission (some "chrome") (some 30)).1.activeNotifications :=
  ⟨by decide, by decide, by decide, by decide,
    (updatePermissionCountdown_frame
      (Notifier.new.showWaitingPermission (some "chrome") (some 30)).1
      "midi-permission-waiting" 5 0
      (Notifier.decorateWaitingPermission true "30"
        (Element.mk "midi-permission-waiting" (severityClass "warning") "⏱️"
          (Notifier.waitingPermissionMessage true "30") "translateX(400px)" "0" ""
          (styleBucket "warning") "" none))
      (Notifier.waitingPermissionCountdown true "30") (by decide) (by decide) (by decide)
      rfl rfl).2.2.1⟩

theorem JSMap.length_delete_add {β : Type} (m : List (String × β)) (k : String) :
    (JSMap.delete m k).length + (m.filter (fun e => e.1 == k)).length = m.length := by
  induction m with
  | nil => rfl
  | cons e rest ih =>
    simp only [JSMap.delete] at ih ⊢
    by_cases he : e.1 = k
    · simp [List.filter_cons, he]
      omega
    · simp [List.filter_cons, he]
      omega

theorem JSMap.delete_delete {β : Type} (m : List (String × β)) (k : String) :
    JSMap.delete (JSMap.delete m k) k = JSMap.delete m k := by
  simp [JSMap.delete, List.filter_filter]

namespace Notifier

theorem leaving_remove (R : List (String × Nat)) (id k : String) (s0 s : Notifier)
    (hreg : s.activeNotifications = s0.activeNotifications)
    (hsub : ∀ t ∈ s0.timers, t.callback.names id = true → k ≠ id → t ∈ s.timers)
    (h : Leaving R id s0) : Leaving R id (s.remove k) := by
  refine ⟨by rw [remove_activeNotifications, hreg]; exact h.1, ?_⟩
  intro hhas
  rw [remove_activeNotifications] at hhas
  by_cases hk : k = id
  · subst hk
    obtain ⟨el, hg⟩ := JSMap.get_of_has _ _ hhas
    obtain ⟨ht, _⟩ := remove_timers_of_get s k el hg
    exact ⟨_, by rw [ht]; exact List.mem_append_right _ (List.mem_singleton_self _), by simp⟩
  · rw [hreg] at hhas
    obtain ⟨t, ht, hn⟩ := h.2 hhas
    exact ⟨t, mem_timers_remove s k t (hsub t ht hn hk), hn⟩

theorem leaving_fire (R : List (String × Nat)) (id : String) (s : Notifier) (h : Nat)
    (hp : (match s.timers.find? (fun t => t.handle == h) with
      | some t => !t.callback.isExit || t.callback.isExitFor id
      | none => true) = true)
    (hs : Leaving R id s) : Leaving R id (s.fire h) := by
  unfold fire
  cases hf : s.timers.find? (fun t => t.handle == h) with
  | none => exact hs
  | some t =>
    rw [hf] at hp
    simp only [] at hp ⊢
    have herase : ∀ t2 ∈ s.timers, t2 ≠ t → t2 ∈ s.timers.eraseP (fun t => t.handle == h) :=
      fun t2 h2 hne => mem_eraseP_of_ne_find _ _ t t2 hf h2 hne
    cases hcb : t.callback with
    | enter el =>
      refine ⟨hs.1, ?_⟩
      intro hhas
      obtain ⟨t2, ht2, hn⟩ := hs.2 hhas
      refine ⟨t2, herase t2 ht2 ?_, hn⟩
      intro heq
      rw [heq, hcb] at hn
      simp at hn
    | autoRemove k =>
      simp only [runCallback]
      refine leaving_remove R id k s
        { s with timers := s.timers.eraseP (fun t => t.handle == h) } rfl ?_ hs
      intro t2 ht2 hn hk
      apply herase t2 ht2
      intro heq
      rw [heq, hcb] at hn
      simp at hn
      exact hk hn
    | hideRemove k =>
      simp only [runCallback]
      refine leaving_remove R id k s
        { s with timers := s.timers.eraseP (fun t => t.handle == h) } rfl ?_ hs
      intro t2 ht2 hn hk
      apply herase t2 ht2
      intro heq
      rw [heq, hcb] at hn
      simp at hn
      exact hk hn
    | exitCleanup el k =>
      rw [hcb] at hp
      simp [Callback.isExit] at hp
      subst hp
      refine ⟨Or.inr ?_, ?_⟩
      · simp only [runCallback]
        rcases hs.1 with h1 | h1
        · rw [h1]
        · rw [h1, JSMap.delete_delete]
      · intro hhas
        simp only [runCallback] at hhas
        rw [JSMap.has_delete_self] at hhas
        exact absurd hhas (by decide)

end Notifier

theorem leaving_run (R : List (String × Nat)) (id : String) (es : List Event) (s : Notifier)
    (hes : firesOnlyCleanupOf id s es = true) (hs : Notifier.Leaving R id s) :
    Notifier.Leaving R id (run s es) := by
  induction es generalizing s with
  | nil => exact hs
  | cons e es ih =>
    cases e with
    | fire h =>
      simp only [firesOnlyCleanupOf, Bool.and_eq_true] at hes
      simp only [run, List.foldl_cons]
      exact ih (step s (.fire h)) hes.2 (Notifier.leaving_fire R id s h hes.1 hs)
    | «show» m t i d g => simp [firesOnlyCleanupOf] at hes
    | createNotification m t i d c g => simp [firesOnlyCleanupOf] at hes
    | remove k => simp [firesOnlyCleanupOf] at hes
    | clear => simp [firesOnlyCleanupOf] at hes
    | hidePermissionNotification k => simp [firesOnlyCleanupOf] at hes

/-- C19: after `showWaitingPermission` returns its id, `hidePermissionNotification(id)`
followed by the firing of the deferred callbacks it leads to (its own timer and
the cleanup that timer schedules), in any order with other timers as long as no
other notification's cleanup runs, leaves the id absent from the registry, and
`getStats().activeCount` is one less than before the hide. -/
theorem hidePermissionNotification_removes (s : Notifier) (browser : Option String)
    (timeoutSeconds : Option Int) (es : List Event)
    (hwf : (JSMap.keys s.activeNotifications).Nodup)
    (hes : firesOnlyCleanupOf "midi-permission-waiting"
      ((s.showWaitingPermission browser timeoutSeconds).1.hidePermissionNotification
        "midi-permission-waiting") es = true)
    (hdone : ∀ t ∈ (run ((s.showWaitingPermission browser
        timeoutSeconds).1.hidePermissionNotification "midi-permission-waiting") es).timers,
      t.callback.names "midi-permission-waiting" = false) :
    (s.showWaitingPermission browser timeoutSeconds).2 = "midi-permission-waiting" ∧
    JSMap.has (run ((s.showWaitingPermission browser
      timeoutSeconds).1.hidePermissionNotification "midi-permission-waiting")
        es).activeNotifications "midi-permission-waiting" = false ∧
    (run ((s.showWaitingPermission browser
      timeoutSeconds).1.hidePermissionNotification "midi-permission-waiting") es).activeCount + 1 =
      (s.showWaitingPermission browser timeoutSeconds).1.activeCount := by
  obtain ⟨a1, a2, a3, _, ⟨e, a5, a6, _, _⟩, _, _, a10⟩ :=
    Notifier.showWaitingPermission_spec s browser timeoutSeconds hwf
  -- the element is displayed, so `hidePermissionNotification` schedules its timer
  have hfound : ∃ el, (s.showWaitingPermission browser timeoutSeconds).1.getElementById
      "midi-permission-waiting" = some el := by
    have : ((s.showWaitingPermission browser timeoutSeconds).1.getElementById
        "midi-permission-waiting").isSome = true := by
      unfold Notifier.getElementById
      rw [List.find?_isSome]
      exact ⟨s.elements.length, a10, by rw [a5]; simp [a6]⟩
    exact Option.isSome_iff_exists.mp this
  obtain ⟨el, hel⟩ := hfound
  have h0 : Notifier.Leaving (s.showWaitingPermission browser timeoutSeconds).1.activeNotifications
      "midi-permission-waiting"
      ((s.showWaitingPermission browser timeoutSeconds).1.hidePermissionNotification
        "midi-permission-waiting") := by
    unfold Notifier.hidePermissionNotification
    rw [hel]
    simp only []
    refine ⟨Or.inl rfl, fun _ =>
      ⟨Timer.mk (s.showWaitingPermission browser timeoutSeconds).1.nextHandle 300
        (.hideRemove "midi-permission-waiting"), ?_, ?_⟩⟩
    · exact List.mem_append_right _ (List.mem_singleton_self _)
    · simp
  have h1 := leaving_run _ _ es _ hes h0
  have hgone : JSMap.has (run ((s.showWaitingPermission browser
      timeoutSeconds).1.hidePermissionNotification "midi-permission-waiting")
        es).activeNotifications "midi-permission-waiting" = false := by
    cases hh : JSMap.has (run ((s.showWaitingPermission browser
      timeoutSeconds).1.hidePermissionNotification "midi-permission-waiting")
        es).activeNotifications "midi-permission-waiting" with
    | false => rfl
    | true =>
      obtain ⟨t, ht, hn⟩ := h1.2 hh
      rw [hdone t ht] at hn
      exact absurd hn (by decide)
  refine ⟨a1, hgone, ?_⟩
  have hreg : (run ((s.showWaitingPermission browser
      timeoutSeconds).1.hidePermissionNotification "midi-permission-waiting")
        es).activeNotifications =
      JSMap.delete (s.showWaitingPermission browser timeoutSeconds).1.activeNotifications
        "midi-permission-waiting" := by
    rcases h1.1 with h | h
    · rw [h, JSMap.has_eq_true_of_get _ _ _ a2] at hgone
      exact absurd hgone (by decide)
    · exact h
  unfold Notifier.activeCount JSMap.size
  rw [hreg]
  have := JSMap.length_delete_add
    (s.showWaitingPermission browser timeoutSeconds).1.activeNotifications
    "midi-permission-waiting"
  rw [a3] at this
  exact this

theorem hidePermissionNotification_removes_witness :
    (JSMap.keys (run Notifier.new [.show "a" "info" "i" 5000 "n1"]).activeNotifications).Nodup ∧
    firesOnlyCleanupOf "midi-permission-waiting"
      (((run Notifier.new [.show "a" "info" "i" 5000 "n1"]).showWaitingPermission (some "chrome")
        (some 30)).1.hidePermissionNotification "midi-permission-waiting")
      [.fire 1, .fire 3, .fire 4, .fire 5] = true ∧
    JSMap.keys (run (((run Notifier.new [.show "a" "info" "i" 5000 "n1"]).showWaitingPermission
      (some "chrome") (some 30)).1.hidePermissionNotification "midi-permission-waiting")
      [.fire 1, .fire 3, .fire 4, .fire 5]).activeNotifications = ["n1"] ∧
    (run (((run Notifier.new [.show "a" "info" "i" 5000 "n1"]).showWaitingPermission
      (some "chrome") (some 30)).1.hidePermissionNotification "midi-permission-waiting")
      [.fire 1, .fire 3, .fire 4, .fire 5]).activeCount + 1 =
      ((run Notifier.new [.show "a" "info" "i" 5000 "n1"]).showWaitingPermission (some "chrome")
        (some 30)).1.activeCount :=
  ⟨by decide, by decide, by decide,
    (hidePermissionNotification_removes (run Notifier.new [.show "a" "info" "i" 5000 "n1"])
      (some "chrome") (some 30) [.fire 1, .fire 3, .fire 4, .fire 5]
      (by decide) (by decide) (by decide)).2.2⟩

/-! ## Properties of the instance along a run -/

namespace Notifier

theorem remove_own (s : Notifier) (k : String) :
    (s.remove k).own = s.own ∧ (s.remove k).legacyApiReady = s.legacyApiReady := by
  unfold remove; split <;> exact ⟨rfl, rfl⟩

theorem createNotification_own (s : Notifier) (m t i : String) (d : Nat)
    (c : Option String) (g : String) :
    (s.createNotification m t i d c g).1.own = s.own ∧
    (s.createNotification m t i d c g).1.legacyApiReady = s.legacyApiReady := by
  by_cases hc : (truthy c && JSMap.has s.activeNotifications (registeredId c g)) = true <;>
    by_cases hd : d > 0 <;>
    simp [createNotification, hc, hd, setTimeout, (remove_own s _).1, (remove_own s _).2]

theorem show_own (s : Notifier) (m t i : String) (d : Nat) (g : String) :
    (s.show m t i d g).1.own = s.own ∧
    (s.show m t i d g).1.legacyApiReady = s.legacyApiReady := by
  unfold «show»
  simp only []
  split
  · split
    · rw [(createNotification_own _ m t i d none g).1, (createNotification_own _ m t i d none g).2]
      exact remove_own s _
    · exact createNotification_own s m t i d none g
  · exact createNotification_own s m t i d none g

theorem foldl_remove_own (ks : List String) (s : Notifier) :
    (ks.foldl remove s).own = s.own ∧
    (ks.foldl remove s).legacyApiReady = s.legacyApiReady := by
  induction ks generalizing s with
  | nil => exact ⟨rfl, rfl⟩
  | cons k ks ih =>
    simp only [List.foldl_cons]
    rw [(ih (s.remove k)).1, (ih (s.remove k)).2]
    exact remove_own s k

theorem fire_own (s : Notifier) (h : Nat) :
    (s.fire h).own = s.own ∧ (s.fire h).legacyApiReady = s.legacyApiReady := by
  unfold fire
  cases s.timers.find? (fun t => t.handle == h) with
  | none => exact ⟨rfl, rfl⟩
  | some t =>
    simp only []
    cases t.callback with
    | enter el => exact ⟨rfl, rfl⟩
    | autoRemove k => exact remove_own _ k
    | hideRemove k => exact remove_own _ k
    | exitCleanup el k => exact ⟨rfl, rfl⟩

end Notifier

theorem step_own (s : Notifier) (e : Event) :
    (step s e).own = s.own ∧ (step s e).legacyApiReady = s.legacyApiReady := by
  cases e with
  | «show» m t i d g => exact Notifier.show_own s m t i d g
  | createNotification m t i d c g => exact Notifier.createNotification_own s m t i d c g
  | remove k => exact Notifier.remove_own s k
  | clear => exact Notifier.foldl_remove_own _ s
  | hidePermissionNotification k =>
    simp only [step, Notifier.hidePermissionNotification]
    split <;> exact ⟨rfl, rfl⟩
  | fire h => exact Notifier.fire_own s h

theorem run_own (es : List Event) (s : Notifier) :
    (run s es).own = s.own ∧ (run s es).legacyApiReady = s.legacyApiReady := by
  induction es generalizing s with
  | nil => exact ⟨rfl, rfl⟩
  | cons e es ih =>
    simp only [run, List.foldl_cons]
    have h := ih (step s e)
    simp only [run] at h
    rw [h.1, h.2]
    exact step_own s e

theorem Notifier.installShim_legacyApiReady (s : Notifier) (name : String) :
    (s.installShim name).legacyApiReady = s.legacyApiReady := by
  unfold Notifier.installShim
  split <;> rfl

theorem getProp_of_own (s s2 : Notifier) (name : String) (h : s2.own = s.own) :
    s2.getProp name = s.getProp name := by
  simp only [Notifier.getProp, h]

/-! ## The installer -/

/-- C21: whenever `window.midiNotifier` is undefined, `showInstallSuccessMessage` and
`showInstallInstructions` deliver their message through `alert(message)` and do
not throw, for every user agent. -/
theorem installer_without_notifier (userAgent : String) :
    showInstallInstructions userAgent .undefined = .alert (installInstructions userAgent) ∧
    showInstallSuccessMessage .undefined =
      .alert "🎉 Terra MIDI instalado com sucesso!\n\nVocê pode abrir o app a partir da tela inicial." ∧
    showInstallInstructions userAgent .undefined ≠ .threw ∧
    showInstallSuccessMessage .undefined ≠ .threw := by
  refine ⟨rfl, rfl, ?_, ?_⟩
  · simp [showInstallInstructions, deliver]
  · simp [showInstallSuccessMessage, deliver]

/-- C29: `MIDIConnectionNotifier` defines no `showInfo`, neither as a class method nor
as a legacy shim, so even when `window.midiNotifier` is an instance built by the
constructor, in whatever state its operations have left it,
`showInstallSuccessMessage` and `showInstallInstructions` do not call the
notifier and deliver their message through `alert`. -/
theorem installer_with_notifier_alerts (es : List Event) (userAgent : String) :
    "showInfo" ∉ classMethods ∧ "showInfo" ∉ legacyNames ∧
    (run Notifier.new es).getProp "showInfo" = .undefined ∧
    showInstallInstructions userAgent (.notifier (run Notifier.new es)) =
      .alert (installInstructions userAgent) ∧
    showInstallSuccessMessage (.notifier (run Notifier.new es)) =
      .alert "🎉 Terra MIDI instalado com sucesso!\n\nVocê pode abrir o app a partir da tela inicial." := by
  have hp : (run Notifier.new es).getProp "showInfo" = .undefined := by
    rw [getProp_of_own Notifier.new _ "showInfo" (run_own es Notifier.new).1]
    decide
  refine ⟨by decide, by decide, hp, ?_, ?_⟩
  · simp [showInstallInstructions, deliver, hp, JSProp.truthy]
  · simp [showInstallSuccessMessage, deliver, hp, JSProp.truthy]

/-! ## The legacy adapter, once more -/

/-- C24: `ensureLegacyAPICompatibility` is idempotent: once it has run on an instance,
every further call returns the instance unchanged, whatever operations ran and
whatever was done to its properties in between (a legacy-named method deleted
or replaced). -/
theorem ensureLegacyAPICompatibility_idempotent (s : Notifier) (es : List Event)
    (own : List (String × JSProp)) :
    s.ensureLegacyAPICompatibility.legacyApiReady = true ∧
    s.ensureLegacyAPICompatibility.ensureLegacyAPICompatibility =
      s.ensureLegacyAPICompatibility ∧
    (run s.ensureLegacyAPICompatibility es).ensureLegacyAPICompatibility =
      run s.ensureLegacyAPICompatibility es ∧
    ({ run s.ensureLegacyAPICompatibility es with own := own } :
      Notifier).ensureLegacyAPICompatibility =
      { run s.ensureLegacyAPICompatibility es with own := own } := by
  have hflag : s.ensureLegacyAPICompatibility.legacyApiReady = true := by
    unfold Notifier.ensureLegacyAPICompatibility
    by_cases hr : s.legacyApiReady = true
    · rw [if_pos hr]; exact hr
    · rw [if_neg hr]
      simp only [Notifier.installShim_legacyApiReady]
  have hstop : ∀ x : Notifier, x.legacyApiReady = true → x.ensureLegacyAPICompatibility = x := by
    intro x hx
    unfold Notifier.ensureLegacyAPICompatibility
    rw [if_pos hx]
  have hrun : (run s.ensureLegacyAPICompatibility es).legacyApiReady = true := by
    rw [(run_own es _).2]; exact hflag
  exact ⟨hflag, hstop _ hflag, hstop _ hrun, hstop _ hrun⟩

/-- C28: on every instance built by the constructor, in whatever state its operations
have left it, `showAutoReconnected` and `showAutoReconnectAttempt` are the class
methods: no shim is installed under these names, now or by a further call of
`ensureLegacyAPICompatibility`.  A call of `showAutoReconnectAttempt` therefore
runs the class method, which renders with severity info for 5000 ms, and never
the shim body that reads the undeclared `reason`. -/
theorem autoReconnect_shims_never_installed (es : List Event) (detail : DetailArg)
    (globalReason : Option JSArg) (gen : String) :
    (run Notifier.new es).getProp "showAutoReconnected" = .classMethod "showAutoReconnected" ∧
    (run Notifier.new es).getProp "showAutoReconnectAttempt" =
      .classMethod "showAutoReconnectAttempt" ∧
    (run Notifier.new es).ensureLegacyAPICompatibility = run Notifier.new es ∧
    (run Notifier.new es).callShowAutoReconnectAttempt detail globalReason gen =
      some ((run Notifier.new es).showAutoReconnectAttempt detail gen) ∧
    rendered (run Notifier.new es)
      ((run Notifier.new es).showAutoReconnectAttempt detail gen).state =
      some (severityClass "info", 5000) ∧
    (Notifier.new.showAutoReconnectAttemptShim none gen).outcome = .threw 105 := by
  have hown := (run_own es Notifier.new).1
  have hflag := (run_own es Notifier.new).2
  have h1 : (run Notifier.new es).getProp "showAutoReconnected" =
      .classMethod "showAutoReconnected" := by
    rw [getProp_of_own Notifier.new _ _ hown]; decide
  have h2 : (run Notifier.new es).getProp "showAutoReconnectAttempt" =
      .classMethod "showAutoReconnectAttempt" := by
    rw [getProp_of_own Notifier.new _ _ hown]; decide
  refine ⟨h1, h2, ?_, ?_, ?_, rfl⟩
  · unfold Notifier.ensureLegacyAPICompatibility
    rw [if_pos (by rw [hflag]; decide)]
  · simp only [Notifier.callShowAutoReconnectAttempt, h2]
  · obtain ⟨message, hm⟩ := Notifier.showAutoReconnectAttempt_state (run Notifier.new es) detail gen
    rw [hm]
    exact Notifier.rendered_show _ _ _ _ _ _ (by decide)

/-! ## The descriptor of the legacy `showDeviceConnected` -/

theorem intercalate_go_ne_empty (sep : String) (rest : List String) (acc : String)
    (h : acc ≠ "") : String.intercalate.go acc sep rest ≠ "" := by
  induction rest generalizing acc with
  | nil => simpa [String.intercalate.go] using h
  | cons a rest ih =>
    simp only [String.intercalate.go]
    apply ih
    intro h2
    have h3 := congrArg String.length h2
    simp only [String.length_append] at h3
    have h4 : acc.length ≠ 0 := by
      intro h5
      exact h (String.ext (List.length_eq_zero.mp h5))
    have h5 : "".length = 0 := rfl
    omega

theorem joinNames_ne_empty (names : List JSArg) (hne : names ≠ [])
    (h : ∀ v ∈ names, v.joinText ≠ "") : joinNames names ≠ "" := by
  cases names with
  | nil => exact absurd rfl hne
  | cons a rest =>
    simp only [joinNames, List.map_cons, String.intercalate]
    exact intercalate_go_ne_empty _ _ _ (h a (List.mem_cons_self _ _))

theorem namesArray_printable (payload : LegacyPayload) (hp : payload.printable = true)
    (hobj : ∀ d, payload ≠ .object d) :
    ∀ v ∈ namesArray payload, v.joinText ≠ "" := by
  intro v hv
  cases payload with
  | value w =>
    simp only [namesArray] at hv
    by_cases hw : w.truthy = true
    · simp only [hw, if_true, List.mem_singleton] at hv
      subst hv
      simpa [LegacyPayload.printable, JSArg.printable, hw] using hp
    · simp [hw] at hv
  | object d => exact absurd rfl (hobj d)
  | array items =>
    simp only [namesArray, List.mem_filter, List.mem_map] at hv
    obtain ⟨⟨item, ⟨hmem, _⟩, hname⟩, htr⟩ := hv
    simp only [LegacyPayload.printable, List.all_eq_true] at hp
    have := hp item hmem
    simp only [LegacyItem.printable, JSArg.printable, hname, Bool.or_eq_true,
      Bool.not_eq_true', bne_iff_ne, ne_eq] at this
    rcases this with h1 | h1
    · rw [h1] at htr; exact absurd htr (by decide)
    · exact h1

theorem legacyLabel_ne_empty (payload : LegacyPayload) (hp : payload.printable = true)
    (hobj : ∀ d, payload ≠ .object d) : legacyLabel payload ≠ "" := by
  unfold legacyLabel
  by_cases hn : (namesArray payload).length > 0
  · rw [if_pos hn]
    exact joinNames_ne_empty _ (by intro h; rw [h] at hn; simp at hn)
      (namesArray_printable payload hp hobj)
  · rw [if_neg hn]; decide

theorem legacyLabel_object (d : Device) (hn : d.name.truthy = false) :
    legacyLabel (.object d) = "Dispositivo Terra" := by
  simp [legacyLabel, namesArray, JSArg.orElse, hn, joinNames, JSArg.joinText,
    String.intercalate, String.intercalate.go]

/-- C25: for every input to `showDeviceConnected` (absent, a string, an object with
any subset of the fields, an array of strings and objects) the descriptor
handed to `showConnected` has the full shape: name, id and manufacturer are
present and non-empty; the fields an object payload supplies are kept, and a
missing name becomes `"Dispositivo Terra"`, a missing id the generated
`"terra-device-<timestamp>"`, a missing manufacturer `"Terra Eletrônica"`.  The
names that are joined are taken to print a non-empty text, as strings do. -/
theorem legacyDescriptor_full_shape (payload : LegacyPayload) (now : Nat)
    (hp : payload.printable = true) :
    (legacyDescriptor payload now).name.truthy = true ∧
    (legacyDescriptor payload now).id.truthy = true ∧
    (legacyDescriptor payload now).manufacturer.truthy = true ∧
    (∀ d, payload = .object d →
      legacyDescriptor payload now =
        { name := if d.name.truthy then d.name else .str "Dispositivo Terra",
          id := if d.id.truthy then d.id else .str ("terra-device-" ++ toString now),
          manufacturer :=
            if d.manufacturer.truthy then d.manufacturer else .str "Terra Eletrônica" }) ∧
    ((∀ d, payload ≠ .object d) →
      legacyDescriptor payload now =
        { name := .str (if namesArray payload = [] then "Dispositivo Terra"
            else joinNames (namesArray payload)),
          id := .str ("terra-device-" ++ toString now),
          manufacturer := .str "Terra Eletrônica" }) := by
  have hobjd : ∀ d : Device, legacyDescriptor (.object d) now =
      { name := if d.name.truthy then d.name else .str "Dispositivo Terra",
        id := if d.id.truthy then d.id else .str ("terra-device-" ++ toString now),
        manufacturer :=
          if d.manufacturer.truthy then d.manufacturer else .str "Terra Eletrônica" } := by
    intro d
    by_cases hn : d.name.truthy = true
    · simp [legacyDescriptor, JSArg.orElse, hn]
    · have hn2 : d.name.truthy = false := by simpa using hn
      simp [legacyDescriptor, JSArg.orElse, hn2, legacyLabel_object d hn2]
  have hother : (∀ d, payload ≠ .object d) →
      legacyDescriptor payload now =
        { name := .str (legacyLabel payload),
          id := .str ("terra-device-" ++ toString now),
          manufacturer := .str "Terra Eletrônica" } := by
    intro hobj
    have hl := legacyLabel_ne_empty payload hp hobj
    have hlt : (JSArg.str (legacyLabel payload)).truthy = true := str_truthy _ hl
    cases payload with
    | object d => exact absurd rfl (hobj d)
    | value v =>
      simp only [legacyDescriptor, JSArg.orElse, hlt, terraDevice_truthy, if_true]
      rfl
    | array items =>
      simp only [legacyDescriptor, JSArg.orElse, hlt, terraDevice_truthy, if_true]
      rfl
  have hlabel : legacyLabel payload = (if namesArray payload = [] then "Dispositivo Terra"
      else joinNames (namesArray payload)) := by
    unfold legacyLabel
    cases namesArray payload with
    | nil => simp
    | cons a l => simp
  by_cases hobj : ∃ d, payload = .object d
  · obtain ⟨d, hd⟩ := hobj
    subst hd
    refine ⟨?_, ?_, ?_, ?_, ?_⟩
    · rw [hobjd d]; simp only []; split
      · assumption
      · decide
    · rw [hobjd d]; simp only []; split
      · assumption
      · exact terraDevice_truthy _
    · rw [hobjd d]; simp only []; split
      · assumption
      · decide
    · intro d2 h2
      cases h2
      exact hobjd d
    · intro h; exact absurd rfl (h d)
  · have hobj2 : ∀ d, payload ≠ .object d := fun d h => hobj ⟨d, h⟩
    have hl := legacyLabel_ne_empty payload hp hobj2
    refine ⟨?_, ?_, ?_, ?_, ?_⟩
    · rw [hother hobj2]; exact str_truthy _ hl
    · rw [hother hobj2]; exact terraDevice_truthy _
    · rw [hother hobj2]; exact str_truthy _ (by decide)
    · intro d h; exact absurd h (hobj2 d)
    · intro _; rw [hother hobj2, hlabel]

theorem legacyDescriptor_full_shape_witness :
    (LegacyPayload.array [.value (.str "Korg"), .object { id := .str "x" },
      .object { name := .str "Roland" }]).printable = true ∧
    legacyDescriptor (.array [.value (.str "Korg"), .object { id := .str "x" },
      .object { name := .str "Roland" }]) 1700000000000 =
      { name := .str "Korg, Roland", id := .str "terra-device-1700000000000",
        manufacturer := .str "Terra Eletrônica" } ∧
    legacyDescriptor (.object { id := .str "dev-1" }) 1700000000000 =
      { name := .str "Dispositivo Terra", id := .str "dev-1",
        manufacturer := .str "Terra Eletrônica" } ∧
    legacyDescriptor (.value .undefined) 1700000000000 =
      { name := .str "Dispositivo Terra", id := .str "terra-device-1700000000000",
        manufacturer := .str "Terra Eletrônica" } :=
  ⟨by decide,
    ((legacyDescriptor_full_shape (.array [.value (.str "Korg"), .object { id := .str "x" },
      .object { name := .str "Roland" }]) 1700000000000 (by decide)).2.2.2.2
        (fun d h => by cases h)).trans (by decide),
    by decide, by decide⟩

/-! ## Removal, once more -/

/-- C22 (failing input): a notification dismissed twice inside its 300 ms exit window,
or dismissed and then reached by its own auto-dismiss timer inside the window,
or targeted by two evictions in a row, has the cleanup step of `remove`
scheduled twice, and both cleanups run: after the first has emptied the
registry the second is still pending. -/
theorem cleanup_scheduled_twice :
    ((run Notifier.new [.show "a" "info" "i" 5000 "n1", .remove "n1", .remove "n1"]).timers.filter
      (fun t => t.callback.isExitFor "n1")) =
      [Timer.mk 3 300 (.exitCleanup 0 "n1"), Timer.mk 4 300 (.exitCleanup 0 "n1")] ∧
    JSMap.keys (run Notifier.new [.show "a" "info" "i" 5000 "n1", .remove "n1", .remove "n1",
      .fire 3]).activeNotifications = [] ∧
    ((run Notifier.new [.show "a" "info" "i" 5000 "n1", .remove "n1", .remove "n1",
      .fire 3]).timers.filter (fun t => t.callback.isExitFor "n1")) =
      [Timer.mk 4 300 (.exitCleanup 0 "n1")] ∧
    ((run Notifier.new [.show "a" "info" "i" 5000 "n1", .remove "n1", .fire 2]).timers.filter
      (fun t => t.callback.isExitFor "n1")) =
      [Timer.mk 3 300 (.exitCleanup 0 "n1"), Timer.mk 4 300 (.exitCleanup 0 "n1")] ∧
    ((run Notifier.new [.show "a" "info" "i" 5000 "n1", .show "b" "info" "i" 5000 "n2",
      .show "c" "info" "i" 5000 "n3", .show "d" "info" "i" 5000 "n4",
      .show "e" "info" "i" 5000 "n5"]).timers.filter
      (fun t => t.callback.isExitFor "n1")) =
      [Timer.mk 7 300 (.exitCleanup 0 "n1"), Timer.mk 10 300 (.exitCleanup 0 "n1")] := by
  decide

/-- C23 (failing input): a notification created under the custom id `"k"` with a
5000 ms duration is dismissed and its cleanup runs; a persistent notification
is then created under the same id and displayed.  When the timer of the first
notification fires it finds the id registered again, so it is no no-op: it
puts the second notification into its exit transition and schedules its
cleanup, after which the registry is empty and the element detached.  Without
that firing the second notification stays. -/
theorem stale_timer_dismisses_later_notification :
    (run Notifier.new [.createNotification "x" "info" "i" 5000 (some "k") "g1", .remove "k",
      .fire 3]).activeNotifications = [] ∧
    (run Notifier.new [.createNotification "x" "info" "i" 5000 (some "k") "g1", .remove "k",
      .fire 3]).timers =
      [Timer.mk 1 10 (.enter 0), Timer.mk 2 5000 (.autoRemove "k")] ∧
    (run Notifier.new [.createNotification "x" "info" "i" 5000 (some "k") "g1", .remove "k",
      .fire 3, .createNotification "y" "warning" "i" 0 (some "k") "g2",
      .fire 4]).activeNotifications = [("k", 1)] ∧
    (run Notifier.new [.createNotification "x" "info" "i" 5000 (some "k") "g1", .remove "k",
      .fire 3, .createNotification "y" "warning" "i" 0 (some "k") "g2",
      .fire 4]).timers =
      [Timer.mk 1 10 (.enter 0), Timer.mk 2 5000 (.autoRemove "k")] ∧
    ((run Notifier.new [.createNotification "x" "info" "i" 5000 (some "k") "g1", .remove "k",
      .fire 3, .createNotification "y" "warning" "i" 0 (some "k") "g2",
      .fire 4]).elements.get? 1).map (fun e => (e.message, e.transform, e.opacity)) =
      some ("y", "translateX(0)", "1") ∧
    (run Notifier.new [.createNotification "x" "info" "i" 5000 (some "k") "g1", .remove "k",
      .fire 3, .createNotification "y" "warning" "i" 0 (some "k") "g2",
      .fire 4, .fire 2]).timers =
      [Timer.mk 1 10 (.enter 0), Timer.mk 5 300 (.exitCleanup 1 "k")] ∧
    ((run Notifier.new [.createNotification "x" "info" "i" 5000 (some "k") "g1", .remove "k",
      .fire 3, .createNotification "y" "warning" "i" 0 (some "k") "g2",
      .fire 4, .fire 2]).elements.get? 1).map (fun e => (e.message, e.transform, e.opacity)) =
      some ("y", "translateX(400px)", "0") ∧
    (run Notifier.new [.createNotification "x" "info" "i" 5000 (some "k") "g1", .remove "k",
      .fire 3, .createNotification "y" "warning" "i" 0 (some "k") "g2",
      .fire 4, .fire 2, .fire 5]).activeNotifications = [] ∧
    (run Notifier.new [.createNotification "x" "info" "i" 5000 (some "k") "g1", .remove "k",
      .fire 3, .createNotification "y" "warning" "i" 0 (some "k") "g2",
      .fire 4, .fire 2, .fire 5]).container = [] := by
  decide

/-! ## Deferred eviction -/

theorem JSMap.set_of_has_false {β : Type} (m : List (String × β)) (k : String) (v : β)
    (h : JSMap.has m k = false) : JSMap.set m k v = m ++ [(k, v)] := by
  induction m with
  | nil => rfl
  | cons e rest ih =>
    simp only [JSMap.has, List.any_cons, Bool.or_eq_false_iff, beq_eq_false_iff_ne, ne_eq] at h
    simp only [JSMap.set, h.1, if_false, List.cons_append]
    rw [ih (by simpa [JSMap.has] using h.2)]

theorem JSMap.has_false_of_not_mem_keys {β : Type} (m : List (String × β)) (k : String)
    (h : k ∉ JSMap.keys m) : JSMap.has m k = false := by
  induction m with
  | nil => rfl
  | cons e rest ih =>
    simp only [JSMap.keys, List.map_cons, List.mem_cons, not_or] at h
    simp only [JSMap.has, List.any_cons, Bool.or_eq_false_iff, beq_eq_false_iff_ne, ne_eq]
    exact ⟨fun h2 => h.1 h2.symm, by simpa [JSMap.has] using ih h.2⟩

theorem Notifier.show_keys (s : Notifier) (m t i : String) (d : Nat) (g : String)
    (h : g ∉ JSMap.keys s.activeNotifications) :
    JSMap.keys (s.show m t i d g).1.activeNotifications =
      JSMap.keys s.activeNotifications ++ [g] := by
  have hhas := JSMap.has_false_of_not_mem_keys _ _ h
  have key : ∀ s1 : Notifier, s1.activeNotifications = s.activeNotifications →
      JSMap.keys (s1.createNotification m t i d none g).1.activeNotifications =
        JSMap.keys s.activeNotifications ++ [g] := by
    intro s1 h1
    have hreg : registeredId none g = g := rfl
    have := (Notifier.createNotification_fresh s1 m t i d none g (by rw [hreg, h1]; exact hhas)).2.1
    rw [this, hreg, h1, JSMap.set_of_has_false _ _ _ hhas]
    simp [JSMap.keys]
  unfold Notifier.«show»
  simp only []
  split
  · split
    · exact key _ (Notifier.remove_activeNotifications s _)
    · exact key _ rfl
  · exact key _ rfl

/-- C27: eviction is deferred: for every n, n consecutive `show` calls made from an
empty registry, with no deferred callback running in between, leave the
registry with exactly n entries, one per call and in call order, whatever the
capacity is.  The generated ids are taken to be distinct. -/
theorem consecutive_shows_grow_registry (s : Notifier)
    (calls : List (String × String × String × Nat × String))
    (hempty : s.activeNotifications = [])
    (hdistinct : (calls.map (fun c => c.2.2.2.2)).Nodup) :
    JSMap.keys (run s (calls.map
      (fun c => Event.show c.1 c.2.1 c.2.2.1 c.2.2.2.1 c.2.2.2.2))).activeNotifications =
      calls.map (fun c => c.2.2.2.2) ∧
    JSMap.size (run s (calls.map
      (fun c => Event.show c.1 c.2.1 c.2.2.1 c.2.2.2.1 c.2.2.2.2))).activeNotifications =
      calls.length := by
  have gen : ∀ (calls : List (String × String × String × Nat × String)) (s : Notifier),
      (calls.map (fun c => c.2.2.2.2)).Nodup →
      (∀ g ∈ calls.map (fun c => c.2.2.2.2), g ∉ JSMap.keys s.activeNotifications) →
      JSMap.keys (run s (calls.map
        (fun c => Event.show c.1 c.2.1 c.2.2.1 c.2.2.2.1 c.2.2.2.2))).activeNotifications =
        JSMap.keys s.activeNotifications ++ calls.map (fun c => c.2.2.2.2) := by
    intro calls
    induction calls with
    | nil => intro s _ _; simp [run]
    | cons c rest ih =>
      intro s hnd hfresh
      simp only [List.map_cons, List.nodup_cons] at hnd
      simp only [List.map_cons, run, List.foldl_cons, step]
      have hc : c.2.2.2.2 ∉ JSMap.keys s.activeNotifications :=
        hfresh _ (by simp)
      have hk := Notifier.show_keys s c.1 c.2.1 c.2.2.1 c.2.2.2.1 c.2.2.2.2 hc
      have := ih (s.show c.1 c.2.1 c.2.2.1 c.2.2.2.1 c.2.2.2.2).1 hnd.2 (by
        intro g hg
        rw [hk]
        simp only [List.mem_append, List.mem_singleton, not_or]
        refine ⟨hfresh g (by simp only [List.map_cons, List.mem_cons]; exact Or.inr hg), ?_⟩
        intro h2
        subst h2
        exact hnd.1 hg)
      simp only [run] at this
      rw [this, hk]
      simp
  have h := gen calls s hdistinct (by intro g _; rw [hempty]; simp [JSMap.keys])
  rw [hempty] at h
  simp only [JSMap.keys, List.map_nil, List.nil_append] at h
  refine ⟨h, ?_⟩
  have h2 := congrArg List.length h
  simpa [JSMap.size, JSMap.keys] using h2

theorem consecutive_shows_grow_registry_witness :
    Notifier.new.activeNotifications = [] ∧
    Notifier.new.config.maxNotifications = 3 ∧
    JSMap.size (run Notifier.new
      ([("a", "info", "i", 5000, "n1"), ("b", "info", "i", 5000, "n2"),
        ("c", "info", "i", 5000, "n3"), ("d", "info", "i", 5000, "n4"),
        ("e", "info", "i", 5000, "n5")].map
        (fun c => Event.show c.1 c.2.1 c.2.2.1 c.2.2.2.1 c.2.2.2.2))).activeNotifications = 5 :=
  ⟨rfl, rfl,
    (consecutive_shows_grow_registry Notifier.new
      [("a", "info", "i", 5000, "n1"), ("b", "info", "i", 5000, "n2"),
        ("c", "info", "i", 5000, "n3"), ("d", "info", "i", 5000, "n4"),
        ("e", "info", "i", 5000, "n5")] rfl (by decide)).2⟩

/-! ## Instrument categories -/

theorem JSMap.mem_of_get {β : Type} (m : List (String × β)) (k : String) (v : β)
    (h : JSMap.get m k = some v) : (k, v) ∈ m := by
  induction m with
  | nil => simp [JSMap.get] at h
  | cons e rest ih =>
    simp only [JSMap.get] at h
    by_cases he : e.1 = k
    · simp only [he, if_true, Option.some.injEq] at h
      have : e = (k, v) := by
        cases e
        simp only at he h
        rw [he, h]
      rw [this]
      exact List.mem_cons_self _ _
    · simp only [he, if_false] at h
      exact List.mem_cons_of_mem _ (ih h)

theorem JSMap.get_isSome_of_mem_keys {β : Type} (m : List (String × β)) (k : String)
    (h : k ∈ JSMap.keys m) : ∃ v, JSMap.get m k = some v := by
  induction m with
  | nil => simp [JSMap.keys] at h
  | cons e rest ih =>
    by_cases he : e.1 = k
    · exact ⟨e.2, by simp [JSMap.get, he]⟩
    · simp only [JSMap.keys, List.map_cons, List.mem_cons] at h
      rcases h with h | h
      · exact absurd h.symm he
      · obtain ⟨v, hv⟩ := ih h
        exact ⟨v, by simp [JSMap.get, he, hv]⟩

theorem aliasesAt_cases (key : String) :
    (∃ target, (key, target) ∈ aliases ∧ aliasesAt key = some (.str target)) ∨
    (key ∉ aliasKeys ∧ key ∈ objectPrototypeMembers ∧ aliasesAt key = some (.inherited key)) ∨
    (key ∉ aliasKeys ∧ key ∉ objectPrototypeMembers ∧ aliasesAt key = none) := by
  unfold aliasesAt
  cases hg : JSMap.get aliases key with
  | some target => exact Or.inl ⟨target, JSMap.mem_of_get _ _ _ hg, rfl⟩
  | none =>
    have hk : key ∉ aliasKeys := by
      intro hk
      obtain ⟨v, hv⟩ := JSMap.get_isSome_of_mem_keys aliases key hk
      rw [hv] at hg
      exact absurd hg (by simp)
    by_cases hp : key ∈ objectPrototypeMembers
    · exact Or.inr (Or.inl ⟨hk, hp, by simp [hp]⟩)
    · exact Or.inr (Or.inr ⟨hk, hp, by simp [hp]⟩)

theorem alias_targets_are_categories :
    ∀ e ∈ aliases, inCategories (.str e.2) = true ∧ e.2 ∈ getAllCategories ∧ e.2 ≠ "" ∧
      normalizeCategory (some (.str e.2)) = .str e.2 := by
  decide

theorem inherited_members_are_not_categories :
    ∀ k ∈ objectPrototypeMembers, inCategories (.inherited k) = false ∧
      normalizeCategory (some (.inherited k)) = .inherited k := by
  decide

/-- C26 (counterexample): `hasCategory` answers `true` for the empty string and for an
absent name, which `normalizeCategory` turns into `"Pianos"`. -/
theorem hasCategory_empty_name :
    hasCategory (some (.str "")) = true ∧ hasCategory none = true ∧
    "" ∉ getAllCategories ∧ "" ∉ aliasKeys ∧
    normalizeCategory (some (.str "")) = .str "Pianos" ∧ normalizeCategory none = .str "Pianos" := by
  decide

/-- C26 (amended): for every name, `hasCategory(name)` is true exactly when the name
is absent or empty (it then stands for `"Pianos"`), one of the eleven category
names, or one of the six aliases; it is false for every other value, the
member names of `Object.prototype` included. -/
theorem hasCategory_iff (name : Option String) :
    hasCategory (name.map JSValue.str) = true ↔
      name = none ∨ name = some "" ∨
      ∃ n, name = some n ∧ (n ∈ getAllCategories ∨ n ∈ aliasKeys) := by
  cases name with
  | none => simp only [Option.map_none', true_or, iff_true]; decide
  | some n =>
    by_cases hn : n = ""
    · subst hn
      simp only [Option.map_some', Option.some.injEq, true_or, or_true, iff_true]
      decide
    · have htr : (JSValue.str n).truthy = true := by simp [JSValue.truthy, hn]
      have hnorm : normalizeCategory (some (.str n)) =
          match aliasesAt n with
          | some target => target
          | none => .str n := by
        simp [normalizeCategory, htr, JSValue.toText]
      have hrhs : (some n = none ∨ some n = some "" ∨
          ∃ k, some n = some k ∧ (k ∈ getAllCategories ∨ k ∈ aliasKeys)) ↔
          (n ∈ getAllCategories ∨ n ∈ aliasKeys) := by
        constructor
        · intro h
          rcases h with h | h | ⟨k, hk, h⟩
          · cases h
          · exact absurd (Option.some.inj h) hn
          · cases hk; exact h
        · intro h
          exact Or.inr (Or.inr ⟨n, rfl, h⟩)
      rw [hrhs]
      simp only [Option.map_some', hasCategory, hnorm]
      rcases aliasesAt_cases n with ⟨target, hmem, hal⟩ | ⟨hk, hp, hal⟩ | ⟨hk, hp, hal⟩
      · rw [hal]
        simp only [(alias_targets_are_categories _ hmem).1, true_iff]
        exact Or.inr (List.mem_map.mpr ⟨(n, target), hmem, rfl⟩)
      · rw [hal]
        simp only [(inherited_members_are_not_categories n hp).1, false_iff, not_or,
          Bool.false_eq_true]
        have hno : ∀ k ∈ objectPrototypeMembers, k ∉ getAllCategories := by decide
        exact ⟨hno n hp, hk⟩
      · rw [hal]
        simp only [inCategories, JSValue.toText, hp, decide_False, Bool.or_false,
          decide_eq_true_eq]
        constructor
        · intro h; exact Or.inl h
        · intro h
          rcases h with h | h
          · exact h
          · exact absurd h hk

/-- C30: the category tables are mutually consistent.  Every alias target is one of the
eleven categories and no alias key is itself a category; `normalizeCategory` is
idempotent on every value; `getDisplayOrder()` lists exactly the names of
`getAllCategories()`, each once, and returns a fresh copy: overwriting the
returned array does not change what a later call returns. -/
theorem category_tables_consistent :
    (∀ e ∈ aliases, e.2 ∈ getAllCategories) ∧
    (∀ e ∈ aliases, e.1 ∉ getAllCategories) ∧
    getAllCategories.length = 11 ∧ aliasKeys.length = 6 ∧
    (∀ x : Option JSValue,
      normalizeCategory (some (normalizeCategory x)) = normalizeCategory x) ∧
    (({} : CategoriesHeap).getDisplayOrder.1.read ({} : CategoriesHeap).getDisplayOrder.2 =
      getAllCategories) ∧
    getAllCategories.Nodup ∧
    ({} : CategoriesHeap).getDisplayOrder.2 ≠ ({} : CategoriesHeap).displayOrderRef ∧
    (∀ contents : List String,
      ((({} : CategoriesHeap).getDisplayOrder.1.write
          ({} : CategoriesHeap).getDisplayOrder.2 contents).getDisplayOrder.1.read
        ((({} : CategoriesHeap).getDisplayOrder.1.write
          ({} : CategoriesHeap).getDisplayOrder.2 contents).getDisplayOrder.2)) =
        getAllCategories) := by
  refine ⟨by decide, by decide, by decide, by decide, ?_, by decide, by decide, by decide, ?_⟩
  · intro x
    have hP : normalizeCategory (some (.str "Pianos")) = .str "Pianos" := by decide
    cases x with
    | none => exact hP
    | some v =>
      by_cases htr : v.truthy = true
      · have hnorm : normalizeCategory (some v) =
            match aliasesAt v.toText with
            | some target => target
            | none => v := by
          simp [normalizeCategory, htr]
        rcases aliasesAt_cases v.toText with ⟨target, hmem, hal⟩ | ⟨_, hp, hal⟩ | ⟨_, _, hal⟩
        · rw [hnorm, hal]
          exact (alias_targets_are_categories _ hmem).2.2.2
        · rw [hnorm, hal]
          exact (inherited_members_are_not_categories _ hp).2
        · rw [hnorm, hal]
          simp only []
          simp [normalizeCategory, htr, hal]
      · have hnorm : normalizeCategory (some v) = .str "Pianos" := by
          simp [normalizeCategory, htr]
        rw [hnorm]
        exact hP
  · intro contents
    rfl

end TerraMidi
